import Mathlib

/-!
# Verification of the ODT exam-document processing pipeline

Shallow embedding of the Python sources under `modules/` (content grouping,
image-role classification, validation, question building, XML assembly) and
proofs about the behaviours described in the specification.

All document text is modelled as `List Char` (named `Str`), matching Python
`str` for the ASCII inputs this pipeline handles.  Python regular expressions
used by the source are translated into dedicated character-level scanners,
each documented with the pattern it implements.
-/

/-- Text, modelled as a list of characters. -/
abbrev Str := List Char

/-- Convert a Lean string literal to the `Str` representation. -/
def sl (s : String) : Str := s.toList

/-- Python whitespace class `\s` (ASCII part): space, tab, newline, CR, VT, FF. -/
def isPyWs (c : Char) : Bool :=
  c = ' ' || c = '\t' || c = '\n' || c = '\x0d' || c = Char.ofNat 11 || c = Char.ofNat 12

/-- ASCII decimal digit, Python regex `\d` (ASCII part). -/
def isDigitCh (c : Char) : Bool := '0' ≤ c && c ≤ '9'

/-- Python regex word character `\w` (ASCII part): letters, digits, underscore. -/
def isWordCh (c : Char) : Bool :=
  ('a' ≤ c && c ≤ 'z') || ('A' ≤ c && c ≤ 'Z') || isDigitCh c || c = '_'

/-- Uppercase ASCII letter, regex class `[A-Z]`. -/
def isUpperCh (c : Char) : Bool := 'A' ≤ c && c ≤ 'Z'

/-- ASCII letter, regex class `[a-zA-Z]`. -/
def isLetterCh (c : Char) : Bool := ('a' ≤ c && c ≤ 'z') || ('A' ≤ c && c ≤ 'Z')

/-- Python `str.lower()` (ASCII). -/
def pyLower (s : Str) : Str := s.map Char.toLower

/-- Python `str.upper()` (ASCII). -/
def pyUpper (s : Str) : Str := s.map Char.toUpper

/-- Python `str.strip()`: drop leading and trailing whitespace. -/
def pyStrip (s : Str) : Str :=
  ((s.dropWhile isPyWs).reverse.dropWhile isPyWs).reverse

/-- Index of the first occurrence of `pat` in `s` (Python `str.find` when hit). -/
def findSub : Str → Str → Option Nat
  | s, pat =>
    if pat.isPrefixOf s then some 0
    else match s with
      | [] => none
      | _ :: t => (findSub t pat).map (· + 1)

/-- Python `pat in s` substring test. -/
def containsSub (s pat : Str) : Bool := (findSub s pat).isSome

/-- Case-insensitive substring test (regex `re.search(lit, s, re.IGNORECASE)`
for a literal `lit`). -/
def containsSubCI (s pat : Str) : Bool := containsSub (pyLower s) (pyLower pat)

/-- Length of the maximal whitespace run at the head of `s` (regex `\s*`). -/
def wsRun (s : Str) : Nat := (s.takeWhile isPyWs).length

/-- Length of the maximal digit run at the head of `s` (regex `\d*`). -/
def digitRun (s : Str) : Nat := (s.takeWhile isDigitCh).length

/-- Length of the maximal word-character run at the head of `s` (regex `\w*`). -/
def wordRun (s : Str) : Nat := (s.takeWhile isWordCh).length

/-- Regex `\b` on the right: the next character (if any) is not a word
character. -/
def nonWordHead (s : Str) : Bool :=
  match s with
  | [] => true
  | c :: _ => !(isWordCh c)

/-- Regex `\b` on the left: the previous character (if any) is not a word
character (`none` = start of string). -/
def leftBd (prev : Option Char) : Bool :=
  match prev with
  | none => true
  | some c => !(isWordCh c)

/-- Python `s.split(sep, 1)[1]` when `sep` occurs: text after the first
occurrence of `sep`. -/
def afterFirst (s pat : Str) : Option Str :=
  (findSub s pat).map (fun i => s.drop (i + pat.length))

/-- Python `s.replace(pat, rep)`: replace all non-overlapping occurrences,
scanning left to right. -/
def pyReplace (fuel : Nat) (s pat rep : Str) : Str :=
  match fuel with
  | 0 => s
  | fuel + 1 =>
    match findSub s pat with
    | none => s
    | some i =>
      s.take i ++ rep ++ pyReplace fuel (s.drop (i + pat.length)) pat rep

/-- Python `s.split(c)` on a single character separator. -/
def splitOnCh (c : Char) (s : Str) : List Str :=
  match s with
  | [] => [[]]
  | x :: xs =>
    let rest := splitOnCh c xs
    if x = c then [] :: rest
    else match rest with
      | [] => [[x]]
      | r :: rs => (x :: r) :: rs

/-- Python `s.splitlines()` restricted to `\n` separators, with the
empty-string corner case (`"".splitlines() == []`). -/
def pySplitLinesNoEmpty (s : Str) : List Str :=
  if s = [] then [] else splitOnCh '\n' s

/-- Try `f` at every suffix of `s` (leftmost first, every position including
the end), returning the first hit: the scanning core of `re.search`. -/
def scanFirst (f : Str → Option α) : Str → Option α
  | [] => f []
  | s@(_ :: t) =>
    match f s with
    | some a => some a
    | none => scanFirst f t

/-- `True` when `p` holds at some position, scanning with the previous
character available (for word-boundary tests). -/
def anyPosWithPrev (p : Option Char → Str → Bool) : Option Char → Str → Bool
  | prev, s =>
    p prev s ||
      match s with
      | [] => false
      | c :: t => anyPosWithPrev p (some c) t

/-- Parse a literal. -/
def litP (pat s : Str) : Option Str :=
  if pat.isPrefixOf s then some (s.drop pat.length) else none

/-- Regex `\s+`: at least one whitespace character, maximal munch. -/
def ws1P (s : Str) : Option Str :=
  if wsRun s ≥ 1 then some (s.drop (wsRun s)) else none

/-- Regex `(\d+)`: at least one digit, maximal munch, captured. -/
def digits1P (s : Str) : Option (Str × Str) :=
  if digitRun s ≥ 1 then some (s.takeWhile isDigitCh, s.drop (digitRun s)) else none

/-- Regex `re.search(r'Topic\s+(\d+),\s+Case\s+Study\s+(\d+)', text)` from
`CaseStudyContentGrouper._handle_case_study_markers`: the captured topic and
case-study numbers of the first match, if any. -/
def topicCaseSearch (text : Str) : Option (Str × Str) :=
  scanFirst (fun s => do
    let s ← litP (sl "Topic") s
    let s ← ws1P s
    let (topic, s) ← digits1P s
    let s ← litP (sl ",") s
    let s ← ws1P s
    let s ← litP (sl "Case") s
    let s ← ws1P s
    let s ← litP (sl "Study") s
    let s ← ws1P s
    let (cs, _) ← digits1P s
    pure (topic, cs)) text

/-- Regex `re.search(r'QUESTION NO:\s*(\d+)', text, re.IGNORECASE)` from
`get_question_number`: the captured digits of the first match, if any. -/
def get_question_number (text : Str) : Option Str :=
  scanFirst (fun s => do
    let s ← litP (sl "question no:") s
    let (d, _) ← digits1P (s.drop (wsRun s))
    pure d) (pyLower text)

/-- Regex `re.search(r'QUESTION NO:\s*\d+\s*(\w+)', text, re.IGNORECASE)` from
`get_question_type`: the captured `\w+` group, scanned over the lowercased
text (the caller only uses its uppercase form).  When no word character
follows the digits, the regex engine backtracks `\d+` by one digit and the
group becomes the final digit; one backtracking step always succeeds when at
least two digits are present. -/
def explicitDeclared (text : Str) : Option Str :=
  scanFirst (fun s => do
    let s ← litP (sl "question no:") s
    let s := s.drop (wsRun s)
    let d := digitRun s
    if d = 0 then none
    else
      let afterD := s.drop d
      let afterWs := afterD.drop (wsRun afterD)
      let m := wordRun afterWs
      if m ≥ 1 then pure (afterWs.take m)
      else if d ≥ 2 then pure ((s.drop (d-1)).take (wordRun (s.drop (d-1))))
      else none) (pyLower text)

/-- A word-bounded literal occurs starting here (left boundary supplied by the
caller, right boundary checked after the literal). -/
def wordHere (w : Str) (prev : Option Char) (s : Str) : Bool :=
  leftBd prev && w.isPrefixOf s && nonWordHead (s.drop w.length)

/-- Rest of the string after the first word-bounded occurrence of `w` at or
after the current position. -/
def findWordEnd (w : Str) : Option Char → Str → Option Str
  | prev, s =>
    if wordHere w prev s then some (s.drop w.length)
    else match s with
      | [] => none
      | c :: t => findWordEnd w (some c) t

/-- Word-bounded literals occurring in order (regex `\bw1\b.*\bw2\b...` within
one line, `.` not matching newlines). -/
def chainFrom : Option Char → Str → List Str → Bool
  | _, _, [] => true
  | prev, s, w :: ws =>
    match findWordEnd w prev s with
    | none => false
    | some rest => chainFrom (some (w.getLastD ' ')) rest ws

/-- The word chain matches within some newline-delimited line of `t`. -/
def lineChain (t : Str) (ws : List Str) : Bool :=
  (splitOnCh '\n' t).any (fun line => chainFrom none line ws)

/-- Regex alternative `\bhot\s*spot\b` on lowercased text. -/
def hotSpotWordScan (t : Str) : Bool :=
  anyPosWithPrev (fun prev s =>
    leftBd prev && (sl "hot").isPrefixOf s &&
      (let r := s.drop 3
       let r2 := r.drop (wsRun r)
       (sl "spot").isPrefixOf r2 && nonWordHead (r2.drop 4))) none t

/-- Regex
`re.search(r'\bhot\s*spot\b|\bselect\b.*\byes\b.*\bif\b|\bselect\b.*\bstatement\b.*\btrue\b', text, re.IGNORECASE)`
from `get_question_type` (HOTSPOT cues). -/
def hotspotCue (text : Str) : Bool :=
  let t := pyLower text
  hotSpotWordScan t || lineChain t [sl "select", sl "yes", sl "if"] ||
    lineChain t [sl "select", sl "statement", sl "true"]

/-- Regex alternative `\bcorrect\b\s+\bmatch\b` on lowercased text. -/
def correctMatchScan (t : Str) : Bool :=
  anyPosWithPrev (fun prev s =>
    leftBd prev && (sl "correct").isPrefixOf s &&
      (let r := s.drop 7
       wsRun r ≥ 1 &&
         (let r2 := r.drop (wsRun r)
          (sl "match").isPrefixOf r2 && nonWordHead (r2.drop 5)))) none t

/-- Regex
`re.search(r'\bdrag\b.*\bdrop\b|\bmatch\b.*\bitem\b|\bdrag\b.*\bappropriate\b|\bcorrect\b\s+\bmatch\b', text, re.IGNORECASE)`
from `get_question_type` (DRAGDROP cues). -/
def dragdropCue (text : Str) : Bool :=
  let t := pyLower text
  lineChain t [sl "drag", sl "drop"] || lineChain t [sl "match", sl "item"] ||
    lineChain t [sl "drag", sl "appropriate"] || correctMatchScan t

/-- Regex alternative `\bdrop\s*down\b` on lowercased text. -/
def dropDownWordScan (t : Str) : Bool :=
  anyPosWithPrev (fun prev s =>
    leftBd prev && (sl "drop").isPrefixOf s &&
      (let r := s.drop 4
       let r2 := r.drop (wsRun r)
       (sl "down").isPrefixOf r2 && nonWordHead (r2.drop 4))) none t

/-- A word-bounded literal phrase occurs somewhere. -/
def phraseScan (w : Str) (t : Str) : Bool :=
  anyPosWithPrev (fun prev s =>
    leftBd prev && w.isPrefixOf s && nonWordHead (s.drop w.length)) none t

/-- Regex alternative `\bselect the appropriate options? in the answer area\b`
on lowercased text: the optional `s?` is tried with the `s` first, then
without. -/
def selectOptionsScan (t : Str) : Bool :=
  anyPosWithPrev (fun prev s =>
    leftBd prev && (sl "select the appropriate option").isPrefixOf s &&
      (let r := s.drop 29
       ((sl "s in the answer area").isPrefixOf r && nonWordHead (r.drop 20)) ||
         ((sl " in the answer area").isPrefixOf r && nonWordHead (r.drop 19)))) none t

/-- Regex
`re.search(r'\bdrop\s*down\b|\bselect\b.*\bfrom\b.*\bmenu\b|\bcorrectly completes the sentence\b|\bselect the appropriate options? in the answer area\b', text, re.IGNORECASE)`
from `get_question_type` (DROPDOWN cues). -/
def dropdownCue (text : Str) : Bool :=
  let t := pyLower text
  dropDownWordScan t || lineChain t [sl "select", sl "from", sl "menu"] ||
    phraseScan (sl "correctly completes the sentence") t || selectOptionsScan t

/-- Regex `re.findall(r'^[A-Z]\.\s+', text, re.MULTILINE)` is non-empty: some
line starts with an uppercase letter, a dot and at least one whitespace
character (`get_question_type`, option detection). -/
def multiOptionsExist (text : Str) : Bool :=
  anyPosWithPrev (fun prev s =>
    (prev = none || prev = some '\n') &&
      match s with
      | c :: '.' :: d :: _ => isUpperCh c && isPyWs d
      | _ => false) none text

/-- Continuation `(?:,\s*[A-Z])*` of the answer-letter regex: greedily collect
`, letter` groups, stopping before a comma not followed by a letter. -/
def ansMore : Nat → Str → List Str
  | 0, _ => []
  | fuel + 1, s =>
    match s with
    | ',' :: r =>
      let r2 := r.drop (wsRun r)
      match r2 with
      | c :: rest => if isUpperCh c then [c] :: ansMore fuel rest else []
      | [] => []
    | _ => []

/-- Regex `re.search(r'Answer:\s*([A-Z](?:,\s*[A-Z])*)', text)` (case
sensitive), returning the comma-separated answer letters of the first match
(the source splits the captured group on commas and strips; the result is
exactly this letter list). -/
def answerLetters (text : Str) : Option (List Str) :=
  scanFirst (fun s => do
    let s ← litP (sl "Answer:") s
    let r := s.drop (wsRun s)
    match r with
    | c :: rest => if isUpperCh c then some ([c] :: ansMore rest.length rest) else none
    | [] => none) text

/-- `get_question_type` cue: the POSITIONEDDRAGDROP pattern battery.  Under
`re.IGNORECASE` the six listed patterns reduce to the two distinct
case-insensitive substring tests below (patterns 5 and 6 contain pattern 1 as
a subterm and cannot match without it). -/
def pddCue (text : Str) : Bool :=
  containsSubCI text (sl "positioneddragdrop") || containsSubCI text (sl "positioned dragdrop")

/-- `get_question_type` cue: the POSITIONEDDROPDOWN pattern battery (same
reduction as `pddCue`). -/
def pdoCue (text : Str) : Bool :=
  containsSubCI text (sl "positioneddropdown") || containsSubCI text (sl "positioned dropdown")

/-- `get_question_type` cue: the FILLINTHEBLANK pattern battery.  Patterns
1-3 and 5 reduce to the case-insensitive substring `fillintheblank`, pattern 4
to `fill in the blank`, and `r'_{3,}'` to the substring `___`. -/
def fibCue (text : Str) : Bool :=
  containsSubCI text (sl "fillintheblank") || containsSubCI text (sl "fill in the blank") ||
    containsSub text (sl "___")

/-- `get_question_type` cue: the SIMULATION pattern battery, reducing to one
case-insensitive substring test. -/
def simCue (text : Str) : Bool := containsSubCI text (sl "simulation")

/-- The allow-list checked against the uppercased declared type in
`get_question_type` (kept verbatim; the `FillInTheBlank` entry can never
match an uppercased string, as in the source). -/
def declaredTypeList : List Str :=
  [sl "HOTSPOT", sl "DRAGDROP", sl "DROPDOWN", sl "RADIOBUTTON", sl "MULTIPLECHOICE",
   sl "FillInTheBlank", sl "SIMULATION", sl "POSITIONEDDROPDOWN"]

/-- The lexical-cue fallback of `get_question_type`: HOTSPOT, DRAGDROP and
DROPDOWN cues in order, then the lettered-option/answer-letter check, with
`SingleChoice` as the default. -/
def cueFallback (text : Str) : Str :=
  if hotspotCue text then sl "HOTSPOT"
  else if dragdropCue text then sl "DRAGDROP"
  else if dropdownCue text then sl "DROPDOWN"
  else
    match multiOptionsExist text, answerLetters text with
    | true, some as0 =>
      if as0.length > 1 then sl "MultipleChoice" else sl "SingleChoice"
    | _, _ => sl "SingleChoice"

/-- `modules/utils/text_helpers.get_question_type`. -/
def get_question_type (text : Str) : Str :=
  if pddCue text then sl "POSITIONEDDRAGDROP"
  else if pdoCue text then sl "POSITIONEDDROPDOWN"
  else if fibCue text then sl "FILLINTHEBLANK"
  else if simCue text then sl "SIMULATION"
  else
    match explicitDeclared text with
    | some w => if pyUpper w ∈ declaredTypeList then pyUpper w else cueFallback text
    | none => cueFallback text

/-- Match at a line start of `^([A-Z])\.\s+(.*?)$` (MULTILINE): letter, dot,
at least one whitespace character (greedy, may cross the newline), then the
lazy capture runs to the first line end, i.e. up to the next newline. -/
def findOptionLines : Nat → Bool → Str → List (Str × Str)
  | 0, _, _ => []
  | fuel + 1, ls, s =>
    match s with
    | [] => []
    | c :: t =>
      if ls && isUpperCh c && (t.headD ' ' = '.') && wsRun (t.drop 1) ≥ 1 then
        let afterDot := t.drop 1
        let rest := afterDot.drop (wsRun afterDot)
        let cap := rest.takeWhile (· ≠ '\n')
        ([c], cap) :: findOptionLines fuel false (rest.drop cap.length)
      else findOptionLines fuel (c = '\n') t

/-- `re.finditer(r'^([A-Z])\.\s+(.*?)$', text, re.MULTILINE)` from
`extract_options_from_text`: (letter, option text) pairs, option text
stripped as in the source. -/
def optionMatches (text : Str) : List (Str × Str) :=
  (findOptionLines (text.length + 1) true text).map (fun p => (p.1, pyStrip p.2))

/-- `modules/utils/text_helpers.extract_options_from_text` (options, correct
answers, possibly-updated question type). -/
def extract_options_from_text (text : Str) (qType : Str) :
    List (Str × Str) × List Str × Str :=
  if qType = sl "SingleChoice" ∨ qType = sl "MultipleChoice" then
    let options := optionMatches text
    match answerLetters text with
    | some as0 =>
      (options, as0, if as0.length > 1 then sl "MultipleChoice" else qType)
    | none => (options, [], qType)
  else ([], [], qType)

/-! ## Data model (`modules/core`) -/

/-- An embedded image dictionary (`{"data": ..., "format": ..., "path": ...}`);
the byte payload is kept as an opaque byte list. -/
structure Img where
  data : List Nat
  fmt : Str
  path : Str
deriving DecidableEq, Repr

/-- `modules/core/content_processor_base.ContentItem`: one ordered content
unit (the `type` and `frame_refs` bookkeeping fields play no role after
extraction and are omitted). -/
structure ContentItem where
  content : Str
  images : List Img
deriving DecidableEq, Repr

/-- `ContentItem.has_question_start`. -/
def hasQuestionStart (item : ContentItem) : Bool :=
  containsSub (pyUpper item.content) (sl "QUESTION NO:")

/-- A question record as built by
`BaseContentGrouper._create_question_from_item`: number, inferred type, the
ordered content items, concatenated text and aggregated images.  The number
is `none` when no `QUESTION NO: <digits>` match exists (Python `None`). -/
structure Question where
  number : Option Str
  qtype : Str
  content_items : List ContentItem
  text : Str
  images : List Img
deriving DecidableEq, Repr

/-- One entry of a case-study segment (`Text`, `Title` or `Image` content
dictionaries appended by the grouper). -/
inductive SegEntry where
  | text (s : Str)
  | title (s : Str)
  | image (img : Img) (isAnswer : Bool)
deriving DecidableEq, Repr

/-- A finalized case-study segment (`{"name": ..., "contents": ...}`). -/
structure Segment where
  name : Str
  contents : List SegEntry
deriving DecidableEq, Repr

/-- A case-study record as built by `CaseStudyState.start_case_study`. -/
structure CaseStudy where
  topic_number : Str
  number : Str
  topic_name : Str
  segments : List Segment
  questions : List Question
  images : List Img
deriving DecidableEq, Repr

/-- `modules/core/case_study_processor.CaseStudyState`. -/
structure CSState where
  topic_number : Str
  case_study_number : Str
  topic_name : Str
  current_case_study : Option CaseStudy
  current_segment_name : Str
  current_segment_contents : List SegEntry
  in_case_study : Bool
  in_case_study_details : Bool
  next_image_is_case_study : Bool
deriving DecidableEq, Repr

/-- `CaseStudyState.__init__` / `CaseStudyState.reset`. -/
def CSState.reset : CSState :=
  ⟨[], [], [], none, [], [], false, false, false⟩

/-- `CaseStudyState.start_case_study`. -/
def CSState.start_case_study (st : CSState) : CSState :=
  { st with
    in_case_study := true
    current_case_study := some
      ⟨st.topic_number, st.case_study_number, st.topic_name, [], [], []⟩ }

/-- `CaseStudyState.finalize_current_segment`: push the open segment onto the
open case study when the segment has a name and contents. -/
def CSState.finalize_current_segment (st : CSState) : CSState :=
  match st.current_case_study with
  | some cs =>
    if st.current_segment_name ≠ [] ∧ st.current_segment_contents ≠ [] then
      { st with
        current_case_study := some
          { cs with segments := cs.segments ++ [⟨st.current_segment_name, st.current_segment_contents⟩] }
        current_segment_contents := [] }
    else st
  | none => st

/-- The full state of `CaseStudyContentGrouper`: the open question handle from
the base class plus the result collections and the case-study state. -/
structure GState where
  current_question : Option Question
  standalone_questions : List Question
  case_studies : List CaseStudy
  cs : CSState
deriving DecidableEq, Repr

/-- `CaseStudyContentGrouper.__init__`. -/
def GState.init : GState := ⟨none, [], [], CSState.reset⟩

/-- `BaseContentGrouper._create_question_from_item`. -/
def create_question_from_item (item : ContentItem) : Question :=
  ⟨get_question_number item.content, get_question_type item.content,
   [item], item.content, item.images⟩

/-- `BaseContentGrouper._add_item_to_current_question` (the open-question
branch). -/
def add_item_to_question (q : Question) (item : ContentItem) : Question :=
  { q with
    content_items := q.content_items ++ [item]
    text := q.text ++ '\n' :: item.content
    images := q.images ++ item.images }

/-- `CaseStudyContentGrouper._finalize_current_question`: append the open
question to the open case study when inside one, else to the standalone list
(no duplicate check on either path). -/
def GState.finalize_current_question (g : GState) : GState :=
  match g.current_question with
  | none => g
  | some q =>
    if g.cs.in_case_study then
      match g.cs.current_case_study with
      | some cs =>
        { g with
          current_question := none
          cs := { g.cs with current_case_study := some { cs with questions := cs.questions ++ [q] } } }
      | none => { g with current_question := none, standalone_questions := g.standalone_questions ++ [q] }
    else { g with current_question := none, standalone_questions := g.standalone_questions ++ [q] }

/-- `utils` for `_extract_topic_name`: strip matching double quotes. -/
def stripQuotes (s : Str) : Str :=
  if s.headD ' ' = '"' ∧ s.getLastD ' ' = '"' ∧ s.length ≥ 1 then
    pyStrip (s.drop 1 |>.dropLast)
  else s

/-- `CaseStudyContentGrouper._extract_topic_name`. -/
def extract_topic_name (text : Str) : Str :=
  match afterFirst text (sl "TopicName:") with
  | some rest => stripQuotes (pyStrip rest)
  | none => []

/-- `CaseStudyContentGrouper._finalize_case_study`: fold the open question
into the open case study with the duplicate-number check, finalize the open
segment, push the case study and reset all case-study state. -/
def GState.finalize_case_study (g : GState) : GState :=
  let g1 :=
    match g.current_question, g.cs.in_case_study, g.cs.current_case_study with
    | some q, true, some cs =>
      let numbers := cs.questions.map Question.number
      let cs' := if q.number ∈ numbers then cs else { cs with questions := cs.questions ++ [q] }
      { g with
        current_question := none
        cs := { g.cs with current_case_study := some cs' } }
    | _, _, _ => g
  match g1.cs.current_case_study with
  | some _ =>
    let st := g1.cs.finalize_current_segment
    match st.current_case_study with
    | some cs => { g1 with case_studies := g1.case_studies ++ [cs], cs := CSState.reset }
    | none => { g1 with cs := CSState.reset }
  | none => { g1 with cs := CSState.reset }

/-- `CaseStudyContentGrouper._handle_case_study_heading` (the `Segment:`
marker): finalize the previous segment, then open a segment named from the
marker argument. -/
def GState.handle_heading (g : GState) (text : Str) : GState :=
  let st := g.cs.finalize_current_segment
  match afterFirst text (sl "Segment:") with
  | some rest => { g with cs := { st with current_segment_name := pyStrip rest } }
  | none => { g with cs := st }

/-- `CaseStudyContentGrouper._handle_case_study_heading_title` (the `Title:`
marker): append a Title entry to the open segment. -/
def GState.handle_heading_title (g : GState) (text : Str) : GState :=
  match afterFirst text (sl "Title:") with
  | some rest =>
    { g with cs := { g.cs with current_segment_contents := g.cs.current_segment_contents ++ [.title (pyStrip rest)] } }
  | none => g

/-- `CaseStudyContentGrouper._handle_case_study_markers`: the priority-ordered
marker checks; `some` means the item was handled. -/
def GState.handle_case_study_markers (g : GState) (item : ContentItem) : Option GState :=
  let text := item.content
  match topicCaseSearch text with
  | some (t, c) => some { g with cs := { g.cs with topic_number := t, case_study_number := c } }
  | none =>
    if containsSub text (sl "TopicName:") then
      some { g with cs := { g.cs with topic_name := extract_topic_name text } }
    else if containsSub text (sl "CaseStudyStart:") then
      some { g with cs := g.cs.start_case_study }
    else if containsSub text (sl "CaseStudyEnd:") then
      some g.finalize_case_study
    else if containsSub text (sl "CaseStudyDetailsStart:") then
      some { g with cs := { g.cs with in_case_study_details := true } }
    else if containsSub text (sl "CaseStudyDetailsEnd:") then
      some { g with cs := { g.cs with in_case_study_details := false, next_image_is_case_study := false } }
    else if g.cs.in_case_study_details ∧ containsSub text (sl "Segment:") ∧ g.cs.current_case_study.isSome then
      some (g.handle_heading text)
    else if g.cs.in_case_study_details ∧ containsSub text (sl "Title:") ∧
        g.cs.current_case_study.isSome ∧ g.cs.current_segment_name ≠ [] then
      some (g.handle_heading_title text)
    else if containsSub text (sl "CaseStudyImage:") then
      some { g with cs := { g.cs with next_image_is_case_study := true } }
    else none

/-- `CaseStudyContentGrouper._handle_question_markers`: on a question-start
marker, finalize the open question and open a new one from this item. -/
def GState.handle_question_markers (g : GState) (item : ContentItem) : Option GState :=
  if hasQuestionStart item then
    let g1 := g.finalize_current_question
    some { g1 with current_question := some (create_question_from_item item) }
  else none

/-- `CaseStudyContentGrouper._handle_case_study_content`: consume a pending
case-study image, or append details text to the open (or new default)
segment; `some` means the item was handled. -/
def GState.handle_case_study_content (g : GState) (item : ContentItem) : Option GState :=
  let text := item.content
  match g.cs.next_image_is_case_study && !item.images.isEmpty, g.cs.current_case_study with
  | true, some cs =>
    let cs' := { cs with images := cs.images ++ item.images }
    let segAdd :=
      if g.cs.in_case_study_details ∧ g.cs.current_segment_name ≠ [] then
        item.images.map (fun img => SegEntry.image img false)
      else []
    some { g with cs :=
      { g.cs with
        current_case_study := some cs'
        current_segment_contents := g.cs.current_segment_contents ++ segAdd
        next_image_is_case_study := false } }
  | _, _ =>
    if g.cs.in_case_study_details ∧ g.cs.current_case_study.isSome then
      if g.cs.current_segment_name ≠ [] then
        if pyStrip text ≠ [] then
          some { g with cs := { g.cs with current_segment_contents := g.cs.current_segment_contents ++ [.text (pyStrip text)] } }
        else some g
      else if pyStrip text ≠ [] then
        some { g with cs :=
          { g.cs with
            current_segment_name := sl "Introduction"
            current_segment_contents := g.cs.current_segment_contents ++ [.text (pyStrip text)] } }
      else none
    else none

/-- `CaseStudyContentGrouper._process_single_item`: markers in priority order,
then the default append-to-open-question behaviour. -/
def GState.process_single_item (g : GState) (item : ContentItem) : GState :=
  match g.handle_case_study_markers item with
  | some g' => g'
  | none =>
    match g.handle_question_markers item with
    | some g' => g'
    | none =>
      match g.handle_case_study_content item with
      | some g' => g'
      | none =>
        match g.current_question with
        | some q => { g with current_question := some (add_item_to_question q item) }
        | none => g

/-- `CaseStudyContentGrouper._finalize_processing`: flush the open question
(no duplicate check) and the open case study at end of input. -/
def GState.finalize_processing (g : GState) : GState :=
  let g1 :=
    match g.current_question with
    | some q =>
      if g.cs.in_case_study then
        match g.cs.current_case_study with
        | some cs =>
          { g with cs := { g.cs with current_case_study := some { cs with questions := cs.questions ++ [q] } } }
        | none => { g with standalone_questions := g.standalone_questions ++ [q] }
      else { g with standalone_questions := g.standalone_questions ++ [q] }
    | none => g
  match g1.cs.current_case_study with
  | some _ =>
    let st := g1.cs.finalize_current_segment
    match st.current_case_study with
    | some cs => { g1 with cs := st, case_studies := g1.case_studies ++ [cs] }
    | none => { g1 with cs := st }
  | none => g1

/-- `CaseStudyContentGrouper.process_content_items`: the full grouping run,
returning `(standalone_questions, case_studies)`. -/
def process_content_items (items : List ContentItem) : List Question × List CaseStudy :=
  let g := (items.foldl GState.process_single_item GState.init).finalize_processing
  (g.standalone_questions, g.case_studies)

/-! ## Image classifier (`modules/image_processing/image_processor.identify_image_types`) -/

/-- The role set by a content item's markers in `identify_image_types`
(`elif` chain, first match wins), or `none` when no marker occurs. -/
def itemRoleMarker (content : Str) : Option Str :=
  if containsSub content (sl "QuestionOptionImage:") then some (sl "question")
  else if containsSub content (sl "AnswerOptionImage:") then some (sl "answer")
  else if containsSub content (sl "QuestionDescriptionImage:") then some (sl "description")
  else if containsSub content (sl "JustDropDown:") then some (sl "justdropdown")
  else if containsSub content (sl "PositionedImage:") then some (sl "positioned")
  else if containsSub content (sl "BackgroundImage:") then some (sl "background")
  else if containsSub content (sl "JustCoordinates:") then some (sl "just_coordinates")
  else none

/-- A Python dict modelled as an insertion sequence; lookup returns the value
of the last assignment to a key. -/
def dictGet? (m : List (Str × Str)) (k : Str) : Option Str :=
  (m.reverse.find? (fun p => p.1 = k)).map (·.2)

/-- One step of `identify_image_types`: update the sticky role from the
item's markers, then record that role for every image path the item carries. -/
def identifyStep (acc : List (Str × Str) × Option Str) (item : ContentItem) :
    List (Str × Str) × Option Str :=
  let cur :=
    match itemRoleMarker (pyStrip item.content) with
    | some r => some r
    | none => acc.2
  match cur with
  | some r =>
    if item.images.isEmpty then (acc.1, cur)
    else (acc.1 ++ item.images.map (fun img => (img.path, r)), cur)
  | none => (acc.1, cur)

/-- `identify_image_types`: the image-path-to-role mapping produced by one
ordered scan with a sticky current role. -/
def identify_image_types (items : List ContentItem) : List (Str × Str) :=
  (items.foldl identifyStep ([], none)).1

/-- The role the builder consumes for an image path:
`image_types.get(path, "description")` in
`BaseQuestion._add_sequential_content`. -/
def consumedRole (m : List (Str × Str)) (path : Str) : Str :=
  (dictGet? m path).getD (sl "description")

/-! ## XML element model (`xml.etree.ElementTree`) -/

/-- An `ElementTree` element: tag, attributes in assignment order, optional
text, ordered children. -/
inductive XmlElem where
  | mk (tag : Str) (attrs : List (Str × Str)) (text : Option Str) (children : List XmlElem)
deriving Repr

/-- Element tag. -/
def XmlElem.tag : XmlElem → Str
  | .mk t _ _ _ => t

/-- Element attributes. -/
def XmlElem.attrs : XmlElem → List (Str × Str)
  | .mk _ a _ _ => a

/-- Element text. -/
def XmlElem.text : XmlElem → Option Str
  | .mk _ _ x _ => x

/-- Element children. -/
def XmlElem.children : XmlElem → List XmlElem
  | .mk _ _ _ c => c

/-- First attribute value for a name (`Element.get`). -/
def XmlElem.attr? (e : XmlElem) (name : Str) : Option Str :=
  (e.attrs.find? (fun p => p.1 = name)).map (·.2)

/-- A leaf element with text (`ET.SubElement(...).text = ...`). -/
def leafX (tag : Str) (txt : Str) : XmlElem := .mk tag [] (some txt) []

/-- A leaf element with no text assigned. -/
def leafX0 (tag : Str) : XmlElem := .mk tag [] none []

/-- `e` or some descendant has tag `t` (used to reason about which tags the
assembler can ever emit). -/
inductive HasTag (t : Str) : XmlElem → Prop where
  | here (tag : Str) (attrs : List (Str × Str)) (txt : Option Str) (ch : List XmlElem) :
      tag = t → HasTag t (.mk tag attrs txt ch)
  | child (tag : Str) (attrs : List (Str × Str)) (txt : Option Str) (ch : List XmlElem)
      (e : XmlElem) : e ∈ ch → HasTag t e → HasTag t (.mk tag attrs txt ch)

/-! ## Builder text helpers (`modules/questions/question_base.py`) -/

/-- `True` at some suffix of `s`. -/
def anySuffix (p : Str → Bool) : Str → Bool
  | [] => p []
  | s@(_ :: t) => p s || anySuffix p t

/-- Character excluded from URL bodies: regex class `[^\s\)]` complement. -/
def urlStop (c : Char) : Bool := isPyWs c || c = ')'

/-- `re.search(prefix ++ r'[^\s\)]+', t)` for a literal URL scheme: the
scheme occurs followed by at least one non-whitespace, non-parenthesis
character. -/
def httpsLike (pat : Str) (t : Str) : Bool :=
  anySuffix (fun s =>
    pat.isPrefixOf s && !(urlStop ((s.drop pat.length).headD ' ')) && (s.drop pat.length) ≠ []) t

/-- Length of the match of `www\.[^\s\)]+\.[a-zA-Z]{2,}` anchored at this
position, if any: the greedy body backtracks to the rightmost interior dot
followed by at least two letters. -/
def wwwMatchHere (s : Str) : Option Nat :=
  if (sl "www.").isPrefixOf s then
    let body := s.drop 4
    let n := (body.takeWhile (fun c => !urlStop c)).length
    match ((List.range n).reverse.filter (fun j =>
        1 ≤ j && (body.drop j).headD ' ' = '.' &&
          ((body.drop (j+1)).takeWhile isLetterCh).length ≥ 2)).head? with
    | some j => some (4 + j + 1 + ((body.drop (j+1)).takeWhile isLetterCh).length)
    | none => none
  else none

/-- `re.search(r'www\.[^\s\)]+\.[a-zA-Z]{2,}', t)` as a boolean. -/
def wwwExists (t : Str) : Bool := anySuffix (fun s => (wwwMatchHere s).isSome) t

/-- `re.findall(pat ++ r'[^\s\)]+', s)`: non-overlapping scheme-prefixed URL
matches, left to right, greedy body. -/
def urlFindall : Nat → Str → Str → List Str
  | 0, _, _ => []
  | fuel + 1, pat, s =>
    match s with
    | [] => []
    | _ :: t =>
      let body := s.drop pat.length
      let run := body.takeWhile (fun c => !urlStop c)
      if pat.isPrefixOf s && run.length ≥ 1 then
        (pat ++ run) :: urlFindall fuel pat (body.drop run.length)
      else urlFindall fuel pat t

/-- `re.findall(r'www\.[^\s\)]+\.[a-zA-Z]{2,}', s)`: non-overlapping matches
left to right. -/
def wwwFindall : Nat → Str → List Str
  | 0, _ => []
  | fuel + 1, s =>
    match s with
    | [] => []
    | _ :: t =>
      match wwwMatchHere s with
      | some len => s.take len :: wwwFindall fuel (s.drop len)
      | none => wwwFindall fuel t

/-- `re.findall(r'\b[A-Z]\b', s)` from
`TextBasedQuestion._extract_answers_from_text`: word-bounded single
uppercase letters, in order. -/
def singleLetters : Option Char → Str → List Str
  | _, [] => []
  | prev, c :: t =>
    if leftBd prev && isUpperCh c && nonWordHead t then
      [c] :: singleLetters (some c) t
    else singleLetters (some c) t

/-- The marker alternation of `BaseQuestion._clean_item_text`
(`re.sub(r'(QuestionDescriptionImage:|BackgroundImage:|PositionedImage:|QuestionOptionImage:|AnswerOptionImage:|JustDropDown:|CaseStudyImage:)\s*', '', text)`),
first alternative matching at a position. -/
def markerHere (s : Str) : Option Nat :=
  [sl "QuestionDescriptionImage:", sl "BackgroundImage:", sl "PositionedImage:",
   sl "QuestionOptionImage:", sl "AnswerOptionImage:", sl "JustDropDown:",
   sl "CaseStudyImage:"].firstM
    (fun m => if m.isPrefixOf s then some m.length else none)

/-- Apply the marker-removal substitution (marker plus trailing whitespace
deleted, global). -/
def stripMarkers : Nat → Str → Str
  | 0, s => s
  | fuel + 1, s =>
    match s with
    | [] => []
    | c :: t =>
      match markerHere s with
      | some len =>
        let rest := s.drop len
        stripMarkers fuel (rest.drop (wsRun rest))
      | none => c :: stripMarkers fuel t

/-- `re.sub(r'^\s*QUESTION NO:\s*\d+.*?\n?', '', text, flags=re.IGNORECASE)`:
remove a leading question header (through its digits and one following
newline) when present. -/
def removeQnoHeader (s : Str) : Str :=
  let w := wsRun s
  let rest := s.drop w
  if (sl "question no:").isPrefixOf (pyLower rest) then
    let r2 := rest.drop 12
    let w2 := wsRun r2
    let d := digitRun (r2.drop w2)
    if d ≥ 1 then
      let after := (r2.drop w2).drop d
      if after.headD ' ' = '\n' ∧ after ≠ [] then after.drop 1 else after
    else s
  else s

/-- `re.sub(r'\s+', ' ', text)`: collapse each whitespace run to one space. -/
def collapseWs : Nat → Str → Str
  | 0, s => s
  | fuel + 1, s =>
    match s with
    | [] => []
    | c :: t =>
      if isPyWs c then ' ' :: collapseWs fuel (t.dropWhile isPyWs)
      else c :: collapseWs fuel t

/-- `re.sub(r'_{2,}', '[blank]', text)` from
`BaseQuestion._replace_blanks_with_keyword`. -/
def replaceBlanks : Nat → Str → Str
  | 0, s => s
  | fuel + 1, s =>
    match s with
    | [] => []
    | c :: t =>
      if c = '_' ∧ t.headD ' ' = '_' then
        sl "[blank]" ++ replaceBlanks fuel (t.dropWhile (· = '_'))
      else c :: replaceBlanks fuel t

/-- `BaseQuestion._extract_explanation`: the text after `Explanation:`, kept
line by line, dropping blank lines and lines containing a URL mark
(`re.search(r'https?://|https?:|www\.', line)`, which reduces to the three
substring tests below). -/
def extract_explanation (qtext : Str) : Str :=
  match afterFirst qtext (sl "Explanation:") with
  | some rest =>
    let lines := (splitOnCh '\n' (pyStrip rest)).map pyStrip
    let clean := lines.filter (fun l =>
      l ≠ [] && !(containsSub l (sl "http:") || containsSub l (sl "https:") || containsSub l (sl "www.")))
    List.intercalate (sl "\n") clean
  | none => []

/-- `BaseQuestion._extract_references`: URLs found by the four patterns in
order, concatenated, deduplicated preserving first occurrence. -/
def extract_references (q : Question) : List Str :=
  let all_text := q.content_items.foldl
    (fun acc item => if pyStrip item.content ≠ [] then acc ++ ' ' :: item.content else acc) q.text
  let n := all_text.length + 1
  let urls := urlFindall n (sl "https://") all_text ++ urlFindall n (sl "http://") all_text ++
    urlFindall n (sl "https:") all_text ++ wwwFindall n all_text
  urls.foldl (fun acc u => if u ∈ acc then acc else acc ++ [u]) []

/-- `BaseQuestion._is_answer_content`. -/
def is_answer_content (text : Str) : Bool :=
  let tl := pyStrip (pyLower text)
  (sl "answer:").isPrefixOf tl || containsSub tl (sl "choices") ||
    (let ts := pyStrip text
     isUpperCh (ts.headD ' ') && (ts.drop 1).headD ' ' = '.' && ts.length ≥ 2) ||
    (sl "explanation:").isPrefixOf tl ||
    httpsLike (sl "https://") text || httpsLike (sl "https:") text || wwwExists text

/-- The fixed list of `BaseQuestion._is_question_type_duplicate`. -/
def questionTypeDupList : List Str :=
  [sl "FillInTheBlank", sl "MultipleChoice", sl "TrueFalse", sl "SingleChoice",
   sl "MultipleSelect", sl "DropDown", sl "DragDrop", sl "Hotspot", sl "Simulation",
   sl "DROPDOWN", sl "DRAGDROP", sl "HOTSPOT", sl "SIMULATION",
   sl "POSITIONEDDROPDOWN", sl "PositionedDropDown", sl "POSITIONEDDRAGDROP",
   sl "POSITIONEDDragDrop"]

/-- `BaseQuestion._is_question_type_duplicate`. -/
def is_question_type_duplicate (text : Str) : Bool :=
  pyStrip text ∈ questionTypeDupList

/-- `BaseQuestion._is_explanation_duplicate`: non-empty explanation text that
contains the stripped item text as a substring. -/
def is_explanation_duplicate (qtext text : Str) : Bool :=
  let ex := extract_explanation qtext
  ex ≠ [] && containsSub ex (pyStrip text)

/-- `BaseQuestion._clean_item_text`. -/
def clean_item_text (qtext text : Str) : Str :=
  let t1 := stripMarkers (text.length + 1) text
  let t2 := removeQnoHeader t1
  let t3 := pyStrip (collapseWs (t2.length + 1) t2)
  if is_answer_content t3 then []
  else if is_question_type_duplicate t3 then []
  else if is_explanation_duplicate qtext t3 then []
  else replaceBlanks (t3.length + 1) t3

/-! ## Question XML builders (`modules/questions`) -/

/-- Base64 alphabet. -/
def b64Alphabet : Str :=
  sl "ABCDEFGHIJKLMNOPQRSTUVWXYZabcdefghijklmnopqrstuvwxyz0123456789+/"

/-- Standard base64 encoding of a byte list
(`base64.b64encode(...).decode('utf-8')`). -/
def b64encode : List Nat → Str
  | [] => []
  | [a] =>
    [b64Alphabet.getD (a / 4 % 64) 'A', b64Alphabet.getD (a % 4 * 16) 'A'] ++ sl "=="
  | [a, b] =>
    [b64Alphabet.getD (a / 4 % 64) 'A', b64Alphabet.getD ((a % 4 * 16 + b / 16) % 64) 'A',
     b64Alphabet.getD (b % 16 * 4) 'A'] ++ sl "="
  | a :: b :: c :: rest =>
    [b64Alphabet.getD (a / 4 % 64) 'A', b64Alphabet.getD ((a % 4 * 16 + b / 16) % 64) 'A',
     b64Alphabet.getD ((b % 16 * 4 + c / 64) % 64) 'A', b64Alphabet.getD (c % 64) 'A'] ++
      b64encode rest

/-- Python `str(x)` for the optional question number (`str(None) == "None"`). -/
def pyStrOpt : Option Str → Str
  | some s => s
  | none => sl "None"

/-- `BaseQuestion._add_image_content`: one image `Contents` node
(`BImage` content type for background images, `IsAnswerImage` flag as a
lowercased boolean). -/
def add_image_content (img : Img) (isAnswer isBackground : Bool) : XmlElem :=
  .mk (sl "Contents") [] none
    [leafX (sl "ContentType") (if isBackground then sl "BImage" else sl "Image"),
     leafX (sl "Image") (b64encode img.data),
     leafX (sl "IsAnswerImage") (if isAnswer then sl "true" else sl "false")]

/-- `BaseQuestion._add_sequential_content` (the `content_items` path, the one
taken for every grouper-produced question): cleaned text nodes interleaved
with description/background image nodes in document order. -/
def add_sequential_content (q : Question) : List XmlElem :=
  let imageTypes := identify_image_types q.content_items
  q.content_items.foldl (fun acc item =>
    let textPart :=
      if pyStrip item.content ≠ [] then
        let clean := clean_item_text q.text (pyStrip item.content)
        if clean ≠ [] then
          [XmlElem.mk (sl "Contents") [] none
            [leafX (sl "ContentType") (sl "Text"), leafX (sl "Text") clean]]
        else []
      else []
    let imgPart := item.images.foldl (fun acc2 img =>
      let role := consumedRole imageTypes img.path
      if role = sl "description" then acc2 ++ [add_image_content img false false]
      else if role = sl "background" then acc2 ++ [add_image_content img false true]
      else acc2) []
    acc ++ textPart ++ imgPart) []

/-- `BaseQuestion._add_explanation`: the optional `Explanation` element with
URL-free text paragraphs followed by reference links. -/
def add_explanation (q : Question) : List XmlElem :=
  let expl := extract_explanation q.text
  let refs := extract_references q
  if expl ≠ [] ∨ refs ≠ [] then
    let paras :=
      if expl ≠ [] then
        ((splitOnCh '\n' expl).map pyStrip).filter (fun p => p ≠ []) |>.filter (fun p =>
          !(containsSub p (sl "References:")) &&
            !(httpsLike (sl "https://") p || httpsLike (sl "https:") p || wwwExists p))
      else []
    let textNodes := paras.map (fun p =>
      XmlElem.mk (sl "Contents") [] none
        [leafX (sl "ContentType") (sl "Text"), leafX (sl "Text") p])
    let linkNodes := refs.map (fun l =>
      XmlElem.mk (sl "Contents") [] none
        [leafX (sl "ContentType") (sl "Link"), leafX (sl "Link") l])
    [.mk (sl "Explanation") [] none (textNodes ++ linkNodes)]
  else []

/-- `TextBasedQuestion._extract_options_from_content_items`. -/
def extract_options_from_content_items (q : Question) : List (Str × Str) :=
  q.content_items.foldl (fun acc item =>
    let t := pyStrip item.content
    if isUpperCh (t.headD ' ') && (t.drop 1).headD ' ' = '.' && t.length ≥ 2 then
      acc ++ [([t.headD ' '], pyStrip ((t.drop 2).drop (wsRun (t.drop 2))))]
    else acc) []

/-- `TextBasedQuestion._extract_answers_from_text`. -/
def extract_answers_from_text (q : Question) : List Str :=
  let fromText :=
    match afterFirst q.text (sl "Answer:") with
    | some part => singleLetters none part
    | none => []
  let fromItems := q.content_items.foldl (fun acc item =>
    let t := pyStrip item.content
    if (sl "answer:").isPrefixOf (pyLower t) then acc ++ singleLetters none t
    else acc) []
  fromText ++ fromItems

/-- `TextBasedQuestion._extract_text_options`: options and deduplicated
answers, from the raw text when possible, else from the content items. -/
def extract_text_options (q : Question) : List (Str × Str) × List Str :=
  let (textOptions, textAnswers, _) := extract_options_from_text q.text q.qtype
  let (options, correct) :=
    if textOptions ≠ [] then (textOptions, textAnswers)
    else if q.content_items ≠ [] then
      (extract_options_from_content_items q, extract_answers_from_text q)
    else ([], [])
  (options, correct.foldl (fun acc a => if a ∈ acc then acc else acc ++ [a]) [])

/-- `TextBasedQuestion._add_text_choices_to_xml`: lettered `Choices` nodes
followed by one `Answer` node when answers exist. -/
def add_text_choices (options : List (Str × Str)) (correct : List Str) : List XmlElem :=
  options.map (fun p =>
    XmlElem.mk (sl "Choices") [] none
      [leafX (sl "Number") p.1,
       .mk (sl "Contents") [] none
         [leafX (sl "ContentType") (sl "Text"), leafX (sl "Text") p.2]]) ++
    (if correct ≠ [] then
      [XmlElem.mk (sl "Answer") [] none (correct.map (fun a => leafX (sl "Choices") a))]
    else [])

/-- `BaseQuestion.build_xml` specialized by `TextBasedQuestion` (whose
`get_xml_kind` is the question's own type string). -/
def textBasedBuildXml (q : Question) : XmlElem :=
  let (options, correct) := extract_text_options q
  .mk (sl "Question") [] none
    ([leafX (sl "Kind") q.qtype, leafX (sl "DisplayKind") q.qtype,
      leafX (sl "QuestionNo") (pyStrOpt q.number)] ++
     add_sequential_content q ++
     add_text_choices options correct ++
     [leafX (sl "Id") []] ++
     add_explanation q)

/-! ## Vision service transport (`modules/image_processing/api_client.py`) -/

/-- The outcome of one Gemini attempt for a `(prompt, image)` pair: the
transport is external, so it is a parameter of the embedding (attempt index,
prompt, image bytes). -/
def Gem := Nat → Str → List Nat → Except Str Str

/-- `config.MAX_API_RETRIES`. -/
def MAX_API_RETRIES : Nat := 3

/-- The retry loop body of `call_gemini_with_retry`: try attempts
`k, k+1, ...` while `retries < MAX_API_RETRIES`; a success returns the
stripped response, exhaustion returns `"[]"` when the prompt mentions JSON
and `""` otherwise. -/
def callGeminiFrom (gem : Gem) (prompt : Str) (img : List Nat) : Nat → Str
  | 0 => if containsSub prompt (sl "JSON") then sl "[]" else []
  | tries + 1 =>
    match gem (MAX_API_RETRIES - (tries + 1)) prompt img with
    | .ok t => pyStrip t
    | .error _ => callGeminiFrom gem prompt img tries

/-- `call_gemini_with_retry`. -/
def call_gemini_with_retry (gem : Gem) (prompt : Str) (img : List Nat) : Str :=
  callGeminiFrom gem prompt img MAX_API_RETRIES

/-- The plain text-extraction prompt of `extract_text_from_image` (no "JSON"
occurrence, so retry exhaustion yields the empty string). -/
def textPrompt : Str :=
  sl "You are an expert in analyzing images.\nExtract and return all the text from the provided image.\nOutput only the extracted text with no additional commentary."

/-- `extract_text_from_image`. -/
def extract_text_from_image (gem : Gem) (img : List Nat) : Str :=
  call_gemini_with_retry gem textPrompt img

/-! ## JSON values (`json.loads` on vision-service responses) -/

/-- Digits to a natural number. -/
def strToNatAux (ds : Str) : Nat :=
  ds.foldl (fun acc c => acc * 10 + (c.toNat - '0'.toNat)) 0

/-- A parsed JSON value (Python object produced by `json.loads`). -/
inductive PyJson where
  | null
  | bool (b : Bool)
  | int (n : Int)
  | str (s : Str)
  | arr (xs : List PyJson)
  | obj (kvs : List (Str × PyJson))
deriving Repr

mutual

/-- Parse one JSON value at the head of the input (whitespace already
skipped); returns the value and the rest. -/
def jsonValue : Nat → Str → Option (PyJson × Str)
  | 0, _ => none
  | fuel + 1, s =>
    match s with
    | '[' :: t => jsonArrayItems fuel (t.dropWhile isPyWs) true
    | '{' :: t => jsonObjectItems fuel (t.dropWhile isPyWs) true
    | '"' :: t =>
      match jsonString fuel t with
      | some (cs, rest) => some (.str cs, rest)
      | none => none
    | 'n' :: 'u' :: 'l' :: 'l' :: t => some (.null, t)
    | 't' :: 'r' :: 'u' :: 'e' :: t => some (.bool true, t)
    | 'f' :: 'a' :: 'l' :: 's' :: 'e' :: t => some (.bool false, t)
    | '-' :: t =>
      if digitRun t ≥ 1 then
        some (.int (-(Int.ofNat (strToNatAux (t.takeWhile isDigitCh)))), t.drop (digitRun t))
      else none
    | c :: _ =>
      if isDigitCh c then
        some (.int (Int.ofNat (strToNatAux (s.takeWhile isDigitCh))), s.drop (digitRun s))
      else none
    | [] => none

/-- Parse the items of a JSON array after `[` (first: no comma seen yet). -/
def jsonArrayItems : Nat → Str → Bool → Option (PyJson × Str)
  | 0, _, _ => none
  | fuel + 1, s, first =>
    match s with
    | ']' :: t => if first then some (.arr [], t) else none
    | _ =>
      match jsonValue fuel s with
      | some (v, rest) =>
        let r := rest.dropWhile isPyWs
        match r with
        | ',' :: t =>
          match jsonArrayItems fuel (t.dropWhile isPyWs) false with
          | some (.arr xs, rest2) => some (.arr (v :: xs), rest2)
          | _ => none
        | ']' :: t => some (.arr [v], t)
        | _ => none
      | none => none

/-- Parse the members of a JSON object after the opening brace. -/
def jsonObjectItems : Nat → Str → Bool → Option (PyJson × Str)
  | 0, _, _ => none
  | fuel + 1, s, first =>
    match s with
    | '}' :: t => if first then some (.obj [], t) else none
    | '"' :: t =>
      match jsonString fuel t with
      | some (k, rest) =>
        let r := rest.dropWhile isPyWs
        match r with
        | ':' :: t2 =>
          match jsonValue fuel (t2.dropWhile isPyWs) with
          | some (v, rest2) =>
            let r2 := rest2.dropWhile isPyWs
            match r2 with
            | ',' :: t3 =>
              match jsonObjectItems fuel (t3.dropWhile isPyWs) false with
              | some (.obj kvs, rest3) => some (.obj ((k, v) :: kvs), rest3)
              | _ => none
            | '}' :: t3 => some (.obj [(k, v)], t3)
            | _ => none
          | none => none
        | _ => none
      | none => none
    | _ => none

/-- Parse a JSON string body after the opening quote (escapes limited to the
sequences the pipeline can produce). -/
def jsonString : Nat → Str → Option (Str × Str)
  | 0, _ => none
  | fuel + 1, s =>
    match s with
    | '"' :: t => some ([], t)
    | '\\' :: c :: t =>
      let dec := if c = 'n' then '\n' else if c = 't' then '\t' else c
      match jsonString fuel t with
      | some (cs, rest) => some (dec :: cs, rest)
      | none => none
    | c :: t =>
      match jsonString fuel t with
      | some (cs, rest) => some (c :: cs, rest)
      | none => none
    | [] => none

end

/-- `json.loads`: parse a complete JSON document, allowing surrounding
whitespace; `none` models a raised `JSONDecodeError`. -/
def jsonLoads (s : Str) : Option PyJson :=
  match jsonValue (s.length + 1) (s.dropWhile isPyWs) with
  | some (v, rest) => if rest.dropWhile isPyWs = [] then some v else none
  | none => none

/-- Python truthiness of a parsed JSON value. -/
def pyTruthy : PyJson → Bool
  | .null => false
  | .bool b => b
  | .int n => n ≠ 0
  | .str s => s ≠ []
  | .arr xs => !xs.isEmpty
  | .obj kvs => !kvs.isEmpty

/-- Decimal digits of a natural number. -/
def natToStr (n : Nat) : Str := Nat.toDigits 10 n

/-- Decimal rendering of an integer. -/
def intToStr (n : Int) : Str :=
  if n < 0 then '-' :: natToStr n.natAbs else natToStr n.natAbs

/-- The single-quote character (used by Python `repr` of strings and by the
`strip('"\\'')` call in the dropdown answer fallback). -/
def sqCh : Char := Char.ofNat 39

/-- The backtick character (Markdown fence delimiter). -/
def btick : Char := Char.ofNat 96

mutual

/-- Python `str()` of a parsed JSON value (`str(None)`, `str(True)`, numbers,
strings verbatim, containers via `repr` with single-quoted strings). -/
def pyStrJson : PyJson → Str
  | .null => sl "None"
  | .bool b => if b then sl "True" else sl "False"
  | .int n => intToStr n
  | .str s => s
  | .arr xs => '[' :: List.intercalate (sl ", ") (pyReprList xs) ++ sl "]"
  | .obj kvs =>
    '\x7b' :: List.intercalate (sl ", ") (pyReprKvs kvs) ++ sl "\x7d"

/-- Python `repr` of a parsed JSON value (strings single-quoted). -/
def pyReprJson : PyJson → Str
  | .str s => sqCh :: s ++ [sqCh]
  | v => pyStrJson v

/-- `repr` of each element of a list. -/
def pyReprList : List PyJson → List Str
  | [] => []
  | v :: vs => pyReprJson v :: pyReprList vs

/-- `repr` of each `key: value` member of an object. -/
def pyReprKvs : List (Str × PyJson) → List Str
  | [] => []
  | (k, v) :: kvs => ((sqCh :: k ++ [sqCh]) ++ sl ": " ++ pyReprJson v) :: pyReprKvs kvs

end

/-- `dict.get` on a parsed JSON object (later duplicate keys win, as in
`json.loads`). -/
def objGet (kvs : List (Str × PyJson)) (k : Str) : Option PyJson :=
  (kvs.reverse.find? (fun p => p.1 = k)).map (·.2)

/-- Python `s.strip(chars)`: drop the given characters from both ends. -/
def stripChars (cs : List Char) (s : Str) : Str :=
  ((s.dropWhile (· ∈ cs)).reverse.dropWhile (· ∈ cs)).reverse

/-- The fenced-output cleanup shared by the vision-response readers:
`raw.strip('`')` when the response starts with a Markdown fence, then
`re.sub(r'^json\s*', '', ..., flags=re.IGNORECASE).strip()`. -/
def cleanupFence (raw : Str) : Str :=
  if (List.replicate 3 btick).isPrefixOf raw then
    let r := stripChars [btick] raw
    let r2 := if (sl "json").isPrefixOf (pyLower r) then (r.drop 4).drop (wsRun (r.drop 4)) else r
    pyStrip r2
  else raw

/-- Index of the last occurrence of a character (`str.rfind` when hit). -/
def rfindCh (c : Char) (s : Str) : Option Nat :=
  (findSub s.reverse [c]).map (fun i => s.length - 1 - i)

/-- The bracket-slice cleanup: `raw[raw.find('['):raw.rfind(']')+1]` when both
brackets occur. -/
def bracketSlice (raw : Str) : Str :=
  match findSub raw (sl "["), rfindCh ']' raw with
  | some i, some j => (raw.drop i).take (j + 1 - i)
  | _, _ => raw

/-- The question-image prompt of `extract_dropdown_questions` (only its
"JSON" occurrence matters for the retry default). -/
def dropdownQuestionsPrompt : Str :=
  sl "You are an expert in analyzing an image that shows two columns with headers.\nOne column (the left) contains the statement header and statement text,\nand the other column (the right) contains the options header and the dropdown options.\nFor each row in the image, extract:\n  - \"statement_header\": the header for the statement column,\n  - \"statement\": the statement text,\n  - \"options_header\": the header for the options column,\n  - \"options\": an array of the dropdown options.\nReturn a JSON array of objects with these four keys.\nOutput ONLY valid JSON, with no extra commentary."

/-- The prompt of `extract_just_dropdown_options`. -/
def justDropdownPrompt : Str :=
  sl "You are an expert in analyzing images containing dropdown menus.\nThis image is marked with \"JustDropDown:\" which means it contains dropdown options.\nExtract ALL dropdown options WITH their category/parameter labels.\nReturn ONLY a JSON array using this format:\n[ \x7b \"label\": \"parameter_name\", \"options\": [\"option1\", \"option2\", \"option3\"] \x7d ]\nMake sure to:\n1. Include ALL dropdown menus visible in the image\n2. Return ONLY valid JSON with no extra text or commentary\n3. Use exact text for options and labels"

/-- The answer-image prompt of `extract_dropdown_answers`. -/
def dropdownAnswersPrompt : Str :=
  sl "You are an expert in analyzing an image that shows two columns with headers.\nOne column contains the statement header and statement text,\nand the other column contains the answer header and the highlighted answer.\nFor each row, extract:\n  - \"statement_header\": the header for the statement column,\n  - \"statement\": the full text of the statement,\n  - \"answer_header\": the header for the answer column,\n  - \"answer\": the highlighted option text.\nReturn a JSON array of objects with these four keys.\nOutput ONLY valid JSON, with no extra commentary."

/-- `extract_just_dropdown_options`: fence cleanup, bracket slice, parse;
parse failure yields the empty list. -/
def extract_just_dropdown_options (gem : Gem) (img : List Nat) : PyJson :=
  let raw := bracketSlice (cleanupFence (call_gemini_with_retry gem justDropdownPrompt img))
  match jsonLoads raw with
  | some v => v
  | none => .arr []

/-- `extract_dropdown_questions`: the `JustDropDown` variant or the standard
two-column extraction; fence cleanup, bracket slice, parse; parse failure
yields the empty list. -/
def extract_dropdown_questions (gem : Gem) (isJustDropdown : Bool) (img : List Nat) : PyJson :=
  if isJustDropdown then extract_just_dropdown_options gem img
  else
    let raw := bracketSlice (cleanupFence (call_gemini_with_retry gem dropdownQuestionsPrompt img))
    match jsonLoads raw with
    | some v => v
    | none => .arr []

/-- The manual colon-split fallback of `extract_dropdown_answers`: one answer
object per `header: value` line of the plainly-extracted text. -/
def colonFallback (answer_text : Str) : List PyJson :=
  (splitOnCh '\n' (pyStrip answer_text)).foldl (fun acc line =>
    match findSub line (sl ":") with
    | some i =>
      let header := stripChars ['"', sqCh] (pyStrip (line.take i))
      let value := pyStrip (line.drop (i + 1))
      if header ≠ [] ∧ value ≠ [] then
        acc ++ [PyJson.obj
          [(sl "statement_header", .str header),
           (sl "statement", .str ('"' :: header ++ sl "\" :")),
           (sl "answer_header", .str []),
           (sl "answer", .str value)]]
      else acc
    | none => acc) []

/-- `extract_dropdown_answers`: parse the answer image JSON; on parse failure
fall back to plain text extraction and the colon-split heuristic (empty list
when that also yields nothing). -/
def extract_dropdown_answers (gem : Gem) (img : List Nat) : PyJson :=
  let raw := bracketSlice (cleanupFence (call_gemini_with_retry gem dropdownAnswersPrompt img))
  match jsonLoads raw with
  | some v => v
  | none =>
    let answers := colonFallback (extract_text_from_image gem img)
    .arr answers

/-! ## Dropdown question builder (`modules/questions/question_types.DropdownQuestion`) -/

/-- `DropdownQuestion._get_categorized_images`: images whose mapped role
string contains `question` or `answer` (`"question" in str(img_types)` with a
`[]` default for unmapped paths), with the positional fallback when nothing
is categorized. -/
def ddGetCategorized (q : Question) : List Img × List Img :=
  let imageTypes := identify_image_types q.content_items
  let qImages := q.images.filter (fun img =>
    match dictGet? imageTypes img.path with
    | some r => containsSub r (sl "question")
    | none => false)
  let aImages := q.images.filter (fun img =>
    match dictGet? imageTypes img.path with
    | some r => !containsSub r (sl "question") && containsSub r (sl "answer")
    | none => false)
  if qImages.isEmpty && aImages.isEmpty && !q.images.isEmpty then
    if q.images.length ≥ 2 then (q.images.take 1, (q.images.drop 1).take 1)
    else (q.images.take 1, [])
  else (qImages, aImages)

/-- `DropdownQuestion._extract_dropdown_questions_from_image`: shape-normalise
the parsed value to a list of row objects. -/
def ddExtractQuestions (gem : Gem) (img : Img) : List PyJson :=
  match extract_dropdown_questions gem false img.data with
  | .arr l => l
  | .obj o => [.obj o]
  | .str s =>
    match jsonLoads s with
    | some (.arr l) => l
    | some (.obj o) => [.obj o]
    | some v => [.obj [(sl "options", .arr [.str (pyStrJson v)])]]
    | none => [.obj [(sl "options", .arr [.str s])]]
  | _ => []

/-- `DropdownQuestion._extract_dropdown_answers_from_image`. -/
def ddExtractAnswers (gem : Gem) (img : Img) : List PyJson :=
  match extract_dropdown_answers gem img.data with
  | .arr l => l
  | v => if pyTruthy v then [v] else []

/-- String field of a row object (`str(qd.get(key, ""))`). -/
def objStrField (kvs : List (Str × PyJson)) (k : Str) : Str :=
  match objGet kvs k with
  | some v => pyStrJson v
  | none => []

/-- `DropdownQuestion._add_dropdown_options_to_xml`: the `QuestionOptions`
element with one indexed `OptionSet` per row object. -/
def add_dropdown_options (questionData : List PyJson) : XmlElem :=
  let sets := (questionData.zip (List.range questionData.length)).foldl (fun acc p =>
    match p.1 with
    | .obj qd =>
      let stmt := pyStrip (objStrField qd (sl "statement"))
      let stmtHeader := pyStrip (objStrField qd (sl "statement_header"))
      let optsHeader := pyStrip (objStrField qd (sl "options_header"))
      let opts :=
        match objGet qd (sl "options") with
        | some (.arr l) => l.map pyStrJson
        | some v => [pyStrJson v]
        | none => []
      acc ++ [XmlElem.mk (sl "OptionSet") [(sl "index", natToStr (p.2 + 1))] none
        ([leafX (sl "ColumnHeaderStatement") stmtHeader,
          leafX (sl "Statement") stmt,
          leafX (sl "ColumnHeaderOptions") optsHeader,
          .mk (sl "Options") [] none (opts.map (fun o => leafX (sl "Option") o))])]
    | _ => acc) []
  .mk (sl "QuestionOptions") [] none sets

/-- `DropdownQuestion._add_dropdown_answers_to_xml`: the `Answers` element,
using the direct text-extraction colon-split fallback when the structured
answers are empty but an answer image exists. -/
def add_dropdown_answers (gem : Gem) (answersData : List PyJson) (aImages : List Img) : XmlElem :=
  let children :=
    if answersData.isEmpty && !aImages.isEmpty then
      let answer_text := extract_text_from_image gem ((aImages.headD ⟨[], [], []⟩).data)
      (splitOnCh '\n' (pyStrip answer_text)).foldl (fun acc line =>
        match findSub line (sl ":") with
        | some i =>
          let header := pyStrip (line.take i)
          let value := pyStrip (line.drop (i + 1))
          if header ≠ [] ∧ value ≠ [] then
            acc ++ [XmlElem.mk (sl "Answer")
              [(sl "statement_header", header), (sl "answer_header", []),
               (sl "statement", '"' :: header ++ sl "\" :")] (some value) []]
          else acc
        | none => acc) []
    else
      answersData.foldl (fun acc item =>
        match item with
        | .obj kvs =>
          let statement := pyStrip (objStrField kvs (sl "statement"))
          let answer := pyStrip (objStrField kvs (sl "answer"))
          let stmtHeader := pyStrip (objStrField kvs (sl "statement_header"))
          let ansHeader := pyStrip (objStrField kvs (sl "answer_header"))
          acc ++ [XmlElem.mk (sl "Answer")
            [(sl "statement_header", stmtHeader), (sl "answer_header", ansHeader),
             (sl "statement", statement)] (some answer) []]
        | _ => acc) []
  .mk (sl "Answers") [] none children

/-- `BaseQuestion.build_xml` specialized by `DropdownQuestion`
(`get_xml_kind` is `DropDown`). -/
def dropdownBuildXml (gem : Gem) (q : Question) : XmlElem :=
  let (qImages, aImages) := ddGetCategorized q
  let questionData :=
    match qImages with
    | img :: _ => ddExtractQuestions gem img
    | [] => []
  let answersData :=
    match aImages with
    | img :: _ => ddExtractAnswers gem img
    | [] => []
  .mk (sl "Question") [] none
    ([leafX (sl "Kind") (sl "DropDown"), leafX (sl "DisplayKind") (sl "DropDown"),
      leafX (sl "QuestionNo") (pyStrOpt q.number)] ++
     add_sequential_content q ++
     [add_dropdown_options questionData, add_dropdown_answers gem answersData aImages] ++
     [leafX (sl "Id") []] ++
     add_explanation q)

/-! ## Hotspot fuzzy answer matching
(`modules/questions/question_types.HotspotQuestion._add_answers_to_xml`,
using `difflib.SequenceMatcher.ratio`) -/

/-- Longest common prefix length of two strings. -/
def lcp : Str → Str → Nat
  | a :: as0, b :: bs0 => if a = b then lcp as0 bs0 + 1 else 0
  | _, _ => 0

/-- `SequenceMatcher.find_longest_match` over whole strings (no junk for
strings below the autojunk threshold): the longest matching block, choosing
the earliest start in `a` and then in `b` among ties — the scan order of the
`j2len` loop with its strict-improvement update. -/
def bestBlock (a b : Str) : Nat × Nat × Nat :=
  (List.range a.length).foldl (fun best i =>
    (List.range b.length).foldl (fun best j =>
      let k := lcp (a.drop i) (b.drop j)
      if k > best.2.2 then (i, j, k) else best) best) (0, 0, 0)

/-- `SequenceMatcher.get_matching_blocks` total size: recursively split
around the longest match and sum the block sizes. -/
def sumMatches : Nat → Str → Str → Nat
  | 0, _, _ => 0
  | fuel + 1, a, b =>
    let (i, j, k) := bestBlock a b
    if k = 0 then 0
    else
      sumMatches fuel (a.take i) (b.take j) + k +
        sumMatches fuel (a.drop (i + k)) (b.drop (j + k))

/-- Total matched characters between two strings. -/
def matchesTotal (a b : Str) : Nat := sumMatches (a.length + b.length + 1) a b

/-- `SequenceMatcher(None, a, b).ratio()`: `2*M/T` as an exact rational
(`1` when both strings are empty, as in `difflib._calculate_ratio`). -/
def seqScore (a b : Str) : ℚ :=
  let t := a.length + b.length
  if t = 0 then mkRat 1 1 else mkRat (2 * matchesTotal a b) t

/-- One answer object of the hotspot answer image (the `statement` and
`answer` fields read by `_add_answers_to_xml`). -/
structure HotAns where
  statement : Str
  answer : Str
deriving DecidableEq, Repr

/-- The best-match fold of `_add_answers_to_xml`: scan the candidate options,
keeping the first candidate whose score strictly exceeds both the best score
so far and `0.6`. -/
def bestMatchFold (options : List (Str × List Str)) (ansStmt : Str) : Option Str × ℚ :=
  options.foldl (fun acc opt =>
    let s := seqScore (pyLower opt.1) (pyLower ansStmt)
    if s > acc.2 ∧ s > mkRat 3 5 then (some opt.1, s) else acc) (none, mkRat 0 1)

/-- The `Answer` element emitted for one answer object: the matched candidate
statement when one was accepted (and is truthy), else the answer's own
stripped statement. -/
def hotspotAnswerElem (options : List (Str × List Str)) (item : HotAns) : XmlElem :=
  let ansStmt := pyStrip item.statement
  let ansValue := pyStrip item.answer
  let best := (bestMatchFold options ansStmt).1
  let finalStmt :=
    match best with
    | some s => if s = [] then ansStmt else s
    | none => ansStmt
  .mk (sl "Answer") [(sl "statement", finalStmt)] (some ansValue) []

/-- `HotspotQuestion._add_answers_to_xml`: the `Answers` element; answers are
only emitted when both the candidate list and the answer list are
non-empty. -/
def add_answers_to_xml (answersData : List HotAns) (options : List (Str × List Str)) : XmlElem :=
  .mk (sl "Answers") [] none
    (if !options.isEmpty && !answersData.isEmpty then
      answersData.map (hotspotAnswerElem options)
    else [])

/-! ## Builder dispatch (`modules/questions/question_processors.process_questions`) -/

/-- One processed question: number, (possibly updated) type, built element. -/
structure QResult where
  number : Option Str
  qtype : Str
  element : XmlElem
deriving Repr

/-- The minimal fallback element built in the `except` branch of
`process_questions`. -/
def fallbackElem (n : Option Str) (t : Str) (msg : Str) : XmlElem :=
  .mk (sl "Question") [] none
    [leafX (sl "QuestionNo") (pyStrOpt n), leafX (sl "Kind") t, leafX (sl "Error") msg]

/-- The dispatch-level type normalisation of `process_questions`: for
`SingleChoice`/`MultipleChoice` questions, re-run the option extraction and
adopt the updated type. -/
def typeUpdate (q : Question) : Question :=
  if q.qtype = sl "SingleChoice" ∨ q.qtype = sl "MultipleChoice" then
    let (_, _, u) := extract_options_from_text q.text q.qtype
    if u ≠ q.qtype then { q with qtype := u } else q
  else q

/-- Process one question through an arbitrary builder (the `try`/`except`
body of the `process_questions` loop): a raised exception is modelled as an
`Except.error` carrying its message. -/
def processOne (build : Question → Except Str XmlElem) (q : Question) : QResult :=
  let q' := typeUpdate q
  match build q' with
  | .ok e => ⟨q.number, q'.qtype, e⟩
  | .error msg => ⟨q.number, q'.qtype, fallbackElem q.number q'.qtype msg⟩

/-- `process_questions` (also reused verbatim by
`process_case_study_questions`): every question processed independently. -/
def process_questions (build : Question → Except Str XmlElem) (qs : List Question) : List QResult :=
  qs.map (processOne build)

/-! ## Remaining question builders
(`modules/questions/question_types.py`: `HotspotQuestion`, `DragDropQuestion`,
`FillInTheBlankQuestion`, `SimulationQuestion`, `PositionedDropdownQuestion`,
`PositionedDragDropQuestion`) -/

/-- Lowercase ASCII letter (Python `str.islower` on the ASCII range). -/
def isLowerCh (c : Char) : Bool := 'a' ≤ c && c ≤ 'z'

/-- Case-insensitive `re.search` position of a literal (ASCII lowering is
length-preserving, so the index is valid in the original string). -/
def findSubCI (s pat : Str) : Option Nat := findSub (pyLower s) (pyLower pat)

/-- Iteration order of a Python dict built by `json.loads`: first-occurrence
key order with the last value winning. -/
def pyDictItems (kvs : List (Str × PyJson)) : List (Str × PyJson) :=
  kvs.foldl (fun acc p =>
    if acc.any (fun q => q.1 == p.1) then
      acc.map (fun q => if q.1 == p.1 then (q.1, p.2) else q)
    else acc ++ [p]) []

/-- Python `for x in v` over a parsed JSON value: lists yield their items,
strings their characters, dicts their keys; other values raise `TypeError`. -/
def pyIter : PyJson → Except Str (List PyJson)
  | .arr xs => .ok xs
  | .str s => .ok (s.map (fun c => .str [c]))
  | .obj kvs => .ok ((pyDictItems kvs).map (fun p => .str p.1))
  | _ => .error (sl "TypeError: not iterable")

/-- Python `v.strip()` on a parsed JSON value: raises `AttributeError` unless
the value is a string. -/
def pyStripJ : PyJson → Except Str Str
  | .str s => .ok (pyStrip s)
  | _ => .error (sl "AttributeError: strip")

/-- `BaseQuestion._get_question_answer_images`: images whose classified role
is exactly `question` / `answer`, with the positional fallback when none was
identified. -/
def getQAImages (q : Question) : List Img × List Img :=
  let imageTypes := identify_image_types q.content_items
  let qImages := q.images.filter (fun img =>
    dictGet? imageTypes img.path == some (sl "question"))
  let aImages := q.images.filter (fun img =>
    dictGet? imageTypes img.path == some (sl "answer"))
  if qImages.isEmpty && aImages.isEmpty then
    match q.images with
    | i1 :: i2 :: _ => ([i1], [i2])
    | [i1] => ([i1], [])
    | [] => ([], [])
  else (qImages, aImages)

/-- `BaseQuestion.build_xml` as run for every subclass: basic elements,
sequential content, the subclass's specific elements, `Id`, explanation. -/
def questionShell (q : Question) (kind : Str) (specific : List XmlElem) : XmlElem :=
  .mk (sl "Question") [] none
    ([leafX (sl "Kind") kind, leafX (sl "DisplayKind") kind,
      leafX (sl "QuestionNo") (pyStrOpt q.number)] ++
     add_sequential_content q ++
     specific ++
     [leafX (sl "Id") []] ++
     add_explanation q)

/-- `image_processor.parse_question_options`: split the extracted text into
stripped non-empty lines, skip a `statement`/`yes`/`no` header, join
continuation lines that begin with a lowercase letter, and keep statements
longer than 20 characters, each paired with the `Yes`/`No` options. -/
def parse_question_options (extracted_text : Str) : List (Str × List Str) :=
  let lines := ((splitOnCh '\n' extracted_text).map pyStrip).filter (fun l => !l.isEmpty)
  let lines :=
    if lines.length ≥ 3 ∧ pyLower (lines.headD []) = sl "statement" ∧
        pyLower ((lines.drop 1).headD []) = sl "yes" ∧
        pyLower ((lines.drop 2).headD []) = sl "no" then
      lines.drop 3
    else lines
  let acc := lines.foldl (fun (acc : List Str × Str) line =>
    if acc.2.isEmpty then (acc.1, line)
    else if !line.isEmpty && isLowerCh (line.headD ' ') then
      (acc.1, acc.2 ++ ' ' :: line)
    else (acc.1 ++ [acc.2], line)) ([], [])
  let combined := if !acc.2.isEmpty then acc.1 ++ [acc.2] else acc.1
  (combined.filter (fun l => l.length > 20)).map (fun stmt => (stmt, [sl "Yes", sl "No"]))

/-- The answer-image prompt of `image_processor.extract_answers_from_image`
(a triple-quoted literal, indentation included). -/
def hotspotAnswersPrompt : Str :=
  sl "\n    You are an expert in analyzing images of multiple-choice questions.\n    In the provided image, a grey-colored rectangle indicates the selected (correct) answer.\n    Extract the complete text of each statement along with its selected answer.\n    Output a JSON array of objects with exactly two keys:\n      \"statement\": the full text of the statement,\n      \"answer\": either \"Yes\" or \"No\".\n    Output ONLY valid JSON with no extra commentary.\n    "

/-- `image_processor.extract_answers_from_image`: fence cleanup then
`json.loads`; any parse failure yields the empty list. -/
def extract_answers_from_image (gem : Gem) (img : List Nat) : PyJson :=
  match jsonLoads (cleanupFence (call_gemini_with_retry gem hotspotAnswersPrompt img)) with
  | some v => v
  | none => .arr []

/-- `HotspotQuestion._add_options_to_xml`: the `QuestionOptions` element with
one indexed `OptionSet` (statement plus `Option` children) per parsed row. -/
def add_options_to_xml (options : List (Str × List Str)) : XmlElem :=
  .mk (sl "QuestionOptions") [] none
    ((options.zip (List.range options.length)).map (fun p =>
      XmlElem.mk (sl "OptionSet") [(sl "index", natToStr (p.2 + 1))] none
        [leafX (sl "Statement") p.1.1,
         .mk (sl "Options") [] none (p.1.2.map (fun o => leafX (sl "Option") o))]))

/-- One parsed answer object of the hotspot answer image: `item.get` needs a
dict and `.strip()` needs string fields; anything else raises. -/
def toHotAns : PyJson → Except Str HotAns
  | .obj kvs =>
    match (objGet kvs (sl "statement")).getD (.str []) with
    | .str s =>
      match (objGet kvs (sl "answer")).getD (.str []) with
      | .str a => .ok ⟨s, a⟩
      | _ => .error (sl "AttributeError: strip")
    | _ => .error (sl "AttributeError: strip")
  | _ => .error (sl "AttributeError: get")

/-- The `Answers` element of `HotspotQuestion._add_answers_to_xml` from the
raw parsed answer value: the loop runs only when both the options and the
answer data are truthy, and iterating a truthy non-list raises when the first
element is handled. -/
def hotspot_answers_xml (answersData : PyJson) (options : List (Str × List Str)) :
    Except Str XmlElem :=
  if !options.isEmpty && pyTruthy answersData then
    match answersData with
    | .arr items => (items.mapM toHotAns).map (fun l => add_answers_to_xml l options)
    | _ => .error (sl "AttributeError: get")
  else .ok (add_answers_to_xml [] options)

/-- `HotspotQuestion._add_question_specific_elements`: options from the first
question image, answers (matched against the same options) from the first
answer image. -/
def hotspotSpecific (gem : Gem) (q : Question) : Except Str (List XmlElem) :=
  let (qImages, aImages) := getQAImages q
  let options :=
    match qImages with
    | qi :: _ => parse_question_options (extract_text_from_image gem qi.data)
    | [] => []
  let part1 :=
    match qImages with
    | _ :: _ => [add_options_to_xml options]
    | [] => []
  match aImages with
  | ai :: _ =>
    (hotspot_answers_xml (extract_answers_from_image gem ai.data) options).map
      (fun e => part1 ++ [e])
  | [] => .ok part1

/-- `HotspotQuestion.build_xml` (`get_xml_kind` is `Hotspot`). -/
def hotspotBuildXml (gem : Gem) (q : Question) : Except Str XmlElem :=
  (hotspotSpecific gem q).map (questionShell q (sl "Hotspot"))

/-- The question-image prompt of `image_processor.extract_columns_dynamic`. -/
def dragColumnsPrompt : Str :=
  sl "\n    You are an expert in analyzing images of a drag-and-drop question.\n    This question image has multiple columns (possibly 3 or more), each with a heading (like \"Applications\", \"Feature\", \"Service\", etc.).\n    IMPORTANT: Extract ALL columns and their items completely, even if they appear in separate sections or different parts of the image.\n    Pay special attention to ensuring you capture ALL columns shown in the image.\n    \n    Return the data in JSON with this structure:\n    \x7b\n      \"columns\": [\n        \x7b\"heading\": \"<column heading>\", \"items\": [\"item1\", \"item2\", \"...\"]\x7d,\n        ...\n      ]\n    \x7d\n    Output ONLY valid JSON, no extra commentary.\n    "

/-- The answer-image prompt of `image_processor.extract_pairs_dynamic`. -/
def dragPairsPrompt : Str :=
  sl "\n    You are an expert in analyzing images of a drag-and-drop question.\n    This image shows the final matched pairs (or triplets) of the columns that appeared in the question image.\n    Each row includes all relevant columns, matched to the correct items.\n    Output a JSON array where each object has keys corresponding to the column headings.\n    Output ONLY valid JSON, no extra commentary.\n    "

/-- `image_processor.extract_columns_dynamic`: fence cleanup, `json.loads`,
and the shape check replacing anything that is not a dict with a `columns`
key by `\x7b"columns": []\x7d`. -/
def extract_columns_dynamic (gem : Gem) (img : List Nat) : PyJson :=
  match jsonLoads (cleanupFence (call_gemini_with_retry gem dragColumnsPrompt img)) with
  | some (.obj kvs) =>
    if (objGet kvs (sl "columns")).isSome then .obj kvs
    else .obj [(sl "columns", .arr [])]
  | some _ => .obj [(sl "columns", .arr [])]
  | none => .obj [(sl "columns", .arr [])]

/-- `image_processor.extract_pairs_dynamic`: fence cleanup, bracket slice,
`json.loads`; parse failure yields the empty list. -/
def extract_pairs_dynamic (gem : Gem) (img : List Nat) : PyJson :=
  match jsonLoads (bracketSlice (cleanupFence (call_gemini_with_retry gem dragPairsPrompt img))) with
  | some v => v
  | none => .arr []

/-- One column of `DragDropQuestion._add_columns_to_xml`: `col.get` needs a
dict, the heading (`col.get("heading") or ""`) and every item must be
strings to survive `.strip()`. -/
def columnElem (col : PyJson) : Except Str XmlElem :=
  match col with
  | .obj kvs => do
    let hv := (objGet kvs (sl "heading")).getD .null
    let heading ← if pyTruthy hv then pyStripJ hv else .ok []
    let items ← pyIter ((objGet kvs (sl "items")).getD (.arr []))
    let itemElems ← items.mapM (fun it => (pyStripJ it).map (fun s => leafX (sl "Item") s))
    .ok (XmlElem.mk (sl "Column") [(sl "heading", heading)] none itemElems)
  | _ => .error (sl "AttributeError: get")

/-- `DragDropQuestion._add_columns_to_xml`: the `DynamicColumns` element over
`columns_data.get("columns", [])`. -/
def add_columns_to_xml (columnsData : PyJson) : Except Str XmlElem := do
  let colsVal ←
    match columnsData with
    | .obj kvs => Except.ok ((objGet kvs (sl "columns")).getD (.arr []))
    | _ => .error (sl "AttributeError: get")
  let cols ← pyIter colsVal
  let colElems ← cols.mapM columnElem
  .ok (.mk (sl "DynamicColumns") [] none colElems)

/-- One pair of `DragDropQuestion._add_answer_pairs_to_xml`: `pair.items()`
needs a dict and each value must be a string to survive `.strip()`. -/
def pairElem (pair : PyJson) : Except Str XmlElem :=
  match pair with
  | .obj kvs => do
    let cols ← (pyDictItems kvs).mapM (fun kv =>
      (pyStripJ kv.2).map (fun v =>
        XmlElem.mk (sl "Column") [(sl "name", pyStrip kv.1)] (some v) []))
    .ok (XmlElem.mk (sl "Pair") [] none cols)
  | _ => .error (sl "AttributeError: items")

/-- `DragDropQuestion._add_answer_pairs_to_xml`: the `AnswerPairs` element. -/
def add_answer_pairs_to_xml (answerPairs : PyJson) : Except Str XmlElem := do
  let pairs ← pyIter answerPairs
  let pairElems ← pairs.mapM pairElem
  .ok (.mk (sl "AnswerPairs") [] none pairElems)

/-- `DragDropQuestion._add_question_specific_elements`: columns from the
first question image, answer pairs from the first answer image. -/
def dragdropSpecific (gem : Gem) (q : Question) : Except Str (List XmlElem) := do
  let (qImages, aImages) := getQAImages q
  let part1 ←
    (match qImages with
     | qi :: _ => (add_columns_to_xml (extract_columns_dynamic gem qi.data)).map (fun e => [e])
     | [] => Except.ok ([] : List XmlElem))
  match aImages with
  | ai :: _ =>
    (add_answer_pairs_to_xml (extract_pairs_dynamic gem ai.data)).map (fun e => part1 ++ [e])
  | [] => .ok part1

/-- `DragDropQuestion.build_xml` (`get_xml_kind` is `DragDrop`). -/
def dragdropBuildXml (gem : Gem) (q : Question) : Except Str XmlElem :=
  (dragdropSpecific gem q).map (questionShell q (sl "DragDrop"))

/-- The `$` anchor of the answer-extraction regexes at a suffix: end of the
string, or just before a single trailing newline. -/
def dollarB (rest : Str) : Bool := rest.isEmpty || rest == ['\n']

/-- The keyword terminator `\n\s*(QUESTION|Explanation|References)` of the
answer-extraction regexes at a suffix (case-insensitive). -/
def kwTermB (rest : Str) : Bool :=
  match rest with
  | '\n' :: t =>
    let t2 := pyLower (t.drop (wsRun t))
    (sl "question").isPrefixOf t2 || (sl "explanation").isPrefixOf t2 ||
      (sl "references").isPrefixOf t2
  | _ => false

/-- Extension of the lazy group `(.+?)` past its mandatory first character:
stop at the first position where a terminator matches. -/
def lazyGroupGo : Nat → Str → Str
  | 0, _ => []
  | fuel + 1, rest =>
    if kwTermB rest || dollarB rest then []
    else
      match rest with
      | [] => []
      | ch :: t => ch :: lazyGroupGo fuel t

/-- The `group(1)` of `Answer:\s*(.+?)(?:\n\s*(?:QUESTION|Explanation|References)|$)`
once positioned after the whitespace run: the shortest non-empty prefix
ending at a terminator (the `$` branch guarantees one). -/
def answerGroup : Str → Str
  | [] => []
  | ch :: t => ch :: lazyGroupGo (t.length + 1) t

/-- The shared core of `FillInTheBlankQuestion._extract_multiple_answers` and
`SimulationQuestion._extract_answer_text`: the first pattern of both ladders
matches at the first case-insensitive `Answer:` occurrence whenever any
non-whitespace text follows it, and the later patterns are then never
consulted (a whitespace-only remainder fails the truthiness check of every
pattern and yields the empty result).  The matched group is
whitespace-collapsed and stripped. -/
def extract_answer_core (text : Str) : Str :=
  match findSubCI text (sl "answer:") with
  | none => []
  | some i =>
    let p := text.drop (i + 7)
    let c := p.drop (wsRun p)
    if c.isEmpty then []
    else
      let g := pyStrip (answerGroup c)
      pyStrip (collapseWs (g.length + 1) g)

/-- `FillInTheBlankQuestion._extract_multiple_answers`: the extracted answer
text split on commas, each part stripped, empty parts dropped. -/
def extract_multiple_answers (text : Str) : List Str :=
  let a := extract_answer_core text
  if a.isEmpty then []
  else ((splitOnCh ',' a).map pyStrip).filter (fun x => !x.isEmpty)

/-- `FillInTheBlankQuestion._add_question_specific_elements`: an `Answer`
element with one `Choices` child per non-empty answer. -/
def fibSpecific (q : Question) : List XmlElem :=
  let answers := extract_multiple_answers q.text
  if !answers.isEmpty then
    [.mk (sl "Answer") [] none
      (((answers.filter (fun a => !(pyStrip a).isEmpty)).map
        (fun a => leafX (sl "Choices") (pyStrip a))))]
  else []

/-- `FillInTheBlankQuestion.build_xml` (`get_xml_kind` is `FillInTheBlank`). -/
def fibBuildXml (q : Question) : XmlElem :=
  questionShell q (sl "FillInTheBlank") (fibSpecific q)

/-- `SimulationQuestion._add_question_specific_elements`: a plain `Answer`
element when the extracted answer text is non-empty. -/
def simSpecific (q : Question) : List XmlElem :=
  let a := extract_answer_core q.text
  if !a.isEmpty then [leafX (sl "Answer") a] else []

/-- `SimulationQuestion.build_xml` (`get_xml_kind` is `Simulation`). -/
def simulationBuildXml (q : Question) : XmlElem :=
  questionShell q (sl "Simulation") (simSpecific q)

/-- One parsed dropdown record of the positioned-dropdown processor: the dict
shape produced by `extract_optionset_data` and
`manual_extraction_fallback` (integer geometry, option texts, selected
options, string index). -/
structure PosDropdown where
  id : Int
  x : Int
  y : Int
  width : Int
  height : Int
  options : List Str
  selected_options : List Str
  index : Str
deriving DecidableEq, Repr

/-- `positioned_dropdown_processor.process_positioned_dropdown_image`: the
Claude transport plus `parse_ai_response` is an external service whose call
and response parsing are modelled as an oracle delivering the parsed
dropdown records; `none` covers every error outcome (the error dictionary
the builder then ignores). -/
def Claude := List Nat → Option (List PosDropdown)

/-- An oracle whose processing never yields dropdown records. -/
def claudeNone : Claude := fun _ => none

/-- Images whose classified role is exactly `positioned`
(`PositionedDropdownQuestion._get_positioned_images` and the corresponding
filter of `PositionedDragDropQuestion`). -/
def positionedImagesOf (q : Question) : List Img :=
  let imageTypes := identify_image_types q.content_items
  q.images.filter (fun img => dictGet? imageTypes img.path == some (sl "positioned"))

/-- Images whose classified role is exactly `background`
(`PositionedDragDropQuestion._add_question_specific_elements`). -/
def backgroundImagesOf (q : Question) : List Img :=
  let imageTypes := identify_image_types q.content_items
  q.images.filter (fun img => dictGet? imageTypes img.path == some (sl "background"))

/-- `PositionedDropdownQuestion._add_positioned_dropdown_to_xml`: the
`QuestionOptions` element with one geometry-carrying `OptionSet` per
dropdown (selected options marked), followed by the `Answers` element with
one `Answer` per selected option. -/
def add_positioned_dropdown_to_xml (dropdowns : List PosDropdown) : List XmlElem :=
  let optionSets := dropdowns.map (fun d =>
    XmlElem.mk (sl "OptionSet") [(sl "index", d.index)] none
      [leafX (sl "id") (intToStr d.id), leafX (sl "x") (intToStr d.x),
       leafX (sl "y") (intToStr d.y), leafX (sl "width") (intToStr d.width),
       leafX (sl "height") (intToStr d.height),
       leafX0 (sl "ColumnHeaderStatement"), leafX0 (sl "Statement"),
       leafX0 (sl "ColumnHeaderOptions"),
       .mk (sl "Options") [] none (d.options.map (fun o =>
         if d.selected_options.contains o then
           XmlElem.mk (sl "Option") [(sl "selected", sl "true")] (some o) []
         else leafX (sl "Option") o))])
  let answers := dropdowns.flatMap (fun d =>
    d.selected_options.map (fun so =>
      XmlElem.mk (sl "Answer")
        [(sl "statement_header", []), (sl "answer_header", []), (sl "statement", []),
         (sl "index", d.index), (sl "x", intToStr d.x), (sl "y", intToStr d.y),
         (sl "width", intToStr d.width), (sl "height", intToStr d.height)]
        (some so) []))
  [.mk (sl "QuestionOptions") [] none optionSets, .mk (sl "Answers") [] none answers]

/-- `PositionedDropdownQuestion._add_question_specific_elements`: nothing
without a positioned image; otherwise the oracle's records are rendered, and
an error outcome contributes nothing. -/
def posDropdownSpecific (claude : Claude) (q : Question) : List XmlElem :=
  match positionedImagesOf q with
  | [] => []
  | pi :: _ =>
    match claude pi.data with
    | some dropdowns => add_positioned_dropdown_to_xml dropdowns
    | none => []

/-- `PositionedDropdownQuestion.build_xml` (`get_xml_kind` is
`PositionedDropDown`). -/
def posDropdownBuildXml (claude : Claude) (q : Question) : XmlElem :=
  questionShell q (sl "PositionedDropDown") (posDropdownSpecific claude q)

/-- `PositionedDragDropQuestion.build_xml`: with no background or no
positioned image the specific step returns early and the build succeeds with
no specific elements; with both present it executes
`from modules.image_processing.positioned_dragdrop_processor import ...`,
and that module does not exist in the repository (only a `- Copy` file), so
the import raises `ModuleNotFoundError` and the build fails. -/
def posDragDropBuildXml (q : Question) : Except Str XmlElem :=
  match backgroundImagesOf q with
  | [] => .ok (questionShell q (sl "PositionedDragDrop") [])
  | _ :: _ =>
    match positionedImagesOf q with
    | [] => .ok (questionShell q (sl "PositionedDragDrop") [])
    | _ :: _ =>
      .error (sl "ModuleNotFoundError: no module named modules.image_processing.positioned_dragdrop_processor")


/-- The builder selected by `QuestionFactory.create_question` plus
`build_xml`, in the dispatch order of the factory: `HOTSPOT`, `DRAGDROP`,
`DROPDOWN`, `FILLINTHEBLANK`, `POSITIONEDDROPDOWN`, `POSITIONEDDRAGDROP`,
`SIMULATION`, and the text-based kinds (`SINGLECHOICE`, `MULTIPLECHOICE`,
`RADIOBUTTON` and the default branch all construct `TextBasedQuestion`).  A
Python exception raised during the build is an `Except.error`. -/
def realBuilder (gem : Gem) (claude : Claude) (q : Question) : Except Str XmlElem :=
  let u := pyUpper q.qtype
  if u = sl "HOTSPOT" then hotspotBuildXml gem q
  else if u = sl "DRAGDROP" then dragdropBuildXml gem q
  else if u = sl "DROPDOWN" then .ok (dropdownBuildXml gem q)
  else if u = sl "FILLINTHEBLANK" then .ok (fibBuildXml q)
  else if u = sl "POSITIONEDDROPDOWN" then .ok (posDropdownBuildXml claude q)
  else if u = sl "POSITIONEDDRAGDROP" then posDragDropBuildXml q
  else if u = sl "SIMULATION" then .ok (simulationBuildXml q)
  else .ok (textBasedBuildXml q)

/-! ## Validator (`modules/image_processing/image_validation.py`) -/

/-- A marker occurs in some content item or in the concatenated text
(the `image_markers` flags of `validate_question_images`). -/
def hasImageMarker (q : Question) (marker : Str) : Bool :=
  q.content_items.any (fun item => containsSub item.content marker) ||
    containsSub q.text marker

/-- `question.get("number", "Unknown")` as rendered into the violation
strings (`None` when the stored number is Python `None`). -/
def qNumberStr (q : Question) : Str := pyStrOpt q.number

/-- The violation strings appended for one question by the type switch of
`validate_question_images`, in source order. -/
def questionViolations (q : Question) : List Str :=
  let qoi := hasImageMarker q (sl "QuestionOptionImage:")
  let aoi := hasImageMarker q (sl "AnswerOptionImage:")
  let pim := hasImageMarker q (sl "PositionedImage:")
  let bgi := hasImageMarker q (sl "BackgroundImage:")
  if q.qtype = sl "HOTSPOT" then
    (if !qoi then [sl "Question " ++ qNumberStr q ++ sl " (HOTSPOT) - Missing QuestionOptionImage"] else []) ++
    (if !aoi then [sl "Question " ++ qNumberStr q ++ sl " (HOTSPOT) - Missing AnswerOptionImage"] else [])
  else if q.qtype = sl "DRAGDROP" then
    (if !qoi then [sl "Question " ++ qNumberStr q ++ sl " (DRAGDROP) - Missing QuestionOptionImage"] else []) ++
    (if !aoi then [sl "Question " ++ qNumberStr q ++ sl " (DRAGDROP) - Missing AnswerOptionImage"] else [])
  else if q.qtype = sl "DROPDOWN" then
    (if !qoi then [sl "Question " ++ qNumberStr q ++ sl " (DROPDOWN Type 1) - Missing QuestionOptionImage"] else []) ++
    (if !aoi then [sl "Question " ++ qNumberStr q ++ sl " (DROPDOWN Type 1) - Missing AnswerOptionImage"] else [])
  else if q.qtype = sl "POSITIONEDDROPDOWN" then
    (if !bgi then [sl "Question " ++ qNumberStr q ++ sl " (POSITIONEDDROPDOWN) - Missing PositionedImage"] else []) ++
    (if !pim then [sl "Question " ++ qNumberStr q ++ sl " (POSITIONEDDROPDOWN) - Missing PositionedImage"] else [])
  else if q.qtype = sl "POSITIONEDDRAGDROP" then
    (if !bgi then [sl "Question " ++ qNumberStr q ++ sl " (POSITIONEDDRAGDROP) - Missing BackgroundImage"] else []) ++
    (if !pim then [sl "Question " ++ qNumberStr q ++ sl " (POSITIONEDDRAGDROP) - Missing PositionedImage"] else [])
  else []

/-- `validate_question_images`: scan every question, collecting all violation
strings; `all_valid` drops to `False` exactly when a violation is appended.
The source only reads its input, so the embedding is a pure function. -/
def validate_question_images (qs : List Question) : Bool × List Str :=
  qs.foldl (fun acc q =>
    let errs := questionViolations q
    (acc.1 && errs.isEmpty, acc.2 ++ errs)) (true, [])

/-! ## Document assembler (`modules/output/xml_generator.py`) -/

/-- A Python sort-key component: `int(tok)` for all-digit tokens, the raw
string otherwise. -/
inductive PyAtom where
  | int (n : Int)
  | str (s : Str)
deriving DecidableEq, Repr

/-- Python `str.isdigit` (ASCII): non-empty and all digits. -/
def pyIsDigit (s : Str) : Bool := !s.isEmpty && s.all isDigitCh

/-- One key component of the case-study sort:
`int(x.get(k, "0")) if x.get(k, "").isdigit() else x.get(k, "")`. -/
def pyKeyPart (s : Str) : PyAtom :=
  if pyIsDigit s then .int (Int.ofNat (strToNatAux s)) else .str s

/-- Python `==` on key atoms (no error across types, just `False`). -/
def atomEq : PyAtom → PyAtom → Bool
  | .int a, .int b => a = b
  | .str a, .str b => a = b
  | _, _ => false

/-- Lexicographic `<` on strings by code point (Python `str.__lt__`). -/
def strLt : Str → Str → Bool
  | [], [] => false
  | [], _ :: _ => true
  | _ :: _, [] => false
  | a :: as0, b :: bs0 => if a = b then strLt as0 bs0 else decide (a < b)

/-- Python `<` on key atoms: comparing an `int` with a `str` raises
`TypeError`, modelled as `Except.error`. -/
def atomLt : PyAtom → PyAtom → Except Unit Bool
  | .int a, .int b => .ok (decide (a < b))
  | .str a, .str b => .ok (strLt a b)
  | _, _ => .error ()

/-- Python `<` on the `(topic key, case key)` tuples: the first non-equal
component decides (equality across types is `False` without error, the
deciding comparison may raise). -/
def keyLt (a b : PyAtom × PyAtom) : Except Unit Bool :=
  if atomEq a.1 b.1 then
    if atomEq a.2 b.2 then .ok false else atomLt a.2 b.2
  else atomLt a.1 b.1

/-- The sort key of `generate_xml_output` for one case study. -/
def csKey (cs : CaseStudy) : PyAtom × PyAtom :=
  (pyKeyPart cs.topic_number, pyKeyPart cs.number)

/-- Stable insertion into a sorted list under the raising comparison: the
element is placed before the first entry it compares strictly below, so equal
keys keep their original relative order — the observable behaviour of
CPython's stable `list.sort`.  A `TypeError` raised by any performed
comparison propagates (CPython's exact comparison schedule differs, but it
also compares adjacent mixed-type keys, the failure exercised below). -/
def insertCS (x : CaseStudy) : List CaseStudy → Except Unit (List CaseStudy)
  | [] => .ok [x]
  | y :: ys => do
    let lt ← keyLt (csKey x) (csKey y)
    if lt then .ok (x :: y :: ys)
    else do
      let rest ← insertCS x ys
      .ok (y :: rest)

/-- `case_studies.sort(key=...)` from `generate_xml_output`. -/
def sortCaseStudies (l : List CaseStudy) : Except Unit (List CaseStudy) :=
  l.foldlM (fun acc x => insertCS x acc) []

/-- The per-testlet question-result sort key
(`int(x["number"]) if x["number"].isdigit() else x["number"]`); a `None`
number raises (`AttributeError`), modelled as an error. -/
def resultKey (r : QResult) : Except Unit PyAtom :=
  match r.number with
  | some s => .ok (pyKeyPart s)
  | none => .error ()

/-- Stable insertion of a question result under the raising comparison. -/
def insertR (x : QResult) : List QResult → Except Unit (List QResult)
  | [] => .ok [x]
  | y :: ys => do
    let kx ← resultKey x
    let ky ← resultKey y
    let lt ← atomLt kx ky
    if lt then .ok (x :: y :: ys)
    else do
      let rest ← insertR x ys
      .ok (y :: rest)

/-- `results.sort(key=...)` from `generate_xml_output`. -/
def sortResults (l : List QResult) : Except Unit (List QResult) :=
  l.foldlM (fun acc x => insertR x acc) []

/-- One segment entry rendered into `Contents` children by
`build_xml_for_case_study`. -/
def segEntryXml (e : SegEntry) : XmlElem :=
  match e with
  | .text s =>
    .mk (sl "Contents") [] none
      [leafX (sl "ContentType") (sl "Text"), leafX (sl "Text") s]
  | .title s =>
    .mk (sl "Contents") [] none
      [leafX (sl "ContentType") (sl "Title"), leafX (sl "Text") s]
  | .image img _ =>
    .mk (sl "Contents") [] none
      [leafX (sl "ContentType") (sl "Image"), leafX (sl "Image") (b64encode img.data),
       leafX (sl "IsAnswerImage") (sl "false")]

/-- `modules/questions/question_processors.build_xml_for_case_study`: the
`CaseStudy` element (number, name, one `Segments` element per segment, no
questions). -/
def build_xml_for_case_study (cs : CaseStudy) : XmlElem :=
  .mk (sl "CaseStudy") [] none
    ([leafX (sl "Number") cs.topic_number, leafX (sl "Name") cs.topic_name] ++
     cs.segments.map (fun seg =>
       .mk (sl "Segments") [] none
         (leafX (sl "Name") seg.name :: seg.contents.map segEntryXml)))

/-- The metadata placeholder children of the output root
(`generate_xml_output`), with the total question count. -/
def rootMetadata (standalone : List Question) (caseStudies : List CaseStudy) : List XmlElem :=
  let count := standalone.length + (caseStudies.map (fun cs => cs.questions.length)).sum
  [leafX (sl "Id") [], leafX (sl "Code") [], leafX (sl "Name") [],
   leafX (sl "VendorName") [], leafX (sl "QuestionsPerExam") (natToStr count),
   leafX (sl "Version") [], leafX (sl "AllowedTime") [], leafX (sl "MaxScore") [],
   leafX (sl "RequiredScore") [], leafX (sl "SchemaVersion") [], leafX (sl "Sections") []]

/-- The element tree built by `generate_xml_output` before serialization:
metadata placeholders, one `Testlets` element per sorted case study (its
`CaseStudy` element followed by its sorted question results), and a final
`Testlets` element for the standalone questions.  Python exceptions raised by
the mixed-type sorts propagate out of the generator and are modelled as
`Except.error`. -/
def generate_xml_tree (gem : Gem) (claude : Claude) (standalone : List Question)
    (caseStudies : List CaseStudy) : Except Unit XmlElem := do
  let sorted ← sortCaseStudies caseStudies
  let testlets ← sorted.mapM (fun cs => do
    let csElem := build_xml_for_case_study cs
    if cs.questions.isEmpty then
      pure (XmlElem.mk (sl "Testlets") [] none [csElem])
    else do
      let results := process_questions (realBuilder gem claude) cs.questions
      let rs ← sortResults results
      pure (XmlElem.mk (sl "Testlets") [] none (csElem :: rs.map QResult.element)))
  let standaloneTestlets ←
    if standalone.isEmpty then pure ([] : List XmlElem)
    else do
      let results := process_questions (realBuilder gem claude) standalone
      let rs ← sortResults results
      pure [XmlElem.mk (sl "Testlets") [] none (rs.map QResult.element)]
  pure (.mk (sl "root") [] none
    (rootMetadata standalone caseStudies ++ testlets ++ standaloneTestlets))

/-! ## Serialization post-pass
(`modules/questions/question_processors.fix_case_study_details_tags`) -/

/-- The opening tag targeted by the post-pass regex. -/
def cdOpen : Str := sl "<CaseStudyDetails>"

/-- The closing tag targeted by the post-pass regex. -/
def cdClose : Str := sl "</CaseStudyDetails>"

/-- The replacement body: `content.replace("&lt;", "<").replace("&gt;", ">")`. -/
def unescapeAngles (c : Str) : Str :=
  let c1 := pyReplace (c.length + 1) c (sl "&lt;") (sl "<")
  pyReplace (c1.length + 1) c1 (sl "&gt;") (sl ">")

/-- `re.sub(r'(<CaseStudyDetails>)(.*?)(</CaseStudyDetails>)', ..., s,
flags=re.DOTALL)`: for each non-overlapping leftmost match (lazy content, so
up to the first closing tag), unescape the angle-bracket entities of the
content; text outside matches is left unchanged. -/
def fixDetailsGo : Nat → Str → Str
  | 0, s => s
  | fuel + 1, s =>
    match findSub s cdOpen with
    | none => s
    | some i =>
      let after := s.drop (i + cdOpen.length)
      match findSub after cdClose with
      | none => s
      | some j =>
        s.take i ++ cdOpen ++ unescapeAngles (after.take j) ++ cdClose ++
          fixDetailsGo fuel (after.drop (j + cdClose.length))

/-- `fix_case_study_details_tags`. -/
def fix_case_study_details_tags (s : Str) : Str :=
  fixDetailsGo (s.length + 1) s

/-! ## Statement-level abbreviations and concrete fixtures -/

/-- A transport whose attempts never succeed (empty error text). -/
def gemNone : Gem := fun _ _ _ => .error []

/-- A transport whose attempts always fail with a fixed message. -/
def gemDead : Gem := fun _ _ _ => .error (sl "down")

/-- The numeric sort key of a case study whose tokens are all digits. -/
def csNatKey (cs : CaseStudy) : Nat × Nat :=
  (strToNatAux cs.topic_number, strToNatAux cs.number)

/-- Strict lexicographic order on numeric case-study keys. -/
def keyLtN (a b : Nat × Nat) : Prop :=
  a.1 < b.1 ∨ (a.1 = b.1 ∧ a.2 < b.2)

/-- Both sort tokens of a case study are all-digit strings. -/
def csDigits (cs : CaseStudy) : Prop :=
  pyIsDigit cs.topic_number = true ∧ pyIsDigit cs.number = true

instance : DecidablePred csDigits := fun cs => by
  unfold csDigits
  infer_instance

/-- The strict key order lifted to case studies. -/
def csLt (x y : CaseStudy) : Prop := keyLtN (csNatKey x) (csNatKey y)

instance : DecidableRel csLt := fun x y => by
  unfold csLt keyLtN; infer_instance

/-- Weak key order (no strict inversion), the sortedness relation of a stable
ascending sort. -/
def csLe (x y : CaseStudy) : Prop := ¬ csLt y x

/-- The single HOTSPOT violation string for a missing answer-option marker. -/
def hotspotAOIMsg (q : Question) : Str :=
  sl "Question " ++ qNumberStr q ++ sl " (HOTSPOT) - Missing AnswerOptionImage"

/-- The four text units of the end-to-end single-choice scenario. -/
def c5Items : List ContentItem :=
  [⟨sl "QUESTION NO: 1 SingleChoice", []⟩, ⟨sl "A. Paris", []⟩,
   ⟨sl "B. London", []⟩, ⟨sl "Answer: A", []⟩]

/-- The output node the scenario must build: two lettered choice nodes and
one answer node with value `A`. -/
def c5Expected : XmlElem :=
  .mk (sl "Question") [] none
    [leafX (sl "Kind") (sl "SingleChoice"), leafX (sl "DisplayKind") (sl "SingleChoice"),
     leafX (sl "QuestionNo") (sl "1"),
     .mk (sl "Choices") [] none
       [leafX (sl "Number") (sl "A"),
        .mk (sl "Contents") [] none
          [leafX (sl "ContentType") (sl "Text"), leafX (sl "Text") (sl "Paris")]],
     .mk (sl "Choices") [] none
       [leafX (sl "Number") (sl "B"),
        .mk (sl "Contents") [] none
          [leafX (sl "ContentType") (sl "Text"), leafX (sl "Text") (sl "London")]],
     .mk (sl "Answer") [] none [leafX (sl "Choices") (sl "A")],
     leafX (sl "Id") []]

/-- A declared-single-choice question whose text carries two answer letters
(the dispatch promotes it to multi-choice before building). -/
def c7q : Question :=
  ⟨some (sl "9"), sl "SingleChoice", [], sl "A. x\nB. y\nAnswer: A, B", []⟩

/-- A builder that always raises. -/
def buildBoom : Question → Except Str XmlElem := fun _ => .error (sl "boom")

/-- Case studies with numeric and non-numeric topic tokens for the sort. -/
def c3cs10 : CaseStudy := ⟨sl "10", sl "1", sl "T", [], [], []⟩

/-- Topic `2` case study. -/
def c3cs2 : CaseStudy := ⟨sl "2", sl "1", sl "T", [], [], []⟩

/-- Non-numeric topic token case study. -/
def c3csAbc : CaseStudy := ⟨sl "abc", sl "1", sl "T", [], [], []⟩

/-- A case study whose only segment carries embedded sub-language markup in a
Title entry (produced upstream from a `CaseStudyHeading:` marker). -/
def c9cs : CaseStudy :=
  ⟨sl "1", sl "1", sl "Network",
   [⟨sl "Background", [.title (sl "<CaseStudyHeading>Overview</CaseStudyHeading>")]⟩], [], []⟩

/-- The serialized (entity-escaped) form of the `c9cs` details content: XML
serialization escapes the angle brackets of text nodes, so the Title markup
reaches the post-pass in this form. -/
def c9Escaped : Str :=
  sl "<CaseStudy><Segments><Name>Background</Name><Contents><ContentType>Title</ContentType><Text>&lt;CaseStudyHeading&gt;Overview&lt;/CaseStudyHeading&gt;</Text></Contents></Segments></CaseStudy>"

/-- The element tree `generate_xml_output` builds for `c9cs` alone. -/
def c9Tree : XmlElem :=
  .mk (sl "root") [] none
    (rootMetadata [] [c9cs] ++
     [.mk (sl "Testlets") [] none [build_xml_for_case_study c9cs]])

/-- The three content units of the pending-case-study-image scenario: the
third unit matches no marker yet its image is consumed. -/
def c10Items : List ContentItem :=
  [⟨sl "CaseStudyStart:", []⟩, ⟨sl "CaseStudyImage:", []⟩,
   ⟨[], [⟨[7, 8], sl "png", sl "Pictures/cs.png"⟩]⟩]

/-- Content units for the image-classifier witness: an image before any
marker, a role marker, an image after it. -/
def c8Items : List ContentItem :=
  [⟨sl "intro text", [⟨[1], sl "png", sl "Pictures/before.png"⟩]⟩,
   ⟨sl "QuestionOptionImage:", []⟩,
   ⟨sl "more text", [⟨[2], sl "png", sl "Pictures/after.png"⟩]⟩]

/-- A dropdown question with one question-role and one answer-role image, for
the retry-exhaustion witness. -/
def c6q : Question :=
  ⟨some (sl "2"), sl "DROPDOWN",
   [⟨sl "QUESTION NO: 2 DROPDOWN", []⟩,
    ⟨sl "QuestionOptionImage:", [⟨[10, 20], sl "png", sl "Pictures/q.png"⟩]⟩,
    ⟨sl "AnswerOptionImage:", [⟨[30, 40], sl "png", sl "Pictures/a.png"⟩]⟩],
   sl "QUESTION NO: 2 DROPDOWN\nQuestionOptionImage:\nAnswerOptionImage:",
   [⟨[10, 20], sl "png", sl "Pictures/q.png"⟩, ⟨[30, 40], sl "png", sl "Pictures/a.png"⟩]⟩

/-- A hotspot question record missing the answer-option marker, for the
validator witness. -/
def c4q : Question :=
  ⟨some (sl "3"), sl "HOTSPOT",
   [⟨sl "QUESTION NO: 3 HOTSPOT", []⟩, ⟨sl "QuestionOptionImage:", [⟨[5], sl "png", sl "Pictures/h.png"⟩]⟩],
   sl "QUESTION NO: 3 HOTSPOT\nQuestionOptionImage:", [⟨[5], sl "png", sl "Pictures/h.png"⟩]⟩

/-! ## Theorems -/

set_option maxRecDepth 100000

/-- C5: running the grouping pipeline on the four text units
`["QUESTION NO: 1 SingleChoice", "A. Paris", "B. London", "Answer: A"]`
produces exactly one standalone question (no case studies) with number `1`
and type `SingleChoice`, and building it yields a node with exactly two
lettered choice nodes (`A`/`Paris`, `B`/`London`) and one answer node with
value `A` (the full built node is checked against `c5Expected`). -/
theorem c5_end_to_end_single_choice :
    (process_content_items c5Items).2 = [] ∧
    (process_content_items c5Items).1.map Question.number = [some (sl "1")] ∧
    (process_content_items c5Items).1.map Question.qtype = [sl "SingleChoice"] ∧
    (process_questions (realBuilder gemNone claudeNone) (process_content_items c5Items).1).map QResult.element =
      [c5Expected] :=
  ⟨rfl, rfl, rfl, rfl⟩

/-- C1 (counterexample): the input `["QUESTION NO: 1 a", "QUESTION NO: 1 b"]`
produces a standalone list in which question number `1` occurs twice — the
claimed identity check on the number field does not guard insertion into the
standalone collection. -/
theorem c1_duplicate_number_counterexample :
    (process_content_items
        [⟨sl "QUESTION NO: 1 a", []⟩, ⟨sl "QUESTION NO: 1 b", []⟩]).1.map Question.number =
      [some (sl "1"), some (sl "1")] ∧
    (process_content_items
        [⟨sl "CaseStudyStart:", []⟩, ⟨sl "QUESTION NO: 1 a", []⟩, ⟨sl "QUESTION NO: 1 b", []⟩,
         ⟨sl "QUESTION NO: 1 c", []⟩, ⟨sl "CaseStudyEnd:", []⟩]).2.map
        (fun cs => cs.questions.map Question.number) =
      [[some (sl "1"), some (sl "1")]] :=
  ⟨rfl, rfl⟩

/-- C1 (amended): the duplicate-number identity check runs only when a
case-study-end marker folds the open question into the open case study
(`_finalize_case_study`): there a duplicate number is rejected while a fresh
number is appended; the finalization triggered by a question-start marker
(`_finalize_current_question`) appends unconditionally, so duplicate numbers
can occur in both owning collections (see the counterexample). -/
theorem c1_dedup_only_at_case_study_end :
    (∀ (g : GState) (q : Question) (cs : CaseStudy),
       g.current_question = some q → g.cs.in_case_study = true →
       g.cs.current_case_study = some cs →
       q.number ∈ cs.questions.map Question.number →
       ∃ cs', g.finalize_case_study.case_studies = g.case_studies ++ [cs'] ∧
         cs'.questions = cs.questions) ∧
    (∀ (g : GState) (q : Question) (cs : CaseStudy),
       g.current_question = some q → g.cs.in_case_study = true →
       g.cs.current_case_study = some cs →
       q.number ∉ cs.questions.map Question.number →
       ∃ cs', g.finalize_case_study.case_studies = g.case_studies ++ [cs'] ∧
         cs'.questions = cs.questions ++ [q]) ∧
    (∀ (g : GState) (q : Question) (cs : CaseStudy),
       g.current_question = some q → g.cs.in_case_study = true →
       g.cs.current_case_study = some cs →
       ∃ cs2, g.finalize_current_question.cs.current_case_study = some cs2 ∧
         cs2.questions = cs.questions ++ [q]) := by
  refine ⟨?_, ?_, ?_⟩
  · intro g q cs hq hin hcs hmem
    obtain ⟨cq, sqs, csl, stt⟩ := g
    obtain ⟨tn, cn, tnm, ccs, sn, sc, ics, icd, nii⟩ := stt
    dsimp only at hq hin hcs
    subst hq hin hcs
    simp only [GState.finalize_case_study, CSState.finalize_current_segment, if_pos hmem]
    by_cases hseg : sn ≠ [] ∧ sc ≠ []
    · rw [if_pos hseg]
      exact ⟨_, rfl, rfl⟩
    · rw [if_neg hseg]
      exact ⟨_, rfl, rfl⟩
  · intro g q cs hq hin hcs hmem
    obtain ⟨cq, sqs, csl, stt⟩ := g
    obtain ⟨tn, cn, tnm, ccs, sn, sc, ics, icd, nii⟩ := stt
    dsimp only at hq hin hcs
    subst hq hin hcs
    simp only [GState.finalize_case_study, CSState.finalize_current_segment, if_neg hmem]
    by_cases hseg : sn ≠ [] ∧ sc ≠ []
    · rw [if_pos hseg]
      exact ⟨_, rfl, rfl⟩
    · rw [if_neg hseg]
      exact ⟨_, rfl, rfl⟩
  · intro g q cs hq hin hcs
    obtain ⟨cq, sqs, csl, stt⟩ := g
    obtain ⟨tn, cn, tnm, ccs, sn, sc, ics, icd, nii⟩ := stt
    dsimp only at hq hin hcs
    subst hq hin hcs
    simp only [GState.finalize_current_question]
    exact ⟨_, rfl, rfl⟩

/-- C1 witness: the amended dedup theorem applied to a concrete state with a
duplicate open question at case-study end. -/
theorem c1_dedup_only_at_case_study_end_witness :
    ∃ cs',
      (GState.finalize_case_study
          ⟨some ⟨some (sl "1"), sl "SingleChoice", [], sl "q", []⟩, [], [],
           ⟨sl "1", sl "1", sl "T", some ⟨sl "1", sl "1", sl "T", [],
              [⟨some (sl "1"), sl "SingleChoice", [], sl "p", []⟩], []⟩,
            [], [], true, false, false⟩⟩).case_studies =
        [] ++ [cs'] ∧
      cs'.questions = [⟨some (sl "1"), sl "SingleChoice", [], sl "p", []⟩] :=
  c1_dedup_only_at_case_study_end.1
    ⟨some ⟨some (sl "1"), sl "SingleChoice", [], sl "q", []⟩, [], [],
     ⟨sl "1", sl "1", sl "T", some ⟨sl "1", sl "1", sl "T", [],
        [⟨some (sl "1"), sl "SingleChoice", [], sl "p", []⟩], []⟩,
      [], [], true, false, false⟩⟩
    ⟨some (sl "1"), sl "SingleChoice", [], sl "q", []⟩
    ⟨sl "1", sl "1", sl "T", [], [⟨some (sl "1"), sl "SingleChoice", [], sl "p", []⟩], []⟩
    rfl rfl rfl (by decide)

/-- C7 (counterexample): a question declared `SingleChoice` whose text lists
two answer letters is promoted to `MultipleChoice` by the dispatch before
building, so when the build then raises, the fallback node carries
`MultipleChoice`, not the declared type. -/
theorem c7_fallback_type_counterexample :
    c7q.qtype = sl "SingleChoice" ∧
    process_questions buildBoom [c7q] =
      [⟨some (sl "9"), sl "MultipleChoice",
        fallbackElem (some (sl "9")) (sl "MultipleChoice") (sl "boom")⟩] :=
  ⟨rfl, rfl⟩

/-- C7 (amended): the dispatch processes each question independently — the
result at any position only depends on that question and on the builder's
outcome for it, so replacing the failing question's outcome leaves every
other result unchanged; and when building a question raises, its result is
the minimal fallback node carrying the question number, the type as
normalised at dispatch (which may promote `SingleChoice` to
`MultipleChoice`), and the error message. -/
theorem c7_dispatch_isolation :
    (∀ (b b' : Question → Except Str XmlElem) (qs : List Question) (j : Nat),
       (qs[j]?).map (fun q => b (typeUpdate q)) = (qs[j]?).map (fun q => b' (typeUpdate q)) →
       (process_questions b qs)[j]? = (process_questions b' qs)[j]?) ∧
    (∀ (b : Question → Except Str XmlElem) (qs : List Question) (j : Nat)
       (q : Question) (msg : Str),
       qs[j]? = some q → b (typeUpdate q) = .error msg →
       (process_questions b qs)[j]? =
         some ⟨q.number, (typeUpdate q).qtype,
           fallbackElem q.number (typeUpdate q).qtype msg⟩) := by
  constructor
  · intro b b' qs j h
    simp only [process_questions, List.getElem?_map]
    cases hq : qs[j]? with
    | none => rfl
    | some q =>
      rw [hq] at h
      simp only [Option.map_some'] at h
      injection h with h
      simp only [Option.map_some', processOne, h]
  · intro b qs j q msg hj hb
    simp only [process_questions, List.getElem?_map, hj, Option.map_some']
    simp only [processOne, hb]

/-- C7 witness: the isolation theorem's fallback clause applied to a
concrete failing builder and batch. -/
theorem c7_dispatch_isolation_witness :
    (process_questions buildBoom [c7q])[0]? =
      some ⟨c7q.number, (typeUpdate c7q).qtype,
        fallbackElem c7q.number (typeUpdate c7q).qtype (sl "boom")⟩ :=
  c7_dispatch_isolation.2 buildBoom [c7q] 0 c7q (sl "boom") rfl rfl

/-- C10 (amended): a content unit matching no marker, processed while no
question is open, the details flag is off, and no case-study-image one-shot
flag is pending for a unit that carries images, leaves the grouper state
exactly unchanged — its text and images reach no collection. -/
theorem c10_unmatched_unit_discarded (g : GState) (item : ContentItem)
    (h1 : topicCaseSearch item.content = none)
    (h2 : containsSub item.content (sl "TopicName:") = false)
    (h3 : containsSub item.content (sl "CaseStudyStart:") = false)
    (h4 : containsSub item.content (sl "CaseStudyEnd:") = false)
    (h5 : containsSub item.content (sl "CaseStudyDetailsStart:") = false)
    (h6 : containsSub item.content (sl "CaseStudyDetailsEnd:") = false)
    (h7 : containsSub item.content (sl "CaseStudyImage:") = false)
    (h8 : containsSub (pyUpper item.content) (sl "QUESTION NO:") = false)
    (h9 : g.current_question = none)
    (h10 : g.cs.in_case_study_details = false)
    (h11 : g.cs.next_image_is_case_study = false ∨ item.images = []) :
    g.process_single_item item = g := by
  unfold GState.process_single_item GState.handle_case_study_markers
    GState.handle_question_markers GState.handle_case_study_content hasQuestionStart
  rcases h11 with h11 | h11 <;>
    simp [h1, h2, h3, h4, h5, h6, h7, h8, h9, h10, h11]

/-- C10 (counterexample): in the run `["CaseStudyStart:", "CaseStudyImage:",
<image-bearing unit with empty text>]` the third unit matches no marker, no
question is open and the details flag is off when it is processed — yet its
image ends up in the case study's aggregate image collection, because the
`CaseStudyImage:` one-shot flag set by the second unit is still pending. -/
theorem c10_pending_image_counterexample :
    (([⟨sl "CaseStudyStart:", []⟩, ⟨sl "CaseStudyImage:", []⟩] :
        List ContentItem).foldl GState.process_single_item GState.init).current_question = none ∧
    (([⟨sl "CaseStudyStart:", []⟩, ⟨sl "CaseStudyImage:", []⟩] :
        List ContentItem).foldl GState.process_single_item GState.init).cs.in_case_study_details = false ∧
    topicCaseSearch ([] : Str) = none ∧
    containsSub ([] : Str) (sl "TopicName:") = false ∧
    containsSub ([] : Str) (sl "CaseStudyImage:") = false ∧
    containsSub (pyUpper ([] : Str)) (sl "QUESTION NO:") = false ∧
    (process_content_items c10Items).1 = [] ∧
    (process_content_items c10Items).2.map CaseStudy.images =
      [[⟨[7, 8], sl "png", sl "Pictures/cs.png"⟩]] := by
  refine ⟨rfl, rfl, rfl, rfl, rfl, rfl, rfl, rfl⟩

/-- C10 witness: the discard theorem applied to the initial state and a
plain text unit carrying an image. -/
theorem c10_unmatched_unit_discarded_witness :
    GState.process_single_item GState.init
        ⟨sl "hello world", [⟨[9], sl "png", sl "Pictures/x.png"⟩]⟩ =
      GState.init :=
  c10_unmatched_unit_discarded GState.init
    ⟨sl "hello world", [⟨[9], sl "png", sl "Pictures/x.png"⟩]⟩
    rfl rfl rfl rfl rfl rfl rfl rfl rfl rfl (Or.inl rfl)

/-- The validator loop over any list from any accumulator: the flag is the
conjunction of per-question emptiness checks and the messages accumulate in
order. -/
theorem validate_foldl (qs : List Question) (b : Bool) (m : List Str) :
    qs.foldl (fun acc q =>
        let errs := questionViolations q
        (acc.1 && errs.isEmpty, acc.2 ++ errs)) (b, m) =
      (b && qs.all (fun q => (questionViolations q).isEmpty),
       m ++ qs.flatMap questionViolations) := by
  induction qs generalizing b m with
  | nil => simp
  | cons q qs ih => simp [ih, Bool.and_assoc]

/-- C4: for a question of type `HOTSPOT` whose content carries the
question-option marker but not the answer-option marker, the validator
contributes exactly one violation for that question — the string naming its
number and the missing `AnswerOptionImage` role — and returns `valid=False`
while still collecting every other question's violations in order (no
short-circuit).  The source only reads its input, so the embedding is a pure
function and input mutation cannot occur. -/
theorem c4_hotspot_missing_answer (pre post : List Question) (q : Question)
    (ht : q.qtype = sl "HOTSPOT")
    (hqoi : hasImageMarker q (sl "QuestionOptionImage:") = true)
    (haoi : hasImageMarker q (sl "AnswerOptionImage:") = false) :
    questionViolations q = [hotspotAOIMsg q] ∧
    validate_question_images (pre ++ q :: post) =
      (false,
       pre.flatMap questionViolations ++
         hotspotAOIMsg q :: post.flatMap questionViolations) := by
  have hviol : questionViolations q = [hotspotAOIMsg q] := by
    simp [questionViolations, ht, hqoi, haoi, hotspotAOIMsg]
  refine ⟨hviol, ?_⟩
  rw [validate_question_images, validate_foldl]
  simp [hviol]

/-- C4 witness: the validator theorem applied to a concrete hotspot question
missing its answer-option marker. -/
theorem c4_hotspot_missing_answer_witness :
    questionViolations c4q = [hotspotAOIMsg c4q] ∧
    validate_question_images ([] ++ c4q :: []) =
      (false, [].flatMap questionViolations ++
        hotspotAOIMsg c4q :: ([] : List Question).flatMap questionViolations) :=
  c4_hotspot_missing_answer [] [] c4q rfl (by decide) (by decide)

/-- The running state of the hotspot best-match fold: either no candidate was
accepted and the accumulator is untouched, or the result holds a candidate
with the maximal score, which strictly exceeds `0.6`. -/
theorem bestFoldGen (ans : Str) :
    ∀ (rest : List (Str × List Str)) (acc : Option Str × ℚ),
      (rest.foldl (fun a opt =>
          let s := seqScore (pyLower opt.1) (pyLower ans)
          if s > a.2 ∧ s > mkRat 3 5 then (some opt.1, s) else a) acc = acc ∧
        ∀ o ∈ rest, ¬(seqScore (pyLower o.1) (pyLower ans) > acc.2 ∧
          seqScore (pyLower o.1) (pyLower ans) > mkRat 3 5)) ∨
      (∃ o ∈ rest,
        (rest.foldl (fun a opt =>
            let s := seqScore (pyLower opt.1) (pyLower ans)
            if s > a.2 ∧ s > mkRat 3 5 then (some opt.1, s) else a) acc).1 = some o.1 ∧
        (rest.foldl (fun a opt =>
            let s := seqScore (pyLower opt.1) (pyLower ans)
            if s > a.2 ∧ s > mkRat 3 5 then (some opt.1, s) else a) acc).2 =
          seqScore (pyLower o.1) (pyLower ans) ∧
        seqScore (pyLower o.1) (pyLower ans) > mkRat 3 5 ∧
        acc.2 ≤ (rest.foldl (fun a opt =>
            let s := seqScore (pyLower opt.1) (pyLower ans)
            if s > a.2 ∧ s > mkRat 3 5 then (some opt.1, s) else a) acc).2 ∧
        ∀ o' ∈ rest, seqScore (pyLower o'.1) (pyLower ans) ≤
            (rest.foldl (fun a opt =>
              let s := seqScore (pyLower opt.1) (pyLower ans)
              if s > a.2 ∧ s > mkRat 3 5 then (some opt.1, s) else a) acc).2 ∨
          seqScore (pyLower o'.1) (pyLower ans) ≤ mkRat 3 5) := by
  intro rest
  induction rest with
  | nil => intro acc; exact Or.inl ⟨rfl, by simp⟩
  | cons o rest ih =>
    intro acc
    by_cases h : seqScore (pyLower o.1) (pyLower ans) > acc.2 ∧
        seqScore (pyLower o.1) (pyLower ans) > mkRat 3 5
    · simp only [List.foldl_cons, if_pos h]
      rcases ih (some o.1, seqScore (pyLower o.1) (pyLower ans)) with ⟨heq, hall⟩ | ⟨o2, hm, h1, h2, h3, h4, h5⟩
      · refine Or.inr ⟨o, List.mem_cons_self o rest, ?_, ?_, h.2,
          (by rw [heq]; exact le_of_lt h.1), ?_⟩
        · rw [heq]
        · rw [heq]
        · intro o' ho'
          rcases List.mem_cons.mp ho' with rfl | ho'
          · exact Or.inl (by rw [heq])
          · have := hall o' ho'
            rw [heq]
            by_cases hle : seqScore (pyLower o'.1) (pyLower ans) ≤ mkRat 3 5
            · exact Or.inr hle
            · left
              by_contra hgt
              exact this ⟨lt_of_not_le hgt, lt_of_not_le hle⟩
      · refine Or.inr ⟨o2, List.mem_cons_of_mem o hm, h1, h2, h3, le_trans (le_of_lt h.1) h4, ?_⟩
        intro o' ho'
        rcases List.mem_cons.mp ho' with rfl | ho'
        · exact Or.inl h4
        · exact h5 o' ho'
    · simp only [List.foldl_cons, if_neg h]
      rcases ih acc with ⟨heq, hall⟩ | ⟨o2, hm, h1, h2, h3, h4, h5⟩
      · refine Or.inl ⟨heq, ?_⟩
        intro o' ho'
        rcases List.mem_cons.mp ho' with rfl | ho'
        · exact h
        · exact hall o' ho'
      · refine Or.inr ⟨o2, List.mem_cons_of_mem o hm, h1, h2, h3, h4, ?_⟩
        intro o' ho'
        rcases List.mem_cons.mp ho' with rfl | ho'
        · by_cases hle : seqScore (pyLower o'.1) (pyLower ans) ≤ mkRat 3 5
          · exact Or.inr hle
          · left
            rcases not_and_or.mp h with hna | hnb
            · exact le_trans (le_of_not_lt hna) h4
            · exact absurd (lt_of_not_le hle) hnb
        · exact h5 o' ho'

/-- The empty string matches nothing of a non-empty string. -/
theorem matchesTotal_nil_left (x : Str) : matchesTotal [] x = 0 := by
  simp [matchesTotal, sumMatches, bestBlock]

/-- A score strictly above the threshold against the empty string forces the
other string to be empty as well. -/
theorem seqScore_nil_gt (x : Str) (h : seqScore [] x > mkRat 3 5) : x = [] := by
  by_contra hx
  have ht : x.length ≠ 0 := fun h0 => hx (List.length_eq_zero.mp h0)
  have hz : seqScore [] x = 0 := by
    simp only [seqScore, List.length_nil, Nat.zero_add, if_neg ht, matchesTotal_nil_left,
      Nat.mul_zero, Nat.cast_ofNat]
    exact (Rat.mkRat_eq_zero (by exact_mod_cast ht)).mpr rfl
  rw [hz] at h
  exact absurd h (by decide)

/-- C2 (amended): in hotspot answer assembly, a candidate statement is used
only when its normalized similarity score strictly exceeds `0.6`: when every
candidate scores at most `0.6` the emitted answer carries the answer's own
stripped statement text, and when some candidate scores above `0.6` the
emitted answer carries a maximal-scoring candidate's statement.  The two
literal examples of the specification behave as described. -/
theorem c2_fuzzy_threshold :
    (∀ (options : List (Str × List Str)) (item : HotAns),
       options ≠ [] →
       (∀ o ∈ options,
         seqScore (pyLower o.1) (pyLower (pyStrip item.statement)) ≤ mkRat 3 5) →
       (hotspotAnswerElem options item).attr? (sl "statement") =
         some (pyStrip item.statement)) ∧
    (∀ (options : List (Str × List Str)) (item : HotAns),
       (∃ o ∈ options,
         seqScore (pyLower o.1) (pyLower (pyStrip item.statement)) > mkRat 3 5) →
       ∃ o ∈ options,
         (hotspotAnswerElem options item).attr? (sl "statement") = some o.1 ∧
         seqScore (pyLower o.1) (pyLower (pyStrip item.statement)) > mkRat 3 5 ∧
         ∀ o' ∈ options,
           seqScore (pyLower o'.1) (pyLower (pyStrip item.statement)) ≤
             seqScore (pyLower o.1) (pyLower (pyStrip item.statement))) ∧
    ((hotspotAnswerElem [(sl "xyz123", [sl "Yes", sl "No"])]
        ⟨sl "The sky is blue", sl "Yes"⟩).attr? (sl "statement") =
      some (sl "The sky is blue")) ∧
    ((hotspotAnswerElem [(sl "The sky is blue.", [sl "Yes", sl "No"])]
        ⟨sl "The sky is blue", sl "Yes"⟩).attr? (sl "statement") =
      some (sl "The sky is blue.")) := by
  refine ⟨?_, ?_, by decide, by decide⟩
  · intro options item hne hall
    rcases bestFoldGen (pyStrip item.statement) options (none, mkRat 0 1) with
      ⟨heq, _⟩ | ⟨o, hm, h1, h2, h3, _, _⟩
    · have hb : bestMatchFold options (pyStrip item.statement) = (none, mkRat 0 1) := heq
      simp only [hotspotAnswerElem, hb]
      rfl
    · exact absurd h3 (not_lt.mpr (hall o hm))
  · intro options item hex
    obtain ⟨o0, ho0, hgt0⟩ := hex
    rcases bestFoldGen (pyStrip item.statement) options (none, mkRat 0 1) with
      ⟨_, hall⟩ | ⟨o, hm, h1, h2, h3, _, h5⟩
    · exact absurd ⟨lt_trans (by decide) hgt0, hgt0⟩ (hall o0 ho0)
    · have hb1 : (bestMatchFold options (pyStrip item.statement)).1 = some o.1 := h1
      have hb2 : (bestMatchFold options (pyStrip item.statement)).2 =
          seqScore (pyLower o.1) (pyLower (pyStrip item.statement)) := h2
      refine ⟨o, hm, ?_, h3, ?_⟩
      · by_cases hoe : o.1 = []
        · have hx : pyLower (pyStrip item.statement) = [] := by
            apply seqScore_nil_gt
            rw [hoe] at h3
            simpa [pyLower] using h3
          have hs : pyStrip item.statement = [] := List.map_eq_nil_iff.mp hx
          simp only [hotspotAnswerElem, hb1, if_pos hoe]
          rw [hs, hoe]
          rfl
        · simp only [hotspotAnswerElem, hb1, if_neg hoe]
          rfl
      · intro o' ho'
        rcases h5 o' ho' with hle | hle
        · rw [h2] at hle
          exact hle
        · exact le_trans hle (le_of_lt h3)

/-- C2 (counterexample): with candidate statement `abcde` and answer
statement `abcxy` the similarity score is exactly `0.6` — at least `0.6` as
the claim requires — yet the emitted answer carries the answer's own
statement, not the candidate: the code accepts a candidate only for scores
strictly greater than `0.6`. -/
theorem c2_threshold_boundary_counterexample :
    seqScore (pyLower (sl "abcde")) (pyLower (pyStrip (sl "abcxy"))) = mkRat 3 5 ∧
    (hotspotAnswerElem [(sl "abcde", [sl "Yes", sl "No"])]
        ⟨sl "abcxy", sl "Yes"⟩).attr? (sl "statement") = some (sl "abcxy") :=
  ⟨by decide, by decide⟩

/-- C2 witness: the fallback clause of the threshold theorem applied to the
concrete disjoint pair from the specification. -/
theorem c2_fuzzy_threshold_witness :
    (hotspotAnswerElem [(sl "zzz", [sl "Yes", sl "No"])]
        ⟨sl "The sky is blue", sl "Yes"⟩).attr? (sl "statement") =
      some (pyStrip (sl "The sky is blue")) :=
  c2_fuzzy_threshold.1 [(sl "zzz", [sl "Yes", sl "No"])]
    ⟨sl "The sky is blue", sl "Yes"⟩ (by decide) (by decide)

/-- The key order is asymmetric. -/
theorem keyLtN_asymm {a b : Nat × Nat} (h : keyLtN a b) : ¬ keyLtN b a := by
  unfold keyLtN at *
  omega

/-- The key order is transitive. -/
theorem keyLtN_trans {a b c : Nat × Nat} (h1 : keyLtN a b) (h2 : keyLtN b c) :
    keyLtN a c := by
  unfold keyLtN at *
  omega

/-- On digit-token case studies the raising Python comparison computes the
numeric key order. -/
theorem keyLt_digit (x y : CaseStudy) (hx : csDigits x) (hy : csDigits y) :
    (csLt x y → keyLt (csKey x) (csKey y) = .ok true) ∧
    (¬ csLt x y → keyLt (csKey x) (csKey y) = .ok false) := by
  obtain ⟨hx1, hx2⟩ := hx
  obtain ⟨hy1, hy2⟩ := hy
  unfold csLt keyLtN csNatKey csKey pyKeyPart keyLt atomEq atomLt
  rw [hx1, hx2, hy1, hy2]
  simp only [if_true]
  constructor <;> intro h <;> split_ifs with h1 h2 <;> simp_all

/-- Monadic insertion on digit-token case studies succeeds, permutes, and
preserves sortedness. -/
theorem insertCS_digit (x : CaseStudy) (hx : csDigits x) :
    ∀ (ys : List CaseStudy), (∀ y ∈ ys, csDigits y) →
      ∃ zs, insertCS x ys = .ok zs ∧ zs.Perm (x :: ys) ∧
        (List.Pairwise csLe ys → List.Pairwise csLe zs) := by
  intro ys
  induction ys with
  | nil =>
    intro _
    exact ⟨[x], rfl, List.Perm.refl _, fun _ => List.pairwise_singleton _ _⟩
  | cons y ys ih =>
    intro hall
    have hy := hall y (List.mem_cons_self y ys)
    have hys : ∀ y' ∈ ys, csDigits y' := fun y' h => hall y' (List.mem_cons_of_mem y h)
    by_cases hlt : csLt x y
    · refine ⟨x :: y :: ys, ?_, List.Perm.refl _, ?_⟩
      · simp only [insertCS, (keyLt_digit x y hx hy).1 hlt]
        rfl
      · intro hp
        rcases List.pairwise_cons.mp hp with ⟨hy_all, _⟩
        refine List.pairwise_cons.mpr ⟨?_, hp⟩
        intro z hz
        rcases List.mem_cons.mp hz with rfl | hz
        · exact keyLtN_asymm hlt
        · intro hzx
          exact hy_all z hz (keyLtN_trans hzx hlt)
    · obtain ⟨zs, hzs, hperm, hpair⟩ := ih hys
      refine ⟨y :: zs, ?_, ?_, ?_⟩
      · simp only [insertCS, (keyLt_digit x y hx hy).2 hlt, hzs]
        rfl
      · exact (hperm.cons y).trans (List.Perm.swap x y ys)
      · intro hp
        rcases List.pairwise_cons.mp hp with ⟨hy_all, hp_ys⟩
        refine List.pairwise_cons.mpr ⟨?_, hpair hp_ys⟩
        intro z hz
        rcases List.mem_cons.mp (hperm.mem_iff.mp hz) with rfl | hz'
        · exact hlt
        · exact hy_all z hz'

/-- The whole insertion loop on digit-token case studies succeeds with a
sorted permutation of its input. -/
theorem sortAux (l : List CaseStudy) :
    ∀ acc, (∀ cs ∈ l, csDigits cs) → (∀ cs ∈ acc, csDigits cs) →
      List.Pairwise csLe acc →
      ∃ l', List.foldlM (fun a x => insertCS x a) acc l = .ok l' ∧
        l'.Perm (acc ++ l) ∧ List.Pairwise csLe l' := by
  induction l with
  | nil =>
    intro acc _ _ hp
    exact ⟨acc, rfl, by simp, hp⟩
  | cons x l ih =>
    intro acc hl hacc hp
    have hx := hl x (List.mem_cons_self x l)
    obtain ⟨zs, hzs, hperm, hpair⟩ := insertCS_digit x hx acc hacc
    have hzs_dig : ∀ cs ∈ zs, csDigits cs := by
      intro cs h
      rcases List.mem_cons.mp (hperm.mem_iff.mp h) with rfl | h'
      · exact hx
      · exact hacc cs h'
    obtain ⟨l', hfold, hperm', hp'⟩ :=
      ih zs (fun cs h => hl cs (List.mem_cons_of_mem x h)) hzs_dig (hpair hp)
    refine ⟨l', ?_, ?_, hp'⟩
    · simp only [List.foldlM, hzs]
      simpa using hfold
    · exact hperm'.trans ((hperm.append_right l).trans List.perm_middle.symm)

/-- C3 (amended): when every case study's topic and case tokens are all
digits, the assembler sort succeeds and orders the studies by the numeric
`(topic, case)` key, so any study with topic `2` precedes any study with
topic `10`; but the sort key mixes Python `int` and `str` values as soon as
one token is non-numeric, and comparing them raises `TypeError` — the sort is
not total (see the counterexample). -/
theorem c3_sort_numeric (l : List CaseStudy) (hdig : ∀ cs ∈ l, csDigits cs) :
    ∃ l', sortCaseStudies l = .ok l' ∧ l'.Perm l ∧ List.Pairwise csLe l' ∧
      ∀ (i j : Fin l'.length), (l'.get i).topic_number = sl "2" →
        (l'.get j).topic_number = sl "10" → (i : Nat) < (j : Nat) := by
  obtain ⟨l', hfold, hperm, hp⟩ := sortAux l [] hdig (by simp) (by simp)
  refine ⟨l', hfold, by simpa using hperm, hp, ?_⟩
  intro i j hi2 hj10
  by_contra hij
  rcases lt_or_eq_of_le (le_of_not_lt hij) with hlt | heq
  · have hJI := List.pairwise_iff_get.mp hp j i hlt
    apply hJI
    unfold csLt keyLtN csNatKey
    left
    rw [hi2, hj10]
    show strToNatAux (sl "2") < strToNatAux (sl "10")
    decide
  · have hij' : i = j := Fin.ext heq.symm
    rw [hij', hj10] at hi2
    exact absurd hi2 (by decide)

/-- C3 (counterexample): a list containing topic numbers `10`, `2` and `abc`
makes the sort compare an `int` key with a `str` key and raise: the claim
that the sort is well-defined when some keys are numeric and others are not
fails.  On the purely numeric sublist the numeric order does hold. -/
theorem c3_mixed_keys_counterexample :
    sortCaseStudies [c3cs10, c3cs2, c3csAbc] = .error () ∧
    sortCaseStudies [c3cs10, c3cs2] = .ok [c3cs2, c3cs10] :=
  ⟨rfl, rfl⟩

/-- C3 witness: the numeric-sort theorem applied to the concrete two-element
list with topics `10` and `2`. -/
theorem c3_sort_numeric_witness :
    ∃ l', sortCaseStudies [c3cs10, c3cs2] = .ok l' ∧
      l'.Perm [c3cs10, c3cs2] ∧ List.Pairwise csLe l' ∧
      ∀ (i j : Fin l'.length), (l'.get i).topic_number = sl "2" →
        (l'.get j).topic_number = sl "10" → (i : Nat) < (j : Nat) :=
  c3_sort_numeric [c3cs10, c3cs2] (by decide)

/-- One classifier step only ever adds entries keyed by the item's own image
paths. -/
theorem identifyStep_sub (m : List (Str × Str)) (c0 : Option Str) (x : ContentItem)
    (pr : Str × Str) (h : pr ∈ (identifyStep (m, c0) x).1) :
    pr ∈ m ∨ pr.1 ∈ x.images.map Img.path := by
  rcases hm : itemRoleMarker (pyStrip x.content) with _ | r
  · rcases hc : c0 with _ | r2
    · subst hc
      simp only [identifyStep, hm] at h
      exact Or.inl h
    · subst hc
      by_cases hi : x.images.isEmpty
      · simp only [identifyStep, hm, hi, if_pos] at h
        exact Or.inl h
      · simp only [identifyStep, hm, hi, if_neg, Bool.false_eq_true, not_false_iff] at h
        rcases List.mem_append.mp h with h' | h'
        · exact Or.inl h'
        · obtain ⟨img, hm2, hpr⟩ := List.mem_map.mp h'
          exact Or.inr (List.mem_map.mpr ⟨img, hm2, by rw [← hpr]⟩)
  · by_cases hi : x.images.isEmpty
    · simp only [identifyStep, hm, hi, if_pos] at h
      exact Or.inl h
    · simp only [identifyStep, hm, hi, if_neg, Bool.false_eq_true, not_false_iff] at h
      rcases List.mem_append.mp h with h' | h'
      · exact Or.inl h'
      · obtain ⟨img, hm2, hpr⟩ := List.mem_map.mp h'
        exact Or.inr (List.mem_map.mpr ⟨img, hm2, by rw [← hpr]⟩)

/-- Every entry of the classifier fold is keyed by an image path of the
scanned items, or was already present in the accumulator. -/
theorem identifyFold_keys (items : List ContentItem) :
    ∀ (acc : List (Str × Str) × Option Str),
      ∀ pr ∈ (items.foldl identifyStep acc).1,
        pr ∈ acc.1 ∨ ∃ x ∈ items, pr.1 ∈ x.images.map Img.path := by
  induction items with
  | nil => intro acc pr h; exact Or.inl h
  | cons x items ih =>
    intro acc pr h
    rw [List.foldl_cons] at h
    rcases ih (identifyStep acc x) pr h with h' | ⟨x', hx', hp⟩
    · rcases identifyStep_sub acc.1 acc.2 x pr h' with h'' | h''
      · exact Or.inl h''
      · exact Or.inr ⟨x, List.mem_cons_self x items, h''⟩
    · exact Or.inr ⟨x', List.mem_cons_of_mem x hx', hp⟩

/-- Scanning marker-free items with no current role records nothing. -/
theorem identifyFold_none (pre : List ContentItem) :
    ∀ (m : List (Str × Str)),
      (∀ x ∈ pre, itemRoleMarker (pyStrip x.content) = none) →
      pre.foldl identifyStep (m, none) = (m, none) := by
  induction pre with
  | nil => intro m _; rfl
  | cons x pre ih =>
    intro m hall
    have hx := hall x (List.mem_cons_self x pre)
    have hstep : identifyStep (m, none) x = (m, none) := by
      simp [identifyStep, hx]
    rw [List.foldl_cons, hstep]
    exact ih m (fun y hy => hall y (List.mem_cons_of_mem x hy))

/-- Scanning marker-free items with sticky role `r` keeps the role and
extends the mapping by entries that all carry `r` and cover every image path
of the scanned items. -/
theorem identifyFold_sticky (rest : List ContentItem) :
    ∀ (m : List (Str × Str)) (r : Str),
      (∀ x ∈ rest, itemRoleMarker (pyStrip x.content) = none) →
      ∃ extra, rest.foldl identifyStep (m, some r) = (m ++ extra, some r) ∧
        (∀ pr ∈ extra, pr.2 = r) ∧
        (∀ p, (∃ x ∈ rest, p ∈ x.images.map Img.path) → ∃ v, (p, v) ∈ extra) := by
  induction rest with
  | nil =>
    intro m r _
    exact ⟨[], by simp, by simp, by simp⟩
  | cons x rest ih =>
    intro m r hall
    have hx := hall x (List.mem_cons_self x rest)
    by_cases hi : x.images.isEmpty
    · have hstep : identifyStep (m, some r) x = (m, some r) := by
        simp [identifyStep, hx, hi]
      obtain ⟨extra, he, hv, hc⟩ := ih m r (fun y hy => hall y (List.mem_cons_of_mem x hy))
      refine ⟨extra, by rw [List.foldl_cons, hstep]; exact he, hv, ?_⟩
      intro p hex
      obtain ⟨x', hx', hp⟩ := hex
      rcases List.mem_cons.mp hx' with h | hx'
      · subst h
        rw [List.isEmpty_iff.mp hi] at hp
        simp at hp
      · exact hc p ⟨x', hx', hp⟩
    · have hstep : identifyStep (m, some r) x =
          (m ++ x.images.map (fun img => (img.path, r)), some r) := by
        simp [identifyStep, hx, hi]
      obtain ⟨extra, he, hv, hc⟩ :=
        ih (m ++ x.images.map (fun img => (img.path, r))) r
          (fun y hy => hall y (List.mem_cons_of_mem x hy))
      refine ⟨x.images.map (fun img => (img.path, r)) ++ extra, ?_, ?_, ?_⟩
      · rw [List.foldl_cons, hstep, he, List.append_assoc]
      · intro pr hpr
        rcases List.mem_append.mp hpr with h' | h'
        · obtain ⟨img, _, hpr'⟩ := List.mem_map.mp h'
          rw [← hpr']
        · exact hv pr h'
      · intro p hex
        obtain ⟨x', hx', hp⟩ := hex
        rcases List.mem_cons.mp hx' with h | hx'
        · subst h
          obtain ⟨img, hin, hpath⟩ := List.mem_map.mp hp
          exact ⟨r, List.mem_append.mpr (Or.inl (List.mem_map.mpr ⟨img, hin, by rw [hpath]⟩))⟩
        · obtain ⟨v, hvmem⟩ := hc p ⟨x', hx', hp⟩
          exact ⟨v, List.mem_append.mpr (Or.inr hvmem)⟩

/-- Last-write-wins lookup hits the extension when it contains the key and
maps it only to `r`. -/
theorem dictGet?_append_val (m extra : List (Str × Str)) (p r : Str)
    (hmem : ∃ v, (p, v) ∈ extra) (hval : ∀ pr ∈ extra, pr.1 = p → pr.2 = r) :
    dictGet? (m ++ extra) p = some r := by
  unfold dictGet?
  rw [List.reverse_append, List.find?_append]
  have hsome : (extra.reverse.find? (fun q => q.1 = p)).isSome = true := by
    rw [List.find?_isSome]
    obtain ⟨v, hv⟩ := hmem
    exact ⟨(p, v), List.mem_reverse.mpr hv, by simp⟩
  obtain ⟨a, ha⟩ := Option.isSome_iff_exists.mp hsome
  have hpa : a.1 = p := by simpa using List.find?_some ha
  have hma : a ∈ extra := List.mem_reverse.mp (List.mem_of_find?_eq_some ha)
  rw [ha]
  simp [Option.or]
  exact hval a hma hpa

/-- Lookup misses when no entry carries the key. -/
theorem dictGet?_none (m : List (Str × Str)) (p : Str)
    (h : ∀ pr ∈ m, pr.1 ≠ p) : dictGet? m p = none := by
  unfold dictGet?
  rw [List.find?_eq_none.mpr]
  · rfl
  · intro x hx
    simpa using h x (List.mem_reverse.mp hx)

/-- C8: image-role assignment is sticky and defaults to `description`.
Part 1: once a unit's markers set role `r`, every image path carried by the
following marker-free units is mapped to `r`, whatever units came before.
Part 2: an image path occurring among marker-free leading units, and not
carried by any later unit, is absent from the mapping, and the builder
consumes it with role `description`. -/
theorem c8_sticky_roles :
    (∀ (pre : List ContentItem) (mrk : ContentItem) (rest : List ContentItem) (r p : Str),
       itemRoleMarker (pyStrip mrk.content) = some r →
       (∀ x ∈ rest, itemRoleMarker (pyStrip x.content) = none) →
       (∃ x ∈ rest, p ∈ x.images.map Img.path) →
       dictGet? (identify_image_types (pre ++ mrk :: rest)) p = some r ∧
       consumedRole (identify_image_types (pre ++ mrk :: rest)) p = r) ∧
    (∀ (pre rest : List ContentItem) (p : Str),
       (∀ x ∈ pre, itemRoleMarker (pyStrip x.content) = none) →
       (∃ x ∈ pre, p ∈ x.images.map Img.path) →
       (∀ x ∈ rest, ∀ img ∈ x.images, img.path ≠ p) →
       dictGet? (identify_image_types (pre ++ rest)) p = none ∧
       consumedRole (identify_image_types (pre ++ rest)) p = sl "description") := by
  constructor
  · intro pre mrk rest r p hm hrest hex
    unfold identify_image_types
    rw [List.foldl_append]
    rcases hpre : pre.foldl identifyStep ([], none) with ⟨m0, c0⟩
    rw [List.foldl_cons]
    by_cases hi : mrk.images.isEmpty
    · have hstep : identifyStep (m0, c0) mrk = (m0, some r) := by
        simp [identifyStep, hm, hi]
      rw [hstep]
      obtain ⟨extra, he, hv, hc⟩ := identifyFold_sticky rest m0 r hrest
      rw [he]
      have hget : dictGet? (m0 ++ extra) p = some r := by
        apply dictGet?_append_val
        · exact hc p hex
        · intro pr hpr _; exact hv pr hpr
      exact ⟨hget, by unfold consumedRole; rw [hget]; rfl⟩
    · have hstep : identifyStep (m0, c0) mrk =
          (m0 ++ mrk.images.map (fun img => (img.path, r)), some r) := by
        simp [identifyStep, hm, hi]
      rw [hstep]
      obtain ⟨extra, he, hv, hc⟩ :=
        identifyFold_sticky rest (m0 ++ mrk.images.map (fun img => (img.path, r))) r hrest
      rw [he, List.append_assoc]
      have hget : dictGet? (m0 ++ (mrk.images.map (fun img => (img.path, r)) ++ extra)) p
          = some r := by
        apply dictGet?_append_val
        · obtain ⟨v, hvmem⟩ := hc p hex
          exact ⟨v, List.mem_append.mpr (Or.inr hvmem)⟩
        · intro pr hpr _
          rcases List.mem_append.mp hpr with h' | h'
          · obtain ⟨img, _, hpr'⟩ := List.mem_map.mp h'
            rw [← hpr']
          · exact hv pr h'
      exact ⟨hget, by unfold consumedRole; rw [hget]; rfl⟩
  · intro pre rest p hpre hex hrest
    unfold identify_image_types
    rw [List.foldl_append, identifyFold_none pre [] hpre]
    have hget : dictGet? (rest.foldl identifyStep ([], none)).1 p = none := by
      apply dictGet?_none
      intro pr hpr
      rcases identifyFold_keys rest ([], none) pr hpr with h' | ⟨x, hx, hp⟩
      · simp at h'
      · obtain ⟨img, hin, hpath⟩ := List.mem_map.mp hp
        rw [← hpath]
        exact hrest x hx img hin
    exact ⟨hget, by unfold consumedRole; rw [hget]; rfl⟩

/-- C8 witness: on `c8Items`, the post-marker image is classified and
consumed as `question`, while the pre-marker image is unmapped and consumed
as `description`. -/
theorem c8_sticky_roles_witness :
    (dictGet? (identify_image_types c8Items) (sl "Pictures/after.png") = some (sl "question") ∧
     consumedRole (identify_image_types c8Items) (sl "Pictures/after.png") = sl "question") ∧
    (dictGet? (identify_image_types c8Items) (sl "Pictures/before.png") = none ∧
     consumedRole (identify_image_types c8Items) (sl "Pictures/before.png") = sl "description") := by
  constructor
  · exact c8_sticky_roles.1
      [⟨sl "intro text", [⟨[1], sl "png", sl "Pictures/before.png"⟩]⟩]
      ⟨sl "QuestionOptionImage:", []⟩
      [⟨sl "more text", [⟨[2], sl "png", sl "Pictures/after.png"⟩]⟩]
      (sl "question") (sl "Pictures/after.png")
      (by decide) (by decide) (by decide)
  · exact c8_sticky_roles.2
      [⟨sl "intro text", [⟨[1], sl "png", sl "Pictures/before.png"⟩]⟩]
      [⟨sl "QuestionOptionImage:", []⟩,
       ⟨sl "more text", [⟨[2], sl "png", sl "Pictures/after.png"⟩]⟩]
      (sl "Pictures/before.png")
      (by decide) (by decide) (by decide)

/-- When every remaining attempt fails, the retry loop falls through to the
shape-matching default: `"[]"` for JSON prompts, `""` otherwise. -/
theorem callGeminiFrom_fail (gem : Gem) (prompt : Str) (img : List Nat)
    (hfail : ∀ n, ∃ e, gem n prompt img = .error e) :
    ∀ t, callGeminiFrom gem prompt img t =
      if containsSub prompt (sl "JSON") then sl "[]" else [] := by
  intro t
  induction t with
  | zero => rfl
  | succ t ih =>
    obtain ⟨e, he⟩ := hfail (MAX_API_RETRIES - (t + 1))
    simp only [callGeminiFrom, he]
    exact ih

/-- C6: exhausted retries return shape-matching defaults instead of raising.
Under a transport whose every attempt fails, `call_gemini_with_retry`
returns `"[]"` for prompts mentioning JSON and `""` otherwise; dropdown
question extraction yields the empty list; plain text extraction yields the
empty string; and a `DROPDOWN` question still appears in the processed
output as a built `Question` element whose `QuestionOptions` and `Answers`
sections are present but empty. -/
theorem c6_retry_exhaustion_defaults (gem : Gem) (claude : Claude)
    (hfail : ∀ n p i, ∃ e, gem n p i = .error e) :
    (∀ (prompt : Str) (img : List Nat),
       call_gemini_with_retry gem prompt img =
         if containsSub prompt (sl "JSON") then sl "[]" else []) ∧
    (∀ img, extract_dropdown_questions gem false img = .arr []) ∧
    (∀ img, extract_text_from_image gem img = []) ∧
    (∀ q : Question, q.qtype = sl "DROPDOWN" →
       process_questions (realBuilder gem claude) [q] =
         [⟨q.number, sl "DROPDOWN", dropdownBuildXml gem q⟩] ∧
       dropdownBuildXml gem q = .mk (sl "Question") [] none
         ([leafX (sl "Kind") (sl "DropDown"), leafX (sl "DisplayKind") (sl "DropDown"),
           leafX (sl "QuestionNo") (pyStrOpt q.number)] ++
          add_sequential_content q ++
          [.mk (sl "QuestionOptions") [] none [], .mk (sl "Answers") [] none []] ++
          [leafX (sl "Id") []] ++
          add_explanation q)) := by
  have hcall : ∀ (prompt : Str) (img : List Nat),
      call_gemini_with_retry gem prompt img =
        if containsSub prompt (sl "JSON") then sl "[]" else [] := by
    intro prompt img
    exact callGeminiFrom_fail gem prompt img (fun n => hfail n prompt img) MAX_API_RETRIES
  have hq : ∀ img, extract_dropdown_questions gem false img = .arr [] := by
    intro img
    unfold extract_dropdown_questions
    rw [if_neg (by simp)]
    rw [hcall]
    rfl
  have htext : ∀ img, extract_text_from_image gem img = [] := by
    intro img
    unfold extract_text_from_image
    rw [hcall]
    rfl
  have hans : ∀ img, extract_dropdown_answers gem img = .arr [] := by
    intro img
    unfold extract_dropdown_answers
    rw [hcall]
    rfl
  refine ⟨hcall, hq, htext, ?_⟩
  intro q hdt
  have hupd : typeUpdate q = q := by
    unfold typeUpdate
    rw [if_neg]
    rw [hdt]
    rintro (h | h) <;> simp [sl] at h
  have hbuild : realBuilder gem claude q = .ok (dropdownBuildXml gem q) := by
    unfold realBuilder
    rw [hdt]
    rfl
  constructor
  · unfold process_questions processOne
    simp only [List.map_cons, List.map_nil, hupd, hbuild, hdt]
  · unfold dropdownBuildXml
    have hDE : ∀ img : Img, ddExtractQuestions gem img = [] := by
      intro img
      unfold ddExtractQuestions
      rw [hq img.data]
    have hDA : ∀ img : Img, ddExtractAnswers gem img = [] := by
      intro img
      unfold ddExtractAnswers
      rw [hans img.data]
    have hAA : ∀ aI : List Img, add_dropdown_answers gem [] aI = .mk (sl "Answers") [] none [] := by
      intro aI
      unfold add_dropdown_answers
      rcases aI with _ | ⟨a, rest⟩
      · rfl
      · rw [htext]
        rfl
    rcases hcat : ddGetCategorized q with ⟨qImages, aImages⟩
    clear hcat
    rcases qImages with _ | ⟨qi, qrest⟩ <;> rcases aImages with _ | ⟨ai, arest⟩
    · rfl
    · dsimp only
      rw [hDA ai, hAA]
      rfl
    · dsimp only
      rw [hDE qi]
      rfl
    · dsimp only
      rw [hDE qi, hDA ai, hAA]
      rfl

/-- C6 witness: with the always-failing transport `gemDead`, the plain-text
call returns `""`, dropdown extraction returns `[]`, and the concrete
dropdown question `c6q` is still processed into a `Question` element with
empty `QuestionOptions` and `Answers` sections. -/
theorem c6_retry_exhaustion_defaults_witness :
    call_gemini_with_retry gemDead textPrompt [] = [] ∧
    extract_dropdown_questions gemDead false [1] = .arr [] ∧
    process_questions (realBuilder gemDead claudeNone) [c6q] =
      [⟨some (sl "2"), sl "DROPDOWN", dropdownBuildXml gemDead c6q⟩] ∧
    dropdownBuildXml gemDead c6q = .mk (sl "Question") [] none
      ([leafX (sl "Kind") (sl "DropDown"), leafX (sl "DisplayKind") (sl "DropDown"),
        leafX (sl "QuestionNo") (pyStrOpt c6q.number)] ++
       add_sequential_content c6q ++
       [.mk (sl "QuestionOptions") [] none [], .mk (sl "Answers") [] none []] ++
       [leafX (sl "Id") []] ++
       add_explanation c6q) := by
  have h := c6_retry_exhaustion_defaults gemDead claudeNone (fun n p i => ⟨sl "down", rfl⟩)
  exact ⟨(h.1 textPrompt []).trans (by decide), h.2.1 [1],
    (h.2.2.2 c6q rfl).1, (h.2.2.2 c6q rfl).2⟩

/-- An element avoids tag `t` when its own tag differs and every child avoids it. -/
theorem noTag_mk {t tag : Str} {attrs : List (Str × Str)} {txt : Option Str}
    {ch : List XmlElem} (hne : tag ≠ t) (hch : ∀ e ∈ ch, ¬ HasTag t e) :
    ¬ HasTag t (.mk tag attrs txt ch) := by
  intro h
  cases h
  case here he => exact hne he
  case child e hm ht => exact hch e ht hm

/-- Leaf elements carry no descendant tags. -/
theorem noTag_leaf {t tag txt : Str} (hne : tag ≠ t) : ¬ HasTag t (leafX tag txt) :=
  noTag_mk hne (by simp)

/-- A fold whose step only appends `P`-elements preserves `P` over all members. -/
theorem foldl_mem_invariant {α β : Type} (P : β → Prop) (f : List β → α → List β)
    (hstep : ∀ acc x e, e ∈ f acc x → e ∈ acc ∨ P e) :
    ∀ (l : List α) (acc : List β), (∀ e ∈ acc, P e) → ∀ e ∈ l.foldl f acc, P e := by
  intro l
  induction l with
  | nil => intro acc h e he; exact h e he
  | cons x xs ih =>
    intro acc h e he
    refine ih (f acc x) ?_ e he
    intro e' he'
    rcases hstep acc x e' he' with h' | h'
    · exact h e' h'
    · exact h'

/-- Invert a successful `Except` bind. -/
theorem except_bind_ok {ε α β : Type} {x : Except ε α} {f : α → Except ε β} {b : β}
    (h : x >>= f = .ok b) : ∃ a, x = .ok a ∧ f a = .ok b := by
  cases x with
  | error e => exact absurd h (by simp [Bind.bind, Except.bind])
  | ok a => exact ⟨a, rfl, by simpa [Bind.bind, Except.bind] using h⟩

/-- Every element of a successful `mapM` output comes from some input element. -/
theorem mapM_ok_mem {ε α β : Type} (f : α → Except ε β) :
    ∀ (l : List α) (out : List β), l.mapM f = .ok out →
      ∀ x ∈ out, ∃ c ∈ l, f c = .ok x := by
  intro l
  induction l with
  | nil =>
    intro out h x hx
    simp only [List.mapM_nil, pure, Except.pure] at h
    cases h
    cases hx
  | cons c cs ih =>
    intro out h x hx
    rw [List.mapM_cons] at h
    obtain ⟨x0, hx0, h⟩ := except_bind_ok h
    obtain ⟨xs, hxs, h⟩ := except_bind_ok h
    simp only [pure, Except.pure] at h
    cases h
    rcases List.mem_cons.mp hx with rfl | hx'
    · exact ⟨c, List.mem_cons_self c cs, hx0⟩
    · obtain ⟨c', hc', hfc⟩ := ih xs hxs x hx'
      exact ⟨c', List.mem_cons_of_mem c hc', hfc⟩

/-- Image content nodes contain no `CaseStudyDetails` tag. -/
theorem noTag_imgContent (img : Img) (a b : Bool) :
    ¬ HasTag (sl "CaseStudyDetails") (add_image_content img a b) := by
  unfold add_image_content
  refine noTag_mk (by decide) ?_
  intro e he
  simp only [List.mem_cons, List.not_mem_nil, or_false] at he
  rcases he with rfl | rfl | rfl
  all_goals exact noTag_leaf (by decide)

/-- Sequential content nodes contain no `CaseStudyDetails` tag. -/
theorem noTag_seq (q : Question) :
    ∀ e ∈ add_sequential_content q, ¬ HasTag (sl "CaseStudyDetails") e := by
  unfold add_sequential_content
  refine foldl_mem_invariant _ _ ?_ q.content_items [] (by simp)
  intro acc item e he
  dsimp only at he
  rw [List.append_assoc] at he
  rcases List.mem_append.mp he with he | he
  · exact Or.inl he
  · right
    rcases List.mem_append.mp he with he | he
    · split_ifs at he
      · simp only [List.mem_singleton] at he
        subst he
        refine noTag_mk (by decide) ?_
        intro e' he'
        simp only [List.mem_cons, List.not_mem_nil, or_false] at he'
        rcases he' with rfl | rfl
        all_goals exact noTag_leaf (by decide)
      · cases he
      · cases he
    · refine foldl_mem_invariant (¬ HasTag (sl "CaseStudyDetails") ·) _ ?_
        item.images [] (by simp) e he
      intro acc2 img e' he'
      split_ifs at he'
      · rcases List.mem_append.mp he' with h' | h'
        · exact Or.inl h'
        · simp only [List.mem_singleton] at h'
          subst h'
          exact Or.inr (noTag_imgContent _ _ _)
      · rcases List.mem_append.mp he' with h' | h'
        · exact Or.inl h'
        · simp only [List.mem_singleton] at h'
          subst h'
          exact Or.inr (noTag_imgContent _ _ _)
      · exact Or.inl he'

/-- An explanation element over arbitrary paragraphs and references contains
no `CaseStudyDetails` tag. -/
theorem noTag_explElem (paras refs : List Str) (e : XmlElem)
    (he : e ∈ [XmlElem.mk (sl "Explanation") [] none
      (paras.map (fun p => XmlElem.mk (sl "Contents") [] none
        [leafX (sl "ContentType") (sl "Text"), leafX (sl "Text") p]) ++
       refs.map (fun l => XmlElem.mk (sl "Contents") [] none
        [leafX (sl "ContentType") (sl "Link"), leafX (sl "Link") l]))]) :
    ¬ HasTag (sl "CaseStudyDetails") e := by
  simp only [List.mem_singleton] at he
  subst he
  refine noTag_mk (by decide) ?_
  intro e' he'
  rcases List.mem_append.mp he' with h' | h' <;>
    · obtain ⟨p, _, hp⟩ := List.mem_map.mp h'
      subst hp
      refine noTag_mk (by decide) ?_
      intro e2 he2
      simp only [List.mem_cons, List.not_mem_nil, or_false] at he2
      rcases he2 with rfl | rfl
      all_goals exact noTag_leaf (by decide)

/-- Explanation nodes contain no `CaseStudyDetails` tag. -/
theorem noTag_expl (q : Question) :
    ∀ e ∈ add_explanation q, ¬ HasTag (sl "CaseStudyDetails") e := by
  unfold add_explanation
  intro e he
  dsimp only at he
  split_ifs at he
  · exact noTag_explElem _ _ e he
  · exact noTag_explElem _ _ e he
  · cases he

/-- The dropdown `QuestionOptions` element contains no `CaseStudyDetails` tag. -/
theorem noTag_ddOptions (questionData : List PyJson) :
    ¬ HasTag (sl "CaseStudyDetails") (add_dropdown_options questionData) := by
  unfold add_dropdown_options
  refine noTag_mk (by decide) ?_
  refine foldl_mem_invariant (¬ HasTag (sl "CaseStudyDetails") ·) _ ?_
    (questionData.zip (List.range questionData.length)) [] (by simp)
  intro acc p e he
  rcases hp : p.1 with _ | _ | _ | _ | _ | qd
  all_goals rw [hp] at he
  all_goals try exact Or.inl he
  · rcases List.mem_append.mp he with h' | h'
    · exact Or.inl h'
    · simp only [List.mem_singleton] at h'
      subst h'
      right
      refine noTag_mk (by decide) ?_
      intro e2 he2
      simp only [List.mem_cons, List.not_mem_nil, or_false] at he2
      rcases he2 with rfl | rfl | rfl | rfl
      · exact noTag_leaf (by decide)
      · exact noTag_leaf (by decide)
      · exact noTag_leaf (by decide)
      · refine noTag_mk (by decide) ?_
        intro e3 he3
        obtain ⟨o, _, ho⟩ := List.mem_map.mp he3
        subst ho
        exact noTag_leaf (by decide)

/-- The dropdown `Answers` element contains no `CaseStudyDetails` tag. -/
theorem noTag_ddAnswers (gem : Gem) (answersData : List PyJson) (aImages : List Img) :
    ¬ HasTag (sl "CaseStudyDetails") (add_dropdown_answers gem answersData aImages) := by
  unfold add_dropdown_answers
  refine noTag_mk (by decide) ?_
  split_ifs
  · refine foldl_mem_invariant (¬ HasTag (sl "CaseStudyDetails") ·) _ ?_
      (splitOnCh '\n' (pyStrip (extract_text_from_image gem (aImages.headD ⟨[], [], []⟩).data)))
      [] (by simp)
    intro acc line e he
    rcases hf : findSub line (sl ":") with _ | i
    all_goals rw [hf] at he
    · exact Or.inl he
    · dsimp only at he
      split_ifs at he
      · rcases List.mem_append.mp he with h' | h'
        · exact Or.inl h'
        · simp only [List.mem_singleton] at h'
          subst h'
          exact Or.inr (noTag_mk (by decide) (by simp))
      · exact Or.inl he
  · refine foldl_mem_invariant (¬ HasTag (sl "CaseStudyDetails") ·) _ ?_
      answersData [] (by simp)
    intro acc item e he
    rcases hi : item with _ | _ | _ | _ | _ | kvs
    all_goals rw [hi] at he
    all_goals try exact Or.inl he
    rcases List.mem_append.mp he with h' | h'
    · exact Or.inl h'
    · simp only [List.mem_singleton] at h'
      subst h'
      exact Or.inr (noTag_mk (by decide) (by simp))

/-- A built dropdown question contains no `CaseStudyDetails` tag. -/
theorem noTag_dropdown (gem : Gem) (q : Question) :
    ¬ HasTag (sl "CaseStudyDetails") (dropdownBuildXml gem q) := by
  unfold dropdownBuildXml
  rcases ddGetCategorized q with ⟨qImages, aImages⟩
  refine noTag_mk (by decide) ?_
  intro e he
  rcases List.mem_append.mp he with he | hexpl
  · rcases List.mem_append.mp he with he | hid
    · rcases List.mem_append.mp he with he | hoa
      · rcases List.mem_append.mp he with habc | hseq
        · simp only [List.mem_cons, List.not_mem_nil, or_false] at habc
          rcases habc with rfl | rfl | rfl
          all_goals exact noTag_leaf (by decide)
        · exact noTag_seq q e hseq
      · simp only [List.mem_cons, List.not_mem_nil, or_false] at hoa
        rcases hoa with rfl | rfl
        · exact noTag_ddOptions _
        · exact noTag_ddAnswers _ _ _
    · simp only [List.mem_singleton] at hid
      subst hid
      exact noTag_leaf (by decide)
  · exact noTag_expl q e hexpl

/-- Text-choice nodes contain no `CaseStudyDetails` tag. -/
theorem noTag_textChoices (options : List (Str × Str)) (correct : List Str) :
    ∀ e ∈ add_text_choices options correct, ¬ HasTag (sl "CaseStudyDetails") e := by
  unfold add_text_choices
  intro e he
  rcases List.mem_append.mp he with h' | h'
  · obtain ⟨p, _, hp⟩ := List.mem_map.mp h'
    subst hp
    refine noTag_mk (by decide) ?_
    intro e2 he2
    simp only [List.mem_cons, List.not_mem_nil, or_false] at he2
    rcases he2 with rfl | rfl
    · exact noTag_leaf (by decide)
    · refine noTag_mk (by decide) ?_
      intro e3 he3
      simp only [List.mem_cons, List.not_mem_nil, or_false] at he3
      rcases he3 with rfl | rfl
      all_goals exact noTag_leaf (by decide)
  · split_ifs at h'
    · simp only [List.mem_singleton] at h'
      subst h'
      refine noTag_mk (by decide) ?_
      intro e2 he2
      obtain ⟨a, _, ha⟩ := List.mem_map.mp he2
      subst ha
      exact noTag_leaf (by decide)
    · cases h'

/-- A built text-based question contains no `CaseStudyDetails` tag. -/
theorem noTag_textBased (q : Question) :
    ¬ HasTag (sl "CaseStudyDetails") (textBasedBuildXml q) := by
  unfold textBasedBuildXml
  rcases extract_text_options q with ⟨options, correct⟩
  refine noTag_mk (by decide) ?_
  intro e he
  rcases List.mem_append.mp he with he | hexpl
  · rcases List.mem_append.mp he with he | hid
    · rcases List.mem_append.mp he with he | hch
      · rcases List.mem_append.mp he with habc | hseq
        · simp only [List.mem_cons, List.not_mem_nil, or_false] at habc
          rcases habc with rfl | rfl | rfl
          all_goals exact noTag_leaf (by decide)
        · exact noTag_seq q e hseq
      · exact noTag_textChoices options correct e hch
    · simp only [List.mem_singleton] at hid
      subst hid
      exact noTag_leaf (by decide)
  · exact noTag_expl q e hexpl

/-- The exception fallback element contains no `CaseStudyDetails` tag. -/
theorem noTag_fallback (n : Option Str) (t msg : Str) :
    ¬ HasTag (sl "CaseStudyDetails") (fallbackElem n t msg) := by
  unfold fallbackElem
  refine noTag_mk (by decide) ?_
  intro e he
  simp only [List.mem_cons, List.not_mem_nil, or_false] at he
  rcases he with rfl | rfl | rfl
  all_goals exact noTag_leaf (by decide)

/-- The common build shell contains no `CaseStudyDetails` tag when its
specific elements contain none. -/
theorem noTag_questionShell (q : Question) (kind : Str) (specific : List XmlElem)
    (hspec : ∀ e ∈ specific, ¬ HasTag (sl "CaseStudyDetails") e) :
    ¬ HasTag (sl "CaseStudyDetails") (questionShell q kind specific) := by
  unfold questionShell
  refine noTag_mk (by decide) ?_
  intro e he
  rcases List.mem_append.mp he with he | hexpl
  · rcases List.mem_append.mp he with he | hid
    · rcases List.mem_append.mp he with he | hsp
      · rcases List.mem_append.mp he with habc | hseq
        · simp only [List.mem_cons, List.not_mem_nil, or_false] at habc
          rcases habc with rfl | rfl | rfl
          all_goals exact noTag_leaf (by decide)
        · exact noTag_seq q e hseq
      · exact hspec e hsp
    · simp only [List.mem_singleton] at hid
      subst hid
      exact noTag_leaf (by decide)
  · exact noTag_expl q e hexpl

/-- The hotspot `QuestionOptions` element contains no `CaseStudyDetails` tag. -/
theorem noTag_addOptions (options : List (Str × List Str)) :
    ¬ HasTag (sl "CaseStudyDetails") (add_options_to_xml options) := by
  unfold add_options_to_xml
  refine noTag_mk (by decide) ?_
  intro e he
  obtain ⟨p, _, hp⟩ := List.mem_map.mp he
  subst hp
  refine noTag_mk (by decide) ?_
  intro e2 he2
  simp only [List.mem_cons, List.not_mem_nil, or_false] at he2
  rcases he2 with rfl | rfl
  · exact noTag_leaf (by decide)
  · refine noTag_mk (by decide) ?_
    intro e3 he3
    obtain ⟨o, _, ho⟩ := List.mem_map.mp he3
    subst ho
    exact noTag_leaf (by decide)

/-- The hotspot `Answers` element contains no `CaseStudyDetails` tag. -/
theorem noTag_addAnswers (l : List HotAns) (options : List (Str × List Str)) :
    ¬ HasTag (sl "CaseStudyDetails") (add_answers_to_xml l options) := by
  unfold add_answers_to_xml
  refine noTag_mk (by decide) ?_
  intro e he
  split_ifs at he
  · obtain ⟨a, _, ha⟩ := List.mem_map.mp he
    subst ha
    exact noTag_mk (by decide) (by simp [hotspotAnswerElem])
  · cases he

/-- Invert a successful `Except` map. -/
theorem except_map_ok {ε α β : Type} {x : Except ε α} {f : α → β} {b : β}
    (h : x.map f = .ok b) : ∃ a, x = .ok a ∧ f a = b := by
  cases x with
  | error e => exact absurd h (by simp [Except.map])
  | ok a => exact ⟨a, rfl, by simpa [Except.map] using h⟩

/-- A successfully assembled hotspot answers element contains no
`CaseStudyDetails` tag. -/
theorem noTag_hotspotAnswersXml (d : PyJson) (options : List (Str × List Str))
    (e : XmlElem) (h : hotspot_answers_xml d options = .ok e) :
    ¬ HasTag (sl "CaseStudyDetails") e := by
  unfold hotspot_answers_xml at h
  split_ifs at h
  · rcases d with _ | _ | _ | _ | items | _
    all_goals first
      | (cases h)
      | (obtain ⟨l, _, hl⟩ := except_map_ok h
         subst hl
         exact noTag_addAnswers l options)
  · injection h with h
    subst h
    exact noTag_addAnswers [] options

/-- A successfully built hotspot question contains no `CaseStudyDetails` tag. -/
theorem noTag_hotspotBuild (gem : Gem) (q : Question) (e : XmlElem)
    (h : hotspotBuildXml gem q = .ok e) : ¬ HasTag (sl "CaseStudyDetails") e := by
  unfold hotspotBuildXml at h
  obtain ⟨specific, hs, he⟩ := except_map_ok h
  subst he
  refine noTag_questionShell q _ specific ?_
  unfold hotspotSpecific at hs
  rcases hqa : getQAImages q with ⟨qImages, aImages⟩
  rw [hqa] at hs
  dsimp only at hs
  rcases aImages with _ | ⟨ai, arest⟩
  · injection hs with hs
    subst hs
    intro e2 he2
    rcases qImages with _ | ⟨qi, qrest⟩
    · cases he2
    · simp only [List.mem_singleton] at he2
      subst he2
      exact noTag_addOptions _
  · obtain ⟨ansElem, hans, hl⟩ := except_map_ok hs
    subst hl
    intro e2 he2
    rcases List.mem_append.mp he2 with h2 | h2
    · rcases qImages with _ | ⟨qi, qrest⟩
      · cases h2
      · simp only [List.mem_singleton] at h2
        subst h2
        exact noTag_addOptions _
    · simp only [List.mem_singleton] at h2
      subst h2
      exact noTag_hotspotAnswersXml _ _ _ hans

/-- A successfully rendered drag-drop column contains no `CaseStudyDetails`
tag. -/
theorem noTag_columnElem (col : PyJson) (e : XmlElem)
    (h : columnElem col = .ok e) : ¬ HasTag (sl "CaseStudyDetails") e := by
  unfold columnElem at h
  rcases col with _ | _ | _ | _ | _ | kvs
  all_goals try cases h
  dsimp only at h
  split_ifs at h
  all_goals
    obtain ⟨heading, _, h⟩ := except_bind_ok h
    obtain ⟨items, _, h⟩ := except_bind_ok h
    obtain ⟨itemElems, hitems, h⟩ := except_bind_ok h
    injection h with h
    subst h
    refine noTag_mk (by decide) ?_
    intro e2 he2
    obtain ⟨it, _, hf⟩ := mapM_ok_mem _ items itemElems hitems e2 he2
    obtain ⟨s, _, hs⟩ := except_map_ok hf
    subst hs
    exact noTag_leaf (by decide)

/-- A successful `DynamicColumns` element contains no `CaseStudyDetails` tag. -/
theorem noTag_addColumns (columnsData : PyJson) (e : XmlElem)
    (h : add_columns_to_xml columnsData = .ok e) :
    ¬ HasTag (sl "CaseStudyDetails") e := by
  unfold add_columns_to_xml at h
  rcases columnsData with _ | _ | _ | _ | _ | kvs
  all_goals dsimp only at h
  all_goals obtain ⟨colsVal, hcv, h⟩ := except_bind_ok h
  all_goals try exact Except.noConfusion hcv
  injection hcv with hcv
  subst hcv
  obtain ⟨cols, _, h⟩ := except_bind_ok h
  obtain ⟨colElems, hcols, h⟩ := except_bind_ok h
  injection h with h
  subst h
  refine noTag_mk (by decide) ?_
  intro e2 he2
  obtain ⟨col, _, hf⟩ := mapM_ok_mem _ cols colElems hcols e2 he2
  exact noTag_columnElem col e2 hf

/-- A successfully rendered answer pair contains no `CaseStudyDetails` tag. -/
theorem noTag_pairElem (pair : PyJson) (e : XmlElem)
    (h : pairElem pair = .ok e) : ¬ HasTag (sl "CaseStudyDetails") e := by
  unfold pairElem at h
  rcases pair with _ | _ | _ | _ | _ | kvs
  all_goals try cases h
  dsimp only at h
  obtain ⟨cols, hcols, h⟩ := except_bind_ok h
  injection h with h
  subst h
  refine noTag_mk (by decide) ?_
  intro e2 he2
  obtain ⟨kv, _, hf⟩ := mapM_ok_mem _ (pyDictItems kvs) cols hcols e2 he2
  obtain ⟨v, _, hv⟩ := except_map_ok hf
  subst hv
  exact noTag_mk (by decide) (by simp)

/-- A successful `AnswerPairs` element contains no `CaseStudyDetails` tag. -/
theorem noTag_addPairs (answerPairs : PyJson) (e : XmlElem)
    (h : add_answer_pairs_to_xml answerPairs = .ok e) :
    ¬ HasTag (sl "CaseStudyDetails") e := by
  unfold add_answer_pairs_to_xml at h
  obtain ⟨pairs, _, h⟩ := except_bind_ok h
  obtain ⟨pairElems, hpairs, h⟩ := except_bind_ok h
  injection h with h
  subst h
  refine noTag_mk (by decide) ?_
  intro e2 he2
  obtain ⟨pair, _, hf⟩ := mapM_ok_mem _ pairs pairElems hpairs e2 he2
  exact noTag_pairElem pair e2 hf

/-- A successfully built drag-drop question contains no `CaseStudyDetails`
tag. -/
theorem noTag_dragdropBuild (gem : Gem) (q : Question) (e : XmlElem)
    (h : dragdropBuildXml gem q = .ok e) : ¬ HasTag (sl "CaseStudyDetails") e := by
  unfold dragdropBuildXml at h
  obtain ⟨specific, hs, he⟩ := except_map_ok h
  subst he
  refine noTag_questionShell q _ specific ?_
  unfold dragdropSpecific at hs
  rcases hqa : getQAImages q with ⟨qImages, aImages⟩
  rw [hqa] at hs
  dsimp only at hs
  obtain ⟨part1, hp1, hs⟩ := except_bind_ok hs
  have hpart1 : ∀ e2 ∈ part1, ¬ HasTag (sl "CaseStudyDetails") e2 := by
    rcases qImages with _ | ⟨qi, qrest⟩
    · injection hp1 with hp1
      subst hp1
      intro e2 he2
      cases he2
    · obtain ⟨c, hc, hl⟩ := except_map_ok hp1
      subst hl
      intro e2 he2
      simp only [List.mem_singleton] at he2
      subst he2
      exact noTag_addColumns _ _ hc
  rcases aImages with _ | ⟨ai, arest⟩
  · injection hs with hs
    subst hs
    exact hpart1
  · obtain ⟨p, hp, hl⟩ := except_map_ok hs
    subst hl
    intro e2 he2
    rcases List.mem_append.mp he2 with h2 | h2
    · exact hpart1 e2 h2
    · simp only [List.mem_singleton] at h2
      subst h2
      exact noTag_addPairs _ _ hp

/-- A built fill-in-the-blank question contains no `CaseStudyDetails` tag. -/
theorem noTag_fibBuild (q : Question) :
    ¬ HasTag (sl "CaseStudyDetails") (fibBuildXml q) := by
  unfold fibBuildXml
  refine noTag_questionShell q _ _ ?_
  unfold fibSpecific
  intro e he
  dsimp only at he
  split_ifs at he
  · simp only [List.mem_singleton] at he
    subst he
    refine noTag_mk (by decide) ?_
    intro e2 he2
    obtain ⟨a, _, ha⟩ := List.mem_map.mp he2
    subst ha
    exact noTag_leaf (by decide)
  · cases he

/-- A built simulation question contains no `CaseStudyDetails` tag. -/
theorem noTag_simBuild (q : Question) :
    ¬ HasTag (sl "CaseStudyDetails") (simulationBuildXml q) := by
  unfold simulationBuildXml
  refine noTag_questionShell q _ _ ?_
  unfold simSpecific
  intro e he
  dsimp only at he
  split_ifs at he
  · simp only [List.mem_singleton] at he
    subst he
    exact noTag_leaf (by decide)
  · cases he

/-- The positioned-dropdown option and answer elements contain no
`CaseStudyDetails` tag, whatever records the oracle returns. -/
theorem noTag_posDropdownElems (dropdowns : List PosDropdown) :
    ∀ e ∈ add_positioned_dropdown_to_xml dropdowns,
      ¬ HasTag (sl "CaseStudyDetails") e := by
  unfold add_positioned_dropdown_to_xml
  intro e he
  dsimp only at he
  simp only [List.mem_cons, List.not_mem_nil, or_false] at he
  rcases he with rfl | rfl
  · refine noTag_mk (by decide) ?_
    intro e2 he2
    obtain ⟨d, _, hd⟩ := List.mem_map.mp he2
    subst hd
    refine noTag_mk (by decide) ?_
    intro e3 he3
    simp only [List.mem_cons, List.not_mem_nil, or_false] at he3
    rcases he3 with rfl | rfl | rfl | rfl | rfl | rfl | rfl | rfl | rfl
    · exact noTag_leaf (by decide)
    · exact noTag_leaf (by decide)
    · exact noTag_leaf (by decide)
    · exact noTag_leaf (by decide)
    · exact noTag_leaf (by decide)
    · exact noTag_mk (by decide) (by simp)
    · exact noTag_mk (by decide) (by simp)
    · exact noTag_mk (by decide) (by simp)
    · refine noTag_mk (by decide) ?_
      intro e4 he4
      obtain ⟨o, _, ho⟩ := List.mem_map.mp he4
      subst ho
      split_ifs
      · exact noTag_mk (by decide) (by simp)
      · exact noTag_leaf (by decide)
  · refine noTag_mk (by decide) ?_
    intro e2 he2
    obtain ⟨d, _, hmem⟩ := List.mem_flatMap.mp he2
    obtain ⟨so, _, hso⟩ := List.mem_map.mp hmem
    subst hso
    exact noTag_mk (by decide) (by simp)

/-- A built positioned-dropdown question contains no `CaseStudyDetails` tag. -/
theorem noTag_posDropdownBuild (claude : Claude) (q : Question) :
    ¬ HasTag (sl "CaseStudyDetails") (posDropdownBuildXml claude q) := by
  unfold posDropdownBuildXml
  refine noTag_questionShell q _ _ ?_
  unfold posDropdownSpecific
  rcases hpi : positionedImagesOf q with _ | ⟨pi, rest⟩
  all_goals dsimp only
  · intro e he
    cases he
  · rcases hc : claude pi.data with _ | dropdowns
    all_goals dsimp only
    · intro e he
      cases he
    · exact noTag_posDropdownElems dropdowns

/-- A successfully built positioned drag-drop question contains no
`CaseStudyDetails` tag. -/
theorem noTag_posDragDropBuild (q : Question) (e : XmlElem)
    (h : posDragDropBuildXml q = .ok e) : ¬ HasTag (sl "CaseStudyDetails") e := by
  unfold posDragDropBuildXml at h
  rcases hb : backgroundImagesOf q with _ | ⟨b, brest⟩
  all_goals rw [hb] at h
  · injection h with h
    subst h
    exact noTag_questionShell q _ [] (by simp)
  · rcases hp : positionedImagesOf q with _ | ⟨p, prest⟩
    all_goals rw [hp] at h
    · injection h with h
      subst h
      exact noTag_questionShell q _ [] (by simp)
    · cases h

/-- Whatever the dispatched builder returns contains no `CaseStudyDetails`
tag, for every question kind of the factory. -/
theorem noTag_realBuilder (gem : Gem) (claude : Claude) (q : Question) (e : XmlElem)
    (h : realBuilder gem claude q = .ok e) : ¬ HasTag (sl "CaseStudyDetails") e := by
  unfold realBuilder at h
  dsimp only at h
  split_ifs at h
  · exact noTag_hotspotBuild gem q e h
  · exact noTag_dragdropBuild gem q e h
  · injection h with h
    subst h
    exact noTag_dropdown gem q
  · injection h with h
    subst h
    exact noTag_fibBuild q
  · injection h with h
    subst h
    exact noTag_posDropdownBuild claude q
  · exact noTag_posDragDropBuild q e h
  · injection h with h
    subst h
    exact noTag_simBuild q
  · injection h with h
    subst h
    exact noTag_textBased q

/-- A processed question's element contains no `CaseStudyDetails` tag. -/
theorem noTag_processOne (gem : Gem) (claude : Claude) (q : Question) :
    ¬ HasTag (sl "CaseStudyDetails") (processOne (realBuilder gem claude) q).element := by
  unfold processOne
  dsimp only
  rcases hb : realBuilder gem claude (typeUpdate q) with msg | e
  · exact noTag_fallback _ _ _
  · exact noTag_realBuilder gem claude (typeUpdate q) e hb

/-- Rendered segment entries contain no `CaseStudyDetails` tag. -/
theorem noTag_segEntry (s : SegEntry) :
    ¬ HasTag (sl "CaseStudyDetails") (segEntryXml s) := by
  rcases s with t | t | ⟨img, u⟩
  all_goals
    refine noTag_mk (by decide) ?_
    intro e he
    simp only [List.mem_cons, List.not_mem_nil, or_false] at he
  · rcases he with rfl | rfl
    all_goals exact noTag_leaf (by decide)
  · rcases he with rfl | rfl
    all_goals exact noTag_leaf (by decide)
  · rcases he with rfl | rfl | rfl
    all_goals exact noTag_leaf (by decide)

/-- The case-study element emits `CaseStudy` and `Segments` tags, never
`CaseStudyDetails`. -/
theorem noTag_caseStudyElem (cs : CaseStudy) :
    ¬ HasTag (sl "CaseStudyDetails") (build_xml_for_case_study cs) := by
  unfold build_xml_for_case_study
  refine noTag_mk (by decide) ?_
  intro e he
  rcases List.mem_append.mp he with he | he
  · simp only [List.mem_cons, List.not_mem_nil, or_false] at he
    rcases he with rfl | rfl
    all_goals exact noTag_leaf (by decide)
  · obtain ⟨seg, _, hseg⟩ := List.mem_map.mp he
    subst hseg
    refine noTag_mk (by decide) ?_
    intro e2 he2
    rcases List.mem_cons.mp he2 with rfl | he2
    · exact noTag_leaf (by decide)
    · obtain ⟨s, _, hs⟩ := List.mem_map.mp he2
      subst hs
      exact noTag_segEntry s

/-- A successful result insertion only rearranges its inputs. -/
theorem insertR_mem (x : QResult) :
    ∀ (ys l : List QResult), insertR x ys = .ok l → ∀ z ∈ l, z = x ∨ z ∈ ys := by
  intro ys
  induction ys with
  | nil =>
    intro l h z hz
    unfold insertR at h
    injection h with h
    subst h
    simp only [List.mem_singleton] at hz
    exact Or.inl hz
  | cons y ys ih =>
    intro l h z hz
    unfold insertR at h
    obtain ⟨kx, hkx, h⟩ := except_bind_ok h
    obtain ⟨ky, hky, h⟩ := except_bind_ok h
    obtain ⟨lt, hlt, h⟩ := except_bind_ok h
    rcases lt with _ | _
    · obtain ⟨rest, hrest, h⟩ := except_bind_ok h
      injection h with h
      subst h
      rcases List.mem_cons.mp hz with he | hz'
      · exact Or.inr (List.mem_cons.mpr (Or.inl he))
      · rcases ih rest hrest z hz' with h' | h'
        · exact Or.inl h'
        · exact Or.inr (List.mem_cons_of_mem y h')
    · injection h with h
      subst h
      rcases List.mem_cons.mp hz with he | hz'
      · exact Or.inl he
      · exact Or.inr hz'

/-- Members of a successful result sort come from the accumulator or input. -/
theorem sortResults_mem :
    ∀ (l acc out : List QResult),
      List.foldlM (fun a x => insertR x a) acc l = .ok out →
      ∀ z ∈ out, z ∈ acc ∨ z ∈ l := by
  intro l
  induction l with
  | nil =>
    intro acc out h z hz
    simp only [List.foldlM_nil, pure, Except.pure] at h
    injection h with h
    subst h
    exact Or.inl hz
  | cons x xs ih =>
    intro acc out h z hz
    rw [List.foldlM_cons] at h
    obtain ⟨acc', hacc', h⟩ := except_bind_ok h
    rcases ih acc' out h z hz with h' | h'
    · rcases insertR_mem x acc acc' hacc' z h' with h'' | h''
      · exact Or.inr (h'' ▸ List.mem_cons_self x xs)
      · exact Or.inl h''
    · exact Or.inr (List.mem_cons_of_mem x h')

/-- The post-pass loop is the identity on text without the opening tag. -/
theorem fixDetailsGo_no_open (s : Str) (hfind : findSub s cdOpen = none) :
    ∀ fuel, fixDetailsGo fuel s = s := by
  intro fuel
  cases fuel with
  | zero => rfl
  | succ f => simp only [fixDetailsGo, hfind]

/-- C9: the serialization post-pass and what it can ever match.  First, on
text that does contain a literal details section, the post-pass replaces the
escaped angle-bracket entities of the section content with literal brackets
(concrete check).  Second, the element tree built by the assembler never
contains a `CaseStudyDetails` element for any inputs, and third, the
post-pass is the identity on any serialized text lacking the literal opening
tag — so the unescape can never fire on this pipeline's own output (see the
counterexample for the escaped markup that consequently survives). -/
theorem c9_details_unescape_postpass :
    (fix_case_study_details_tags
       (sl "<CaseStudyDetails>&lt;CaseStudyHeading&gt;Overview&lt;/CaseStudyHeading&gt;</CaseStudyDetails>") =
       sl "<CaseStudyDetails><CaseStudyHeading>Overview</CaseStudyHeading></CaseStudyDetails>") ∧
    (∀ (gem : Gem) (claude : Claude) (standalone : List Question)
       (caseStudies : List CaseStudy) (tr : XmlElem),
       generate_xml_tree gem claude standalone caseStudies = .ok tr →
       ¬ HasTag (sl "CaseStudyDetails") tr) ∧
    (∀ s : Str, containsSub s cdOpen = false → fix_case_study_details_tags s = s) := by
  refine ⟨by decide, ?_, ?_⟩
  · intro gem claude standalone caseStudies tr h
    unfold generate_xml_tree at h
    obtain ⟨sorted, hs, h⟩ := except_bind_ok h
    obtain ⟨testlets, ht, h⟩ := except_bind_ok h
    dsimp only at h
    have hroot : ∃ sts : List XmlElem,
        tr = .mk (sl "root") [] none (rootMetadata standalone caseStudies ++ testlets ++ sts) ∧
        (sts = [] ∨ ∃ rs, sortResults (process_questions (realBuilder gem claude) standalone) = .ok rs ∧
          sts = [XmlElem.mk (sl "Testlets") [] none (rs.map QResult.element)]) := by
      by_cases hs0 : standalone.isEmpty
      · rw [if_pos hs0] at h
        injection h with h
        exact ⟨[], h.symm, Or.inl rfl⟩
      · rw [if_neg hs0] at h
        obtain ⟨rs, hrs, h⟩ := except_bind_ok h
        injection h with h
        exact ⟨_, h.symm, Or.inr ⟨rs, hrs, rfl⟩⟩
    obtain ⟨sts, htr, hsts⟩ := hroot
    subst htr
    refine noTag_mk (by decide) ?_
    intro e he
    rcases List.mem_append.mp he with he | he
    · rcases List.mem_append.mp he with he | he
      · unfold rootMetadata at he
        dsimp only at he
        simp only [List.mem_cons, List.not_mem_nil, or_false] at he
        rcases he with rfl|rfl|rfl|rfl|rfl|rfl|rfl|rfl|rfl|rfl|rfl
        all_goals exact noTag_leaf (by decide)
      · obtain ⟨cs, hcs, hf⟩ := mapM_ok_mem _ sorted testlets ht e he
        dsimp only at hf
        by_cases hq0 : cs.questions.isEmpty
        · rw [if_pos hq0] at hf
          simp only [pure, Except.pure] at hf
          injection hf with hf
          subst hf
          refine noTag_mk (by decide) ?_
          intro e2 he2
          simp only [List.mem_singleton] at he2
          subst he2
          exact noTag_caseStudyElem cs
        · rw [if_neg hq0] at hf
          obtain ⟨rs, hrs, hf⟩ := except_bind_ok hf
          simp only [pure, Except.pure] at hf
          injection hf with hf
          subst hf
          refine noTag_mk (by decide) ?_
          intro e2 he2
          rcases List.mem_cons.mp he2 with rfl | he2
          · exact noTag_caseStudyElem cs
          · obtain ⟨r, hr, hre⟩ := List.mem_map.mp he2
            subst hre
            have hmem := sortResults_mem _ [] rs hrs r hr
            simp only [List.not_mem_nil, false_or] at hmem
            obtain ⟨q0, _, hq⟩ := List.mem_map.mp hmem
            subst hq
            exact noTag_processOne gem claude q0
    · rcases hsts with rfl | ⟨rs, hrs, rfl⟩
      · cases he
      · simp only [List.mem_singleton] at he
        subst he
        refine noTag_mk (by decide) ?_
        intro e2 he2
        obtain ⟨r, hr, hre⟩ := List.mem_map.mp he2
        subst hre
        have hmem := sortResults_mem _ [] rs hrs r hr
        simp only [List.not_mem_nil, false_or] at hmem
        obtain ⟨q0, _, hq⟩ := List.mem_map.mp hmem
        subst hq
        exact noTag_processOne gem claude q0
  · intro s hs0
    have hfind : findSub s cdOpen = none := by
      cases hf : findSub s cdOpen with
      | none => rfl
      | some i =>
        unfold containsSub at hs0
        rw [hf] at hs0
        cases hs0
    unfold fix_case_study_details_tags
    exact fixDetailsGo_no_open s hfind _

/-- C9 counterexample: the tree generated for `c9cs` carries its segment
markup as text; its serialized details content `c9Escaped` (tagged
`CaseStudy`, not `CaseStudyDetails`) passes through the post-pass unchanged,
keeping the escaped `&lt;CaseStudyHeading&gt;` entities and never yielding
literal `<CaseStudyHeading>` markup. -/
theorem c9_escaped_markup_counterexample :
    generate_xml_tree gemNone claudeNone [] [c9cs] = .ok c9Tree ∧
    fix_case_study_details_tags c9Escaped = c9Escaped ∧
    containsSub c9Escaped (sl "&lt;CaseStudyHeading&gt;") = true ∧
    containsSub c9Escaped (sl "<CaseStudyHeading>") = false :=
  ⟨rfl, by decide, by decide, by decide⟩

/-- C9 witness: the no-details-tag clause applied to the concrete tree built
for `c9cs`, and the identity clause applied to its serialized form. -/
theorem c9_details_unescape_postpass_witness :
    (¬ HasTag (sl "CaseStudyDetails") c9Tree) ∧
    fix_case_study_details_tags c9Escaped = c9Escaped := by
  constructor
  · exact c9_details_unescape_postpass.2.1 gemNone claudeNone [] [c9cs] c9Tree rfl
  · exact c9_details_unescape_postpass.2.2 c9Escaped (by decide)
